import Mathlib

/-!
# Card-aware audio sessions of the Anki text-to-speech fragments

A shallow embedding of `tts.10.js` (namespace `Tts10`), of
`tts-elevenlabs.2.js` (namespace `ElevenLabs2`), of `tts-elevenlabs.5.js`
(namespace `ElevenLabs5`) and of the autoplay decision of `tts-elevenlabs.js`
(namespace `ElevenLabs`).

Each script is an immediately invoked function that the host page runs once
per render of a card.  A run executes synchronously up to its first `await`;
every later piece of work (a continuation after a network answer, a click
handler, a timer, a media event) runs to its next suspension point without
being interleaved with anything else.  The embedding therefore is a
transition system: a `State` holding everything the scripts read or write
(the fields of `window.ankiAudioManager`, the `dataset` and the children of
the `#button-container` element, the audio elements, the abort controllers and
the closure of every render), and a total function `step` that applies one
`Event` to it.  What the environment decides (the text on the page, the answer
of the network, the moment a promise settles, the identifier minted from
`Date.now()` and `Math.random()`) is carried by the event.

The page is taken to have one `#button-container` element whose `dataset` and
children persist from one render to the next, which is what the scripts' own
checks on `container.dataset` presuppose.
-/

/-! ## JavaScript values shared by the scripts -/

/-- JavaScript strings, as lists of characters. -/
abbrev JsString := List Char

/-- Truthiness of a JavaScript string: only the empty string is falsy. -/
def truthy (s : JsString) : Bool := !s.isEmpty

/-- The method `String.prototype.includes`: `pat` occurs in `s` as a contiguous run. -/
def includes (s pat : JsString) : Bool := s.tails.any (fun t => pat.isPrefixOf t)

/-- The two values `detectCardSide` returns, `"front"` and `"back"`. -/
inductive Side where
  | front
  | back
  deriving DecidableEq, Repr

/-- The JavaScript string a side stands for. -/
def Side.toJs : Side → JsString
  | Side.front => "front".toList
  | Side.back => "back".toList

/-- The part of an `HTMLAudioElement` the scripts act on. -/
structure AudioEl where
  paused : Bool
  currentTime : Nat
  deriving DecidableEq, Repr

/-- Apply `f` to the element at index `i`, if there is one. -/
def modifyAt {α : Type} (l : List α) (i : Nat) (f : α → α) : List α :=
  match l[i]? with
  | some x => l.set i (f x)
  | none => l

/-- The effect of `audio.pause(); audio.currentTime = 0;` on audio element `a`. -/
def pauseReset (audios : List AudioEl) (a : Nat) : List AudioEl :=
  modifyAt audios a (fun _ => { paused := true, currentTime := 0 })

/-- The effect of `audio.currentTime = 0; audio.play()` on audio element `a`. -/
def restart (audios : List AudioEl) (a : Nat) : List AudioEl :=
  modifyAt audios a (fun _ => { paused := false, currentTime := 0 })

/-! ## `tts.10.js` -/

namespace Tts10

/-- The data fields of `window.ankiAudioManager`; audio elements and abort
controllers are referred to by their index in the state. -/
structure Manager where
  currentAudio : Option Nat
  currentContentKey : Option JsString
  currentCardSide : Option Side
  currentAbortController : Option Nat
  deriving DecidableEq, Repr

/-- The function `initAudioManager`: creates the manager when the window has none. -/
def initAudioManager (w : Option Manager) : Manager :=
  match w with
  | some m => m
  | none =>
    { currentAudio := none
      currentContentKey := none
      currentCardSide := none
      currentAbortController := none }

/-- What the script reads from the page.  A text is the trimmed `textContent`
of the element with that id, `none` when the page has no such element. -/
structure Dom where
  container : Bool
  frontElement : Option JsString
  exampleElement : Option JsString
  definitionElement : Option JsString
  backElement : Bool
  deriving DecidableEq, Repr

/-- The function `detectCardSide`. -/
def detectCardSide (d : Dom) : Side :=
  if d.backElement then Side.back else Side.front

/-- The function `generateContentKey`. -/
def generateContentKey (frontText exampleText defText : JsString) : JsString :=
  let fullText := frontText
  let fullText := if truthy exampleText then fullText ++ ("|".toList ++ exampleText) else fullText
  let fullText := if truthy defText then fullText ++ ("|".toList ++ defText) else fullText
  fullText

/-- What `generateContentKey` appends to the front text. -/
def keyTail (exampleText defText : JsString) : JsString :=
  (if truthy exampleText then '|' :: exampleText else []) ++
    (if truthy defText then '|' :: defText else [])

/-- The text `fetchWavBlob` puts in its request (`fullText` of that function). -/
def fetchWavBlobText (frontText exampleText defText : JsString) : JsString :=
  let fullText := frontText
  let fullText := if truthy exampleText then fullText ++ (" \n ".toList ++ exampleText) else fullText
  let fullText := if truthy defText then fullText ++ (" \n ".toList ++ defText) else fullText
  fullText

/-- The `combinedKey` of a render. -/
def combinedKey (currentContentKey : JsString) (currentCardSide : Side) : JsString :=
  currentContentKey ++ ("|".toList ++ currentCardSide.toJs)

/-- The children of `#button-container`.  All but `host` are created by the
script and carry `data-tts-element="true"`; `r` is the render that made them. -/
inductive Child where
  | host (n : Nat)
  | loading (r : Nat)
  | errorBtn (r : Nat) (msg : Option JsString)
  | errorDiv (r : Nat)
  | audio (a : Nat)
  | playBtn (r : Nat)
  deriving DecidableEq, Repr

/-- Whether a child matches the selector `[data-tts-element="true"]`. -/
def Child.isTts : Child → Bool
  | Child.host _ => false
  | _ => true

/-- The values a `catch` block of the script can receive, as far as the script
tells them apart: a value whose `name` is `"AbortError"`, any other value
whose `name` can be read, and `null` or `undefined`, on which reading `.name`
throws a `TypeError`. -/
inductive JsError where
  | abortError
  | other
  | nullish
  deriving DecidableEq, Repr

/-- Where the pipeline of a render is suspended, or how it ended: `ready` and
`finished` are the ends on which the run returns, `escaped` is the end on
which an error leaves the `catch` block and the promise of the run is
rejected. -/
inductive Stage where
  | checkingKey
  | fetchingWav
  | decoding
  | ready
  | finished
  | escaped
  deriving DecidableEq, Repr

/-- The closure of one run of the script that got past the skip check. -/
structure Render where
  frontText : JsString
  exampleText : JsString
  defText : JsString
  currentContentKey : JsString
  currentCardSide : Side
  combinedKey : JsString
  shouldAutoPlay : Bool
  abortController : Nat
  stage : Stage
  audio : Option Nat
  timer : Bool
  deriving DecidableEq, Repr

/-- The network requests the script has issued. -/
inductive Fetch where
  | apiKey (r : Nat)
  | wav (r : Nat) (text : JsString)
  deriving DecidableEq, Repr

/-- Everything the script reads or writes.  `contentKey` is
`container.dataset.contentKey`; `controllers` holds, for every
`AbortController` created so far, whether its signal is aborted. -/
structure State where
  dom : Dom
  contentKey : Option JsString
  children : List Child
  manager : Option Manager
  audios : List AudioEl
  controllers : List Bool
  renders : List Render
  fetches : List Fetch
  deriving DecidableEq, Repr

/-- The state of a page on which the script has not run yet. -/
def State.init : State :=
  { dom := { container := false, frontElement := none, exampleElement := none,
             definitionElement := none, backElement := false }
    contentKey := none
    children := []
    manager := none
    audios := []
    controllers := []
    renders := []
    fetches := [] }

/-- The method `ankiAudioManager.stopAll`. -/
def stopAll (s : State) : State :=
  match s.manager with
  | none => s
  | some m =>
    let audios := match m.currentAudio with
      | some a => pauseReset s.audios a
      | none => s.audios
    let controllers := match m.currentAbortController with
      | some c => modifyAt s.controllers c (fun _ => true)
      | none => s.controllers
    { s with
      audios := audios
      controllers := controllers
      manager := some { currentAudio := none
                        currentContentKey := none
                        currentCardSide := none
                        currentAbortController := none } }

/-- The `signal.aborted` of the controller `c`. -/
def signalAborted (s : State) (c : Nat) : Bool :=
  s.controllers[c]?.getD false

/-- The closure `checkAborted` of a render: throws an `AbortError` when the
signal is aborted or the container is marked with another combined key. -/
def checkAborted (s : State) (rec : Render) : Except JsError Unit :=
  if signalAborted s rec.abortController then Except.error JsError.abortError
  else if s.contentKey ≠ some rec.combinedKey then Except.error JsError.abortError
  else Except.ok ()

/-- The synchronous part of one run of the script, up to the request that
`checkApiKey` issues. -/
def render (s : State) : State :=
  if !s.dom.container then s else
  let s := { s with manager := some (initAudioManager s.manager) }
  match s.dom.frontElement with
  | none => s
  | some frontText =>
    let exampleText := s.dom.exampleElement.getD []
    let defText := s.dom.definitionElement.getD []
    if !truthy frontText then s else
    let currentContentKey := generateContentKey frontText exampleText defText
    let currentCardSide := detectCardSide s.dom
    let combined := combinedKey currentContentKey currentCardSide
    if s.contentKey = some combined then s else
    let w := initAudioManager s.manager
    let isContentChanged : Bool := w.currentContentKey ≠ some currentContentKey
    let isFlippedToBack : Bool :=
      w.currentCardSide = some Side.front && currentCardSide = Side.back
    let shouldAutoPlay : Bool := isContentChanged || isFlippedToBack
    let s := if isContentChanged then stopAll s
             else if isFlippedToBack then stopAll s
             else s
    let shouldAutoPlay : Bool :=
      if currentCardSide = Side.front && includes frontText ",\"".toList then false
      else shouldAutoPlay
    let r := s.renders.length
    let c := s.controllers.length
    { s with
      children := Child.loading r :: s.children.filter (fun el => !el.isTts)
      contentKey := some combined
      controllers := s.controllers ++ [false]
      manager := some { initAudioManager s.manager with currentAbortController := some c }
      fetches := s.fetches ++ [Fetch.apiKey r]
      renders := s.renders ++ [{
        frontText := frontText
        exampleText := exampleText
        defText := defText
        currentContentKey := currentContentKey
        currentCardSide := currentCardSide
        combinedKey := combined
        shouldAutoPlay := shouldAutoPlay
        abortController := c
        stage := Stage.checkingKey
        audio := none
        timer := false }] }

/-- How the request of `checkApiKey` ends: with JSON data whose `errorMessage`
may be missing, with an `AbortError`, with any other error value whose `name`
can be read, or with a rejection whose value is `null` or `undefined`. -/
inductive KeyAnswer where
  | data (errorMessage : Option JsString)
  | aborted
  | failed
  | nullish
  deriving DecidableEq, Repr

/-- The value `checkApiKey` resolves to. -/
structure ApiKeyStatus where
  valid : Bool
  error : Option JsString
  deriving DecidableEq, Repr

/-- The function `checkApiKey`, given how its request ends.  Its own `catch`
block reads `error.name`: on `null` or `undefined` that read throws a
`TypeError`, which leaves `checkApiKey` as an error with a name. -/
def checkApiKey (a : KeyAnswer) : Except JsError ApiKeyStatus :=
  match a with
  | KeyAnswer.data (some msg) =>
    if truthy msg then Except.ok { valid := false, error := some msg }
    else Except.ok { valid := true, error := none }
  | KeyAnswer.data none => Except.ok { valid := true, error := none }
  | KeyAnswer.aborted => Except.error JsError.abortError
  | KeyAnswer.failed => Except.ok { valid := true, error := none }
  | KeyAnswer.nullish => Except.error JsError.other

/-- How the request of `fetchWavBlob` ends: with a response (`ok` or not), with
an `AbortError`, with any other error value whose `name` can be read, or with
a rejection whose value is `null` or `undefined`. -/
inductive WavAnswer where
  | response (ok : Bool)
  | aborted
  | failed
  | nullish
  deriving DecidableEq, Repr

/-- The function `fetchWavBlob`, given how its request ends. -/
def fetchWavBlob (a : WavAnswer) : Except JsError Unit :=
  match a with
  | WavAnswer.response true => Except.ok ()
  | WavAnswer.response false => Except.error JsError.other
  | WavAnswer.aborted => Except.error JsError.abortError
  | WavAnswer.failed => Except.error JsError.other
  | WavAnswer.nullish => Except.error JsError.nullish

/-- Update the closure of render `r`. -/
def setRender (s : State) (r : Nat) (f : Render → Render) : State :=
  { s with renders := modifyAt s.renders r f }

/-- The statement `loading.remove()` of render `r`. -/
def removeLoading (s : State) (r : Nat) : State :=
  { s with children := s.children.filter (fun el => el ≠ Child.loading r) }

/-- The `catch` block of the pipeline of render `r`.  Its first statement reads
`err.name`; when `err` is `null` or `undefined` that read throws, so that the
block ends before `loading.remove()` and the error leaves the run. -/
def catchHandler (s : State) (r : Nat) (e : JsError) : State :=
  match e with
  | JsError.abortError =>
    setRender (removeLoading s r) r (fun rec => { rec with stage := Stage.finished })
  | JsError.other =>
    let s := removeLoading s r
    setRender { s with children := Child.errorDiv r :: s.children } r
      (fun rec => { rec with stage := Stage.finished })
  | JsError.nullish =>
    setRender s r (fun rec => { rec with stage := Stage.escaped })

/-- The pipeline of render `r` from the moment `checkApiKey` settles to the
request of `fetchWavBlob`. -/
def afterCheckApiKey (s : State) (r : Nat) (rec : Render) (a : KeyAnswer) : State :=
  match checkApiKey a with
  | Except.error e => catchHandler s r e
  | Except.ok apiKeyStatus =>
    match checkAborted s rec with
    | Except.error e => catchHandler s r e
    | Except.ok () =>
      if !apiKeyStatus.valid then
        let s := removeLoading s r
        setRender { s with children := Child.errorBtn r apiKeyStatus.error :: s.children } r
          (fun rec => { rec with stage := Stage.finished })
      else
        setRender
          { s with fetches := s.fetches ++
              [Fetch.wav r (fetchWavBlobText rec.frontText rec.exampleText rec.defText)] }
          r (fun rec => { rec with stage := Stage.fetchingWav })

/-- The pipeline of render `r` from the moment `fetchWavBlob` settles to the
call of `decodeWavBlob`. -/
def afterFetchWavBlob (s : State) (r : Nat) (rec : Render) (a : WavAnswer) : State :=
  match fetchWavBlob a with
  | Except.error e => catchHandler s r e
  | Except.ok () =>
    match checkAborted s rec with
    | Except.error e => catchHandler s r e
    | Except.ok () => setRender s r (fun rec => { rec with stage := Stage.decoding })

/-- The pipeline of render `r` from the moment `decodeWavBlob` settles to its
end: `decoded` and `encoded` say whether `decodeWavBlob` and `audioBufferToMp3`
return or throw. -/
def afterDecodeWavBlob (s : State) (r : Nat) (rec : Render) (decoded encoded : Bool) : State :=
  if !decoded then catchHandler s r JsError.other else
  match checkAborted s rec with
  | Except.error e => catchHandler s r e
  | Except.ok () =>
    if !encoded then catchHandler s r JsError.other else
    match checkAborted s rec with
    | Except.error e => catchHandler s r e
    | Except.ok () =>
      let s := removeLoading s r
      let a := s.audios.length
      setRender
        { s with
          audios := s.audios ++ [{ paused := true, currentTime := 0 }]
          children := Child.playBtn r :: (s.children ++ [Child.audio a]) }
        r (fun rec => { rec with stage := Stage.ready, audio := some a,
                                 timer := rec.shouldAutoPlay })

/-- The pipeline of render `r` from the moment `decodeWavBlob` settles, when
the value thrown is `null` or `undefined`: `decodeWavBlob` rejects with it
(`decoded` false), or `decodeWavBlob` returns and `audioBufferToMp3` throws
it (`decoded` true). -/
def afterDecodeNullish (s : State) (r : Nat) (rec : Render) (decoded : Bool) : State :=
  if !decoded then catchHandler s r JsError.nullish else
  match checkAborted s rec with
  | Except.error e => catchHandler s r e
  | Except.ok () => catchHandler s r JsError.nullish

/-- The closure `playAudio` of a render whose audio element is `a`. -/
def playAudio (s : State) (rec : Render) (a : Nat) : State :=
  match s.manager with
  | none => s
  | some m =>
    let audios := match m.currentAudio with
      | some c => if c ≠ a then pauseReset s.audios c else s.audios
      | none => s.audios
    { s with
      audios := restart audios a
      manager := some { m with
        currentAudio := some a
        currentContentKey := some rec.currentContentKey
        currentCardSide := some rec.currentCardSide } }

/-- The listener of the `play` event of the audio element `a` of a render. -/
def onPlay (s : State) (rec : Render) (a : Nat) : State :=
  match s.manager with
  | none => s
  | some m =>
    { s with
      manager := some { m with
        currentAudio := some a
        currentContentKey := some rec.currentContentKey
        currentCardSide := some rec.currentCardSide } }

/-- The `dblclick` listener of the play button of a render whose audio is `a`. -/
def onDblclick (s : State) (a : Nat) : State :=
  let s := { s with audios := pauseReset s.audios a }
  match s.manager with
  | none => s
  | some m =>
    if m.currentAudio = some a then
      { s with manager := some { m with currentAudio := none } }
    else s

/-- The callback of the `setTimeout` a render sets when `shouldAutoPlay` holds. -/
def onTimer (s : State) (rec : Render) (a : Nat) : State :=
  if !signalAborted s rec.abortController && s.contentKey = some rec.combinedKey then
    playAudio s rec a
  else s

/-- What can happen to the page. -/
inductive Event where
  | page (d : Dom)
  | render
  | keyAnswer (r : Nat) (a : KeyAnswer)
  | wavAnswer (r : Nat) (a : WavAnswer)
  | decodeAnswer (r : Nat) (decoded encoded : Bool)
  | decodeNullish (r : Nat) (decoded : Bool)
  | timer (r : Nat)
  | click (r : Nat)
  | dblclick (r : Nat)
  | play (r : Nat)
  | progress (a : Nat) (t : Nat)
  deriving DecidableEq, Repr

/-- One step of the page: the event `e` happens in state `s`.  An event that
cannot happen in `s` (an answer nobody waits for, a click or double click on a
play button that is not among the children of the container) leaves the state
as it is. -/
def step (s : State) (e : Event) : State :=
  match e with
  | Event.page d => { s with dom := d }
  | Event.render => render s
  | Event.keyAnswer r a =>
    match s.renders[r]? with
    | some rec => if rec.stage = Stage.checkingKey then afterCheckApiKey s r rec a else s
    | none => s
  | Event.wavAnswer r a =>
    match s.renders[r]? with
    | some rec => if rec.stage = Stage.fetchingWav then afterFetchWavBlob s r rec a else s
    | none => s
  | Event.decodeAnswer r decoded encoded =>
    match s.renders[r]? with
    | some rec =>
      if rec.stage = Stage.decoding then afterDecodeWavBlob s r rec decoded encoded else s
    | none => s
  | Event.decodeNullish r decoded =>
    match s.renders[r]? with
    | some rec =>
      if rec.stage = Stage.decoding then afterDecodeNullish s r rec decoded else s
    | none => s
  | Event.timer r =>
    match s.renders[r]? with
    | some rec =>
      match rec.audio with
      | some a =>
        if rec.timer then
          onTimer (setRender s r (fun rec => { rec with timer := false })) rec a
        else s
      | none => s
    | none => s
  | Event.click r =>
    if Child.playBtn r ∈ s.children then
      match s.renders[r]? with
      | some rec =>
        match rec.audio with
        | some a => playAudio s rec a
        | none => s
      | none => s
    else s
  | Event.dblclick r =>
    if Child.playBtn r ∈ s.children then
      match s.renders[r]? with
      | some rec =>
        match rec.audio with
        | some a => onDblclick s a
        | none => s
      | none => s
    else s
  | Event.play r =>
    match s.renders[r]? with
    | some rec =>
      match rec.audio with
      | some a => onPlay s rec a
      | none => s
    | none => s
  | Event.progress a t =>
    let audios := modifyAt s.audios a
      (fun el => if el.paused then el else { el with currentTime := t })
    { s with audios := audios }

/-- The state after a sequence of events. -/
def run (s : State) (es : List Event) : State :=
  es.foldl step s

/-- The transitions of the specification's session tracker. -/
inductive Transition where
  | newContent
  | flippedToBack
  | flippedToFront
  | unchanged
  deriving DecidableEq, Repr

/-- The decision table of the specification, in its words: the transition from
the previous key and side to the key and side of a render.  The table has no
row for an equal key with no previous side. -/
def specTransition (prevKey : Option JsString) (prevSide : Option Side)
    (key : JsString) (side : Side) : Option Transition :=
  if prevKey ≠ some key then some Transition.newContent
  else if prevSide = some Side.front ∧ side = Side.back then some Transition.flippedToBack
  else if prevSide = some Side.back ∧ side = Side.front then some Transition.flippedToFront
  else if prevSide = some side then some Transition.unchanged
  else none

/-- A page with the container and a front element with text `front`, on the
back side when `back` holds, without example or definition. -/
def cardPage (front : JsString) (back : Bool) : Dom :=
  { container := true, frontElement := some front, exampleElement := none,
    definitionElement := none, backElement := back }

/-- Card `A` is shown on its back side, its pipeline runs to the end, the
automatic playback starts and the audio has played up to position 5. -/
def playedBack : List Event :=
  [ Event.page (cardPage "A".toList true), Event.render,
    Event.keyAnswer 0 (KeyAnswer.data none), Event.wavAnswer 0 (WavAnswer.response true),
    Event.decodeAnswer 0 true true, Event.timer 0, Event.play 0, Event.progress 0 5 ]

/-- After `playedBack`, the card is turned to its front, the script runs, and
the card is turned to its back again. -/
def turnedTwice : List Event :=
  playedBack ++
    [ Event.page (cardPage "A".toList false), Event.render,
      Event.page (cardPage "A".toList true) ]

/-- After `turnedTwice`, the script runs on the back, the card is turned to its
front once more and the script runs again; no request of the last three runs
has been answered yet. -/
def turnedThrice : List Event :=
  turnedTwice ++ [ Event.render, Event.page (cardPage "A".toList false), Event.render ]

end Tts10

/-! ## `tts.10.js`: the autoplay decision -/

namespace Tts10

/-- The value of `shouldAutoPlay` a render computes, from the manager's
`currentContentKey` and `currentCardSide` it finds and from its own content
key, side and front text. -/
def shouldAutoPlay (prevKey : Option JsString) (prevSide : Option Side)
    (currentContentKey : JsString) (currentCardSide : Side) (frontText : JsString) : Bool :=
  let isContentChanged : Bool := prevKey ≠ some currentContentKey
  let isFlippedToBack : Bool := prevSide = some Side.front && currentCardSide = Side.back
  let shouldAutoPlay : Bool :=
    if isContentChanged then true
    else if isFlippedToBack then true
    else false
  if currentCardSide = Side.front && includes frontText ",\"".toList then false
  else shouldAutoPlay

/-- The autoplay policy of the specification, in its words: new content on the
front plays unless the text has the excluded pattern `,"`, new content on the
back and a flip to the back play, a flip to the front and an unchanged render
do not. -/
def specShouldAutoplay (t : Transition) (side : Side) (text : JsString) : Bool :=
  match t, side with
  | Transition.newContent, Side.front => !includes text ",\"".toList
  | Transition.newContent, Side.back => true
  | Transition.flippedToBack, _ => true
  | Transition.flippedToFront, _ => false
  | Transition.unchanged, _ => false

/-- The states the page can be in: those the events lead to from `State.init`. -/
def Reachable (s : State) : Prop :=
  ∃ es : List Event, run State.init es = s

/-- Every play button in the container belongs to a render whose
`checkAborted` returns without throwing. -/
def ButtonsLive (s : State) : Prop :=
  ∀ r : Nat, Child.playBtn r ∈ s.children →
    ∃ rec : Render, s.renders[r]? = some rec ∧ checkAborted s rec = Except.ok ()

/-- From `s` to `t` no signal changes, the mark of the container stays, and
every render keeps its controller and its combined key. -/
def SameTokens (s t : State) : Prop :=
  t.controllers = s.controllers ∧ t.contentKey = s.contentKey ∧
    ∀ (r : Nat) (rec : Render), s.renders[r]? = some rec →
      ∃ rec' : Render, t.renders[r]? = some rec' ∧ rec'.combinedKey = rec.combinedKey ∧
        rec'.abortController = rec.abortController

/-- After `playedBack`, the page shows the front of another card, `B`, and the
script runs: render 0 is superseded. -/
def supersededByB : List Event :=
  playedBack ++ [ Event.page (cardPage "B".toList false), Event.render ]

/-- Card `A` is shown on its back side, the script runs, `checkApiKey` and
`fetchWavBlob` return, and the pipeline waits for `decodeWavBlob`. -/
def decodingA : List Event :=
  [ Event.page (cardPage "A".toList true), Event.render,
    Event.keyAnswer 0 (KeyAnswer.data none), Event.wavAnswer 0 (WavAnswer.response true) ]

end Tts10

/-! ## `tts.10.js`: from the decoded audio to the encoder -/

namespace Tts10

/-- What storing a number in an `Int16Array` does to it: the fraction is cut
off (toward zero) and the integer is taken modulo `2^16` into the range from
`-32768` to `32767`. -/
def toInt16 (x : ℚ) : Int :=
  let t : Int := if x < 0 then -Rat.floor (-x) else Rat.floor x
  let m : Int := t % 65536
  if m ≥ 32768 then m - 65536 else m

/-- The function `floatTo16BitPCM`; a sample is a rational number. -/
def floatTo16BitPCM (float32Array : List ℚ) : List Int :=
  float32Array.map (fun x =>
    let s : ℚ := max (-1) (min 1 x)
    toInt16 (if s < 0 then s * 0x8000 else s * 0x7fff))

/-- The output sample the claim gives for a sample `x`: with `c` the sample
clamped to the range from `-1` to `1`, `c * 32768` truncated toward zero (rounded
up) when `c` is negative, and `c * 32767` truncated toward zero (rounded down)
otherwise. -/
def specSample (x : ℚ) : Int :=
  let c : ℚ := max (-1) (min 1 x)
  if c < 0 then ⌈c * 32768⌉ else ⌊c * 32767⌋

/-- The constant `samplesPerFrame` of `audioBufferToMp3`. -/
def samplesPerFrame : Nat := 1152

/-- The method `subarray(begin, end)` of a typed array, for indices that are
not negative. -/
def subarray (a : List Int) (b e : Nat) : List Int :=
  (a.drop b).take (e - b)

/-- The `AudioBuffer` that `decodeAudioData` yields: its sample rate and the
samples of its channels. -/
structure AudioBuffer where
  sampleRate : Nat
  channels : List (List ℚ)

/-- The property `numberOfChannels` of an `AudioBuffer`. -/
def AudioBuffer.numberOfChannels (b : AudioBuffer) : Nat :=
  b.channels.length

/-- The method `getChannelData` of an `AudioBuffer`; it throws when there is no
such channel. -/
def AudioBuffer.getChannelData (b : AudioBuffer) (k : Nat) : Option (List ℚ) :=
  b.channels[k]?

/-- The encoder `lamejs.Mp3Encoder`, which is not part of the script: its
constructor, `encodeBuffer` (with the right channel for stereo) and `flush`,
over a state of the encoder. -/
structure Mp3Encoder (σ : Type) where
  create : Nat → Nat → Nat → σ
  encodeBuffer : σ → List Int → Option (List Int) → σ × List Int
  flush : σ → List Int

/-- What `audioBufferToMp3` has done so far: the arguments of its calls of
`encodeBuffer`, in call order, and the array `mp3Data`. -/
structure Mp3Output where
  calls : List (List Int × Option (List Int))
  mp3Data : List (List Int)
  deriving DecidableEq, Repr

/-- The `for` loop of `audioBufferToMp3` for one channel, from index `i` on;
the first argument bounds the number of iterations. -/
def monoLoop {σ : Type} (enc : Mp3Encoder σ) (data : List Int) :
    Nat → Nat → σ → Mp3Output → σ × Mp3Output
  | 0, _, st, out => (st, out)
  | fuel + 1, i, st, out =>
    if i < data.length then
      let chunk := subarray data i (i + min samplesPerFrame (data.length - i))
      let res := enc.encodeBuffer st chunk none
      let out : Mp3Output :=
        { calls := out.calls ++ [(chunk, none)]
          mp3Data := if res.2.length > 0 then out.mp3Data ++ [res.2] else out.mp3Data }
      monoLoop enc data fuel (i + samplesPerFrame) res.1 out
    else (st, out)

/-- The `for` loop of `audioBufferToMp3` for two channels, from index `i` on;
the first argument bounds the number of iterations. -/
def stereoLoop {σ : Type} (enc : Mp3Encoder σ) (left right : List Int) :
    Nat → Nat → σ → Mp3Output → σ × Mp3Output
  | 0, _, st, out => (st, out)
  | fuel + 1, i, st, out =>
    if i < left.length then
      let leftChunk := subarray left i (i + min samplesPerFrame (left.length - i))
      let rightChunk := subarray right i (i + min samplesPerFrame (right.length - i))
      let res := enc.encodeBuffer st leftChunk (some rightChunk)
      let out : Mp3Output :=
        { calls := out.calls ++ [(leftChunk, some rightChunk)]
          mp3Data := if res.2.length > 0 then out.mp3Data ++ [res.2] else out.mp3Data }
      stereoLoop enc left right fuel (i + samplesPerFrame) res.1 out
    else (st, out)

/-- The end of `audioBufferToMp3`: `flush` and the last push. -/
def finishMp3 {σ : Type} (enc : Mp3Encoder σ) (r : σ × Mp3Output) : Mp3Output :=
  let last := enc.flush r.1
  { r.2 with mp3Data := if last.length > 0 then r.2.mp3Data ++ [last] else r.2.mp3Data }

/-- The function `audioBufferToMp3`: `none` when `getChannelData` throws.  Each
loop gets as many iterations as its channel has samples, which is enough. -/
def audioBufferToMp3 {σ : Type} (enc : Mp3Encoder σ) (audioBuffer : AudioBuffer) :
    Option Mp3Output :=
  let numChannels := audioBuffer.numberOfChannels
  let sampleRate := audioBuffer.sampleRate
  let mp3encoder := enc.create numChannels sampleRate 128
  if numChannels = 1 then
    match audioBuffer.getChannelData 0 with
    | none => none
    | some channel =>
      let data := floatTo16BitPCM channel
      some (finishMp3 enc (monoLoop enc data data.length 0 mp3encoder
        { calls := [], mp3Data := [] }))
  else
    match audioBuffer.getChannelData 0, audioBuffer.getChannelData 1 with
    | some channel0, some channel1 =>
      let left := floatTo16BitPCM channel0
      let right := floatTo16BitPCM channel1
      some (finishMp3 enc (stereoLoop enc left right left.length 0 mp3encoder
        { calls := [], mp3Data := [] }))
    | _, _ => none

/-- The frame the claim gives the `k`-th call: the samples at the indices from
`1152 * k` up to, and without, `min (1152 * (k + 1)) n`, where `n` is the number
of samples. -/
def frame (data : List Int) (k : Nat) : List Int :=
  subarray data (1152 * k) (min (1152 * (k + 1)) data.length)

/-- The number of frames of `n` samples: `n / 1152`, rounded up. -/
def frameCount (n : Nat) : Nat :=
  (n + 1151) / 1152

/-- An encoder for examples: it returns every chunk as it is. -/
def echoEncoder : Mp3Encoder Unit :=
  { create := fun _ _ _ => ()
    encodeBuffer := fun _ chunk _ => ((), chunk)
    flush := fun _ => [] }

end Tts10

/-! ## `tts-elevenlabs.2.js` -/

namespace ElevenLabs2

/-- A JavaScript `Map` from strings to blobs, as its entries in insertion
order; a blob is referred to by a number. -/
abbrev AudioMap := List (JsString × Nat)

/-- The method `Map.prototype.get`. -/
def AudioMap.get (m : AudioMap) (key : JsString) : Option Nat :=
  match m with
  | [] => none
  | (k, v) :: rest => if k = key then some v else AudioMap.get rest key

/-- The method `Map.prototype.set`: replaces the value of an entry with that
key, or appends a new entry. -/
def AudioMap.set (m : AudioMap) (key : JsString) (value : Nat) : AudioMap :=
  match m with
  | [] => [(key, value)]
  | (k, v) :: rest =>
    if k = key then (k, value) :: rest else (k, v) :: AudioMap.set rest key value

/-- The data fields of `window.ankiAudioManager`; an audio element is referred
to by its index in the state. -/
structure Manager where
  currentAudio : Option Nat
  currentCardText : Option JsString
  currentCardSide : Option Side
  audioCache : AudioMap
  deriving DecidableEq, Repr

/-- The function `initAudioManager`: creates the manager when the window has none. -/
def initAudioManager (w : Option Manager) : Manager :=
  match w with
  | some m => m
  | none =>
    { currentAudio := none
      currentCardText := none
      currentCardSide := none
      audioCache := [] }

/-- The method `ankiAudioManager.getCachedAudio`. -/
def getCachedAudio (m : Manager) (text : JsString) : Option Nat :=
  m.audioCache.get text

/-- The method `ankiAudioManager.setCachedAudio`. -/
def setCachedAudio (m : Manager) (text : JsString) (blob : Nat) : Manager :=
  { m with audioCache := m.audioCache.set text blob }

/-- The method `ankiAudioManager.clearCache`. -/
def clearCache (m : Manager) : Manager :=
  { m with audioCache := [] }

/-- What the script reads from the page.  A text is the trimmed `textContent`
of the element with that id, `none` when the page has no such element. -/
structure Dom where
  container : Bool
  frontElement : Option JsString
  exampleElement : Option JsString
  backElement : Bool
  deriving DecidableEq, Repr

/-- The function `detectCardSide`. -/
def detectCardSide (d : Dom) : Side :=
  if d.backElement then Side.back else Side.front

/-- The closure of one run of the script that got past the transition
handling: its constants and its variables `audio`, `audioLoaded`, `isLoading`. -/
structure Render where
  currentCardText : JsString
  currentCardSide : Side
  fullText : JsString
  cardId : JsString
  audio : Option Nat
  audioLoaded : Bool
  isLoading : Bool
  deriving DecidableEq, Repr

/-- A call of `playAudio` of render `r` that is suspended at an `await`:
in `fetchElevenLabsAudio` with the request for `text` in flight, on the cached
blob that `fetchElevenLabsAudio` returned, or on `audio.play()` in the branch
for an existing audio or in the branch for a new one. -/
inductive Task where
  | fetching (r : Nat) (text : JsString)
  | cached (r : Nat) (blob : Nat)
  | playExisting (r : Nat)
  | playNew (r : Nat)
  deriving DecidableEq, Repr

/-- Everything the script reads or writes.  `cardId` and `cardSide` are the
entries of `container.dataset`, `buttons` the play buttons in the container
(by render), `requests` the texts sent to the speech service. -/
structure State where
  dom : Dom
  cardId : Option JsString
  cardSide : Option Side
  buttons : List Nat
  manager : Option Manager
  audios : List AudioEl
  renders : List Render
  tasks : List Task
  requests : List JsString
  deriving DecidableEq, Repr

/-- The state of a page on which the script has not run yet. -/
def State.init : State :=
  { dom := { container := false, frontElement := none, exampleElement := none,
             backElement := false }
    cardId := none
    cardSide := none
    buttons := []
    manager := none
    audios := []
    renders := []
    tasks := []
    requests := [] }

/-- The method `ankiAudioManager.stopAll`. -/
def stopAll (s : State) : State :=
  match s.manager with
  | none => s
  | some m =>
    let audios := match m.currentAudio with
      | some a => pauseReset s.audios a
      | none => s.audios
    { s with
      audios := audios
      manager := some { m with currentAudio := none
                               currentCardText := none
                               currentCardSide := none } }

/-- The four ways through the `if` / `else if` chain of a render. -/
inductive Branch where
  | newCard
  | flippedToBack
  | sameCardSameSide
  | fallThrough
  deriving DecidableEq, Repr

/-- The branch the `if` / `else if` chain of a render takes, from the manager
it finds and the text and side of the render. -/
def renderBranch (m : Manager) (currentCardText : JsString) (currentCardSide : Side) : Branch :=
  let isNewCard : Bool := m.currentCardText ≠ some currentCardText
  let isCardFlippedToBack : Bool :=
    m.currentCardSide = some Side.front && currentCardSide = Side.back
  if isNewCard then Branch.newCard
  else if isCardFlippedToBack then Branch.flippedToBack
  else if !isNewCard && some currentCardSide = m.currentCardSide then Branch.sameCardSameSide
  else Branch.fallThrough

/-- Update the manager, when there is one. -/
def setManager (s : State) (f : Manager → Manager) : State :=
  { s with manager := s.manager.map f }

/-- The effect of the `if` / `else if` chain of a render on the state. -/
def transitionHandling (s : State) (currentCardText : JsString) (currentCardSide : Side) :
    State :=
  match renderBranch (initAudioManager s.manager) currentCardText currentCardSide with
  | Branch.newCard =>
    setManager (stopAll s) (fun m =>
      { m with currentCardText := some currentCardText, currentCardSide := some currentCardSide })
  | Branch.flippedToBack =>
    setManager (stopAll s) (fun m => { m with currentCardSide := some currentCardSide })
  | Branch.sameCardSameSide => s
  | Branch.fallThrough => s

/-- One run of the script; `cardId` is the string it mints from `Date.now()`
and `Math.random()`. -/
def render (s : State) (cardId : JsString) : State :=
  if !s.dom.container then s else
  match s.dom.frontElement with
  | none => s
  | some frontText =>
    let exampleText := s.dom.exampleElement.getD []
    let fullText :=
      if truthy exampleText then frontText ++ ("\n".toList ++ exampleText) else frontText
    let currentCardText := frontText
    let currentCardSide := detectCardSide s.dom
    if !truthy frontText then s else
    let s := { s with manager := some (initAudioManager s.manager) }
    if renderBranch (initAudioManager s.manager) currentCardText currentCardSide
        = Branch.sameCardSameSide then s else
    let s := transitionHandling s currentCardText currentCardSide
    { s with
      cardId := some cardId
      cardSide := some currentCardSide
      buttons := s.renders.length :: s.buttons
      renders := s.renders ++ [{
        currentCardText := currentCardText
        currentCardSide := currentCardSide
        fullText := fullText
        cardId := cardId
        audio := none
        audioLoaded := false
        isLoading := false }] }

/-- The closure `isCurrentCard` of a render. -/
def isCurrentCard (s : State) (rec : Render) : Bool :=
  let currentFront := s.dom.frontElement
  let currentSide := detectCardSide s.dom
  currentFront = some rec.currentCardText &&
    s.cardId = some rec.cardId &&
    s.cardSide = some currentSide

/-- Update the variables of the closure of render `r`. -/
def setRender (s : State) (r : Nat) (f : Render → Render) : State :=
  { s with renders := modifyAt s.renders r f }

/-- The function `fetchElevenLabsAudio` up to its first suspension, called by
`playAudio` of render `r`: it returns the cached blob or sends a request.
Without a manager the call throws, and the `catch` of `playAudio` runs. -/
def fetchElevenLabsAudio (s : State) (r : Nat) (text : JsString) : State :=
  match s.manager with
  | none => setRender s r (fun rec => { rec with isLoading := false })
  | some m =>
    match getCachedAudio m text with
    | some cachedBlob => { s with tasks := s.tasks ++ [Task.cached r cachedBlob] }
    | none =>
      { s with
        requests := s.requests ++ [text]
        tasks := s.tasks ++ [Task.fetching r text] }

/-- The closure `playAudio` of render `r` up to its first suspension. -/
def playAudio (s : State) (r : Nat) (rec : Render) : State :=
  if !isCurrentCard s rec then s
  else if rec.isLoading then s
  else
    match rec.audioLoaded, rec.audio with
    | true, some a =>
      match s.manager with
      | none => s
      | some _ =>
        let s := stopAll s
        { s with audios := restart s.audios a, tasks := s.tasks ++ [Task.playExisting r] }
    | _, _ =>
      fetchElevenLabsAudio (setRender s r (fun rec => { rec with isLoading := true }))
        r rec.fullText

/-- The closure `playAudio` of render `r` from the moment
`fetchElevenLabsAudio` has returned `audioBlob` to the call of `audio.play()`. -/
def afterFetch (s : State) (r : Nat) (rec : Render) : State :=
  if !isCurrentCard s rec then
    setRender s r (fun rec => { rec with isLoading := false })
  else
    let a := s.audios.length
    let s := { s with audios := s.audios ++ [{ paused := true, currentTime := 0 }] }
    let s := setRender s r (fun rec =>
      { rec with audio := some a, audioLoaded := true, isLoading := false })
    match s.manager with
    | none => setRender s r (fun rec => { rec with isLoading := false })
    | some _ =>
      let s := stopAll s
      { s with audios := restart s.audios a, tasks := s.tasks ++ [Task.playNew r] }

/-- How the request of `fetchElevenLabsAudio` ends: with a response (`ok` or
not) whose body is `blob`, or with a failure. -/
inductive FetchAnswer where
  | response (ok : Bool) (blob : Nat)
  | failed
  deriving DecidableEq, Repr

/-- The function `fetchElevenLabsAudio` from the answer to its request on,
followed by what `playAudio` of render `r` does with the result. -/
def afterRequest (s : State) (r : Nat) (text : JsString) (a : FetchAnswer) : State :=
  match a with
  | FetchAnswer.response true blob =>
    match s.manager with
    | none => setRender s r (fun rec => { rec with isLoading := false })
    | some m =>
      let s := { s with manager := some (setCachedAudio m text blob) }
      match s.renders[r]? with
      | some rec => afterFetch s r rec
      | none => s
  | _ => setRender s r (fun rec => { rec with isLoading := false })

/-- The closure `playAudio` of render `r` after `await audio.play()` in the
branch for an existing audio; `ok` says whether the promise was fulfilled. -/
def afterPlayExisting (s : State) (rec : Render) (ok : Bool) : State :=
  if ok then setManager s (fun m => { m with currentAudio := rec.audio }) else s

/-- The closure `playAudio` of render `r` after `await audio.play()` in the
branch for a new audio; `ok` says whether the promise was fulfilled. -/
def afterPlayNew (s : State) (r : Nat) (rec : Render) (ok : Bool) : State :=
  if ok then
    setManager s (fun m =>
      { m with currentAudio := rec.audio
               currentCardText := some rec.currentCardText
               currentCardSide := some rec.currentCardSide })
  else setRender s r (fun rec => { rec with isLoading := false })

/-- The listener of the `play` event of the audio element `a` of a render. -/
def onPlay (s : State) (rec : Render) (a : Nat) : State :=
  if !isCurrentCard s rec then { s with audios := pauseReset s.audios a }
  else
    setManager s (fun m =>
      { m with currentAudio := some a, currentCardSide := some rec.currentCardSide })

/-- The `dblclick` listener of the play button of a render. -/
def onDblclick (s : State) (rec : Render) : State :=
  match rec.audio with
  | none => s
  | some a =>
    let s := { s with audios := pauseReset s.audios a }
    match s.manager with
    | none => s
    | some m =>
      if m.currentAudio = some a then
        { s with manager := some { m with currentAudio := none } }
      else s

/-- What can happen to the page. -/
inductive Event where
  | page (d : Dom)
  | render (cardId : JsString)
  | click (r : Nat)
  | dblclick (r : Nat)
  | answer (t : Nat) (a : FetchAnswer)
  | resume (t : Nat)
  | settle (t : Nat) (ok : Bool)
  | play (r : Nat)
  | progress (a : Nat) (t : Nat)
  deriving DecidableEq, Repr

/-- One step of the page: the event `e` happens in state `s`.  `answer`
completes the request of task `t`, `resume` continues task `t` that waits on a
cached blob, `settle` settles the promise of `audio.play()` task `t` waits on.
An event that cannot happen in `s` leaves the state as it is. -/
def step (s : State) (e : Event) : State :=
  match e with
  | Event.page d => { s with dom := d }
  | Event.render cardId => render s cardId
  | Event.click r =>
    match s.renders[r]? with
    | some rec => playAudio s r rec
    | none => s
  | Event.dblclick r =>
    match s.renders[r]? with
    | some rec => onDblclick s rec
    | none => s
  | Event.answer t a =>
    match s.tasks[t]? with
    | some (Task.fetching r text) =>
      afterRequest { s with tasks := s.tasks.eraseIdx t } r text a
    | _ => s
  | Event.resume t =>
    match s.tasks[t]? with
    | some (Task.cached r _) =>
      match s.renders[r]? with
      | some rec => afterFetch { s with tasks := s.tasks.eraseIdx t } r rec
      | none => s
    | _ => s
  | Event.settle t ok =>
    match s.tasks[t]? with
    | some (Task.playExisting r) =>
      match s.renders[r]? with
      | some rec => afterPlayExisting { s with tasks := s.tasks.eraseIdx t } rec ok
      | none => s
    | some (Task.playNew r) =>
      match s.renders[r]? with
      | some rec => afterPlayNew { s with tasks := s.tasks.eraseIdx t } r rec ok
      | none => s
    | _ => s
  | Event.play r =>
    match s.renders[r]? with
    | some rec =>
      match rec.audio with
      | some a => onPlay s rec a
      | none => s
    | none => s
  | Event.progress a t =>
    let audios := modifyAt s.audios a
      (fun el => if el.paused then el else { el with currentTime := t })
    { s with audios := audios }

/-- The state after a sequence of events. -/
def run (s : State) (es : List Event) : State :=
  es.foldl step s

/-- The states the page can be in: those the events lead to from `State.init`. -/
def Reachable (s : State) : Prop :=
  ∃ es : List Event, run State.init es = s

/-- The identifiers minted by the renders among a sequence of events. -/
def mintedIds (es : List Event) : List JsString :=
  es.filterMap (fun e => match e with
    | Event.render cardId => some cardId
    | _ => none)

/-- The transition table as C2 words it: the condition on the previous text and
side and on the text and side of the render under which each branch is taken. -/
def tableCase (b : Branch) (prevText : Option JsString) (prevSide : Option Side)
    (frontText : JsString) (side : Side) : Prop :=
  match b with
  | Branch.newCard => prevText ≠ some frontText
  | Branch.flippedToBack =>
    prevText = some frontText ∧ prevSide = some Side.front ∧ side = Side.back
  | Branch.sameCardSameSide => prevText = some frontText ∧ prevSide = some side
  | Branch.fallThrough =>
    prevText = some frontText ∧ prevSide = some Side.back ∧ side = Side.front

/-- A manager that records a card text also records a side. -/
def SideKnown (w : Option Manager) : Prop :=
  ∀ m, w = some m → m.currentCardText ≠ none → m.currentCardSide ≠ none

/-- A page with the container and a front element with text `front`, on the
back side when `back` holds, without example. -/
def cardPage (front : JsString) (back : Bool) : Dom :=
  { container := true, frontElement := some front, exampleElement := none,
    backElement := back }

/-- A page without `#button-container`, showing the front text `front`. -/
def plainPage (front : JsString) : Dom :=
  { container := false, frontElement := some front, exampleElement := none,
    backElement := false }

/-- Card `A` is rendered on its front, the play button is clicked, the audio
arrives and `audio.play()` is called (its `play` event fires); before the
promise of `audio.play()` settles the page shows card `B`, whose page has no
`#button-container`, so that the run of the script on it returns at once. -/
def leftWhilePlayPending : List Event :=
  [ Event.page (cardPage "A".toList false), Event.render "id1".toList, Event.click 0,
    Event.answer 0 (FetchAnswer.response true 7), Event.play 0,
    Event.page (plainPage "B".toList), Event.render "id2".toList ]

/-- Card `A` is rendered on its front and the play button is clicked; while the
request is in flight the page shows card `B` and the script runs on it. -/
def leftWhileFetching : List Event :=
  [ Event.page (cardPage "A".toList false), Event.render "id1".toList, Event.click 0,
    Event.page (cardPage "B".toList false), Event.render "id2".toList ]

/-- Card `A` is rendered on its front and the play button is clicked; while the
request is in flight the page shows card `B` on a page without
`#button-container` (the run of the script on it returns at once), and then
card `A` on its front again. -/
def returnedWhileFetching : List Event :=
  [ Event.page (cardPage "A".toList false), Event.render "id1".toList, Event.click 0,
    Event.page (plainPage "B".toList), Event.render "id2".toList,
    Event.page (cardPage "A".toList false) ]

/-- From `s` to `t` the container keeps its `cardId` and render `i`, if it
exists, keeps existing with the identifier it minted. -/
def Keeps (i : Nat) (s t : State) : Prop :=
  t.cardId = s.cardId ∧
    ∀ rec, s.renders[i]? = some rec →
      ∃ rec', t.renders[i]? = some rec' ∧ rec'.cardId = rec.cardId

/-- Render `i` exists, minted `cardId`, and the container carries another
`cardId`. -/
def Superseded (i : Nat) (cardId : JsString) (s : State) : Prop :=
  (∃ rec, s.renders[i]? = some rec ∧ rec.cardId = cardId) ∧ s.cardId ≠ some cardId

end ElevenLabs2

/-! ## `tts-elevenlabs.js`: the autoplay decision -/

namespace ElevenLabs

/-- The data fields of `window.ankiAudioManager`. -/
structure Manager where
  currentAudio : Option Nat
  currentCardText : Option JsString
  currentCardSide : Option Side
  deriving DecidableEq, Repr

/-- The function `initAudioManager`: creates the manager when the window has none. -/
def initAudioManager (w : Option Manager) : Manager :=
  match w with
  | some m => m
  | none =>
    { currentAudio := none
      currentCardText := none
      currentCardSide := none }

/-- The constant `isNewCard` of a render, from the manager the render finds. -/
def isNewCard (m : Manager) (currentCardText : JsString) : Bool :=
  m.currentCardText ≠ some currentCardText

/-- The constant `isCardFlippedToBack` of a render, from the manager the render
finds. -/
def isCardFlippedToBack (m : Manager) (currentCardSide : Side) : Bool :=
  m.currentCardSide = some Side.front && currentCardSide = Side.back

/-- The constant `shouldAutoPlay` of a render. -/
def shouldAutoPlay (m : Manager) (frontText : JsString) (currentCardSide : Side) : Bool :=
  (isNewCard m frontText && currentCardSide = Side.front && !includes frontText ",\"".toList) ||
    isCardFlippedToBack m currentCardSide

end ElevenLabs

/-! ## `tts-elevenlabs.5.js` -/

namespace ElevenLabs5

/-- The data fields of `window.ankiAudioManager`.  The cache is a `Map` from
texts to object URLs; a URL is referred to by a number. -/
structure Manager where
  currentAudio : Option Nat
  currentCardText : Option JsString
  audioCache : ElevenLabs2.AudioMap
  deriving DecidableEq, Repr

/-- The function `initAudioManager`: creates the manager when the window has none. -/
def initAudioManager (w : Option Manager) : Manager :=
  match w with
  | some m => m
  | none =>
    { currentAudio := none
      currentCardText := none
      audioCache := [] }

/-- What the script reads from the page.  A text is the trimmed `textContent`
of the element with that id, `none` when the page has no such element. -/
structure Dom where
  container : Bool
  frontElement : Option JsString
  exampleElement : Option JsString
  deriving DecidableEq, Repr

/-- The children the script gives `#button-container`: the loading placeholder
of render `r` (with its text set to the failure message or not), an audio
element, the play button of render `r`. -/
inductive Child where
  | loading (r : Nat) (failed : Bool)
  | audio (a : Nat)
  | playBtn (r : Nat)
  deriving DecidableEq, Repr

/-- The closure of one run of the script that got past the empty-text check. -/
structure Render where
  currentCardText : JsString
  fullText : JsString
  cardId : JsString
  isNewCard : Bool
  audio : Option Nat
  deriving DecidableEq, Repr

/-- A run of the script that is suspended at `await fetchAudio(fullText)`:
with the request for `text` in flight, or on the URL that `fetchAudio` found
in the cache. -/
inductive Task where
  | fetching (r : Nat) (text : JsString)
  | cached (r : Nat) (audioUrl : Nat)
  deriving DecidableEq, Repr

/-- Everything the script reads or writes.  `cardId` is
`container.dataset.cardId`, `requests` the texts sent to the speech service. -/
structure State where
  dom : Dom
  cardId : Option JsString
  children : List Child
  manager : Option Manager
  audios : List AudioEl
  renders : List Render
  tasks : List Task
  requests : List JsString
  deriving DecidableEq, Repr

/-- The state of a page on which the script has not run yet. -/
def State.init : State :=
  { dom := { container := false, frontElement := none, exampleElement := none }
    cardId := none
    children := []
    manager := none
    audios := []
    renders := []
    tasks := []
    requests := [] }

/-- The method `ankiAudioManager.stopAll`. -/
def stopAll (s : State) : State :=
  match s.manager with
  | none => s
  | some m =>
    let audios := match m.currentAudio with
      | some a => pauseReset s.audios a
      | none => s.audios
    { s with
      audios := audios
      manager := some { m with currentAudio := none, currentCardText := none } }

/-- The `catch` block of render `r`: the loading placeholder gets the failure
message. -/
def catchBlock (s : State) (r : Nat) : State :=
  { s with children := s.children.map (fun el =>
      if el = Child.loading r false then Child.loading r true else el) }

/-- The function `fetchAudio` up to its first suspension, called by render `r`:
it returns the cached URL or sends a request.  Without a manager the call
throws, and the `catch` block of the render runs. -/
def fetchAudio (s : State) (r : Nat) (text : JsString) : State :=
  match s.manager with
  | none => catchBlock s r
  | some m =>
    match m.audioCache.get text with
    | some audioUrl => { s with tasks := s.tasks ++ [Task.cached r audioUrl] }
    | none =>
      { s with
        requests := s.requests ++ [text]
        tasks := s.tasks ++ [Task.fetching r text] }

/-- The block of a render that makes the manager and, on a new card, stops
the audio and records the text of the card. -/
def enterCard (s : State) (currentCardText : JsString) : State :=
  let w := initAudioManager s.manager
  let s := { s with manager := some w }
  let isNewCard : Bool := w.currentCardText ≠ some currentCardText
  if isNewCard then
    let s := stopAll s
    { s with manager := s.manager.map (fun m =>
        { m with currentCardText := some currentCardText }) }
  else s

/-- The synchronous part of one run of the script, up to `await fetchAudio`;
`cardId` is the string it mints from `Date.now()` and `Math.random()`. -/
def render (s : State) (cardId : JsString) : State :=
  if !s.dom.container then s else
  match s.dom.frontElement with
  | none => s
  | some frontText =>
    let exampleText := s.dom.exampleElement.getD []
    let fullText :=
      frontText ++ (if truthy exampleText then " \n ".toList ++ exampleText else [])
    let currentCardText := frontText
    if !truthy frontText then s else
    let isNewCard : Bool := (initAudioManager s.manager).currentCardText ≠ some currentCardText
    let s := enterCard s currentCardText
    let r := s.renders.length
    let s :=
      { s with
        cardId := some cardId
        children := Child.loading r false :: s.children
        renders := s.renders ++ [{
          currentCardText := currentCardText
          fullText := fullText
          cardId := cardId
          isNewCard := isNewCard
          audio := none }] }
    fetchAudio s r fullText

/-- The closure `isCurrentCard` of a render. -/
def isCurrentCard (s : State) (rec : Render) : Bool :=
  let currentFront := s.dom.frontElement
  currentFront = some rec.currentCardText && s.cardId = some rec.cardId

/-- The closure `playAudio` of a render whose audio element is `a`. -/
def playAudio (s : State) (rec : Render) (a : Nat) : State :=
  if !isCurrentCard s rec then s
  else
    match s.manager with
    | none => s
    | some _ =>
      let s := stopAll s
      { s with
        audios := restart s.audios a
        manager := s.manager.map (fun m =>
          { m with currentAudio := some a, currentCardText := some rec.currentCardText }) }

/-- The statement `loading.remove()` of render `r`. -/
def removeLoading (s : State) (r : Nat) : State :=
  { s with children := s.children.filter (fun el =>
      el ≠ Child.loading r false && el ≠ Child.loading r true) }

/-- The run of render `r` from the moment `fetchAudio` has returned a URL to
its end. -/
def afterFetchAudio (s : State) (r : Nat) (rec : Render) : State :=
  if !isCurrentCard s rec then removeLoading s r
  else
    let s := removeLoading s r
    let a := s.audios.length
    let s :=
      { s with
        audios := s.audios ++ [{ paused := true, currentTime := 0 }]
        children := Child.playBtn r :: (s.children ++ [Child.audio a])
        renders := modifyAt s.renders r (fun rec => { rec with audio := some a }) }
    let shouldAutoPlay : Bool := rec.isNewCard && !includes rec.currentCardText ",\"".toList
    if shouldAutoPlay && isCurrentCard s rec then playAudio s rec a else s

/-- How the request of `fetchAudio` ends: with a response (`ok` or not) whose
body gets the object URL `audioUrl`, or with a failure. -/
inductive FetchAnswer where
  | response (ok : Bool) (audioUrl : Nat)
  | failed
  deriving DecidableEq, Repr

/-- The function `fetchAudio` from the answer to its request on, followed by
the rest of the run of render `r`. -/
def afterRequest (s : State) (r : Nat) (text : JsString) (a : FetchAnswer) : State :=
  match a with
  | FetchAnswer.response true audioUrl =>
    match s.manager with
    | none => catchBlock s r
    | some m =>
      let s := { s with manager := some { m with audioCache := m.audioCache.set text audioUrl } }
      match s.renders[r]? with
      | some rec => afterFetchAudio s r rec
      | none => s
  | _ => catchBlock s r

/-- The listener of the `play` event of the audio element `a` of a render. -/
def onPlay (s : State) (rec : Render) (a : Nat) : State :=
  if !isCurrentCard s rec then { s with audios := pauseReset s.audios a }
  else { s with manager := s.manager.map (fun m => { m with currentAudio := some a }) }

/-- The listener of the `playing` event of the audio element `a` of a render. -/
def onPlaying (s : State) (rec : Render) (a : Nat) : State :=
  if !isCurrentCard s rec then { s with audios := pauseReset s.audios a } else s

/-- The `dblclick` listener of the play button of a render whose audio is `a`. -/
def onDblclick (s : State) (a : Nat) : State :=
  let s := { s with audios := pauseReset s.audios a }
  match s.manager with
  | none => s
  | some m =>
    if m.currentAudio = some a then
      { s with manager := some { m with currentAudio := none } }
    else s

/-- What can happen to the page. -/
inductive Event where
  | page (d : Dom)
  | render (cardId : JsString)
  | answer (t : Nat) (a : FetchAnswer)
  | resume (t : Nat)
  | click (r : Nat)
  | dblclick (r : Nat)
  | play (r : Nat)
  | playing (r : Nat)
  | progress (a : Nat) (t : Nat)
  deriving DecidableEq, Repr

/-- One step of the page: the event `e` happens in state `s`.  `answer`
completes the request of task `t`, `resume` continues task `t` that waits on a
cached URL.  An event that cannot happen in `s` leaves the state as it is. -/
def step (s : State) (e : Event) : State :=
  match e with
  | Event.page d => { s with dom := d }
  | Event.render cardId => render s cardId
  | Event.answer t a =>
    match s.tasks[t]? with
    | some (Task.fetching r text) =>
      afterRequest { s with tasks := s.tasks.eraseIdx t } r text a
    | _ => s
  | Event.resume t =>
    match s.tasks[t]? with
    | some (Task.cached r _) =>
      match s.renders[r]? with
      | some rec => afterFetchAudio { s with tasks := s.tasks.eraseIdx t } r rec
      | none => s
    | _ => s
  | Event.click r =>
    match s.renders[r]? with
    | some rec =>
      match rec.audio with
      | some a => playAudio s rec a
      | none => s
    | none => s
  | Event.dblclick r =>
    match s.renders[r]? with
    | some rec =>
      match rec.audio with
      | some a => onDblclick s a
      | none => s
    | none => s
  | Event.play r =>
    match s.renders[r]? with
    | some rec =>
      match rec.audio with
      | some a => onPlay s rec a
      | none => s
    | none => s
  | Event.playing r =>
    match s.renders[r]? with
    | some rec =>
      match rec.audio with
      | some a => onPlaying s rec a
      | none => s
    | none => s
  | Event.progress a t =>
    let audios := modifyAt s.audios a
      (fun el => if el.paused then el else { el with currentTime := t })
    { s with audios := audios }

/-- The state after a sequence of events. -/
def run (s : State) (es : List Event) : State :=
  es.foldl step s

/-- The cache of the manager holds an entry for `text`. -/
def Cached (text : JsString) (s : State) : Prop :=
  ∃ (m : Manager) (audioUrl : Nat), s.manager = some m ∧ m.audioCache.get text = some audioUrl

/-- From `s` to `t` the cache keeps an entry for `text` and no request for
`text` is sent. -/
def Quiet (text : JsString) (s t : State) : Prop :=
  Cached text t ∧ t.requests.count text = s.requests.count text

/-- From `s` to `t` no request is sent and a manager that exists keeps its
cache. -/
def SameCache (s t : State) : Prop :=
  t.requests = s.requests ∧
    ∀ m : Manager, s.manager = some m →
      ∃ m' : Manager, t.manager = some m' ∧ m'.audioCache = m.audioCache

/-- A page with the container and a front element with text `front`, without
example. -/
def cardPage (front : JsString) : Dom :=
  { container := true, frontElement := some front, exampleElement := none }

end ElevenLabs5

/-! ## Theorems -/

/-! ### Lists updated in place -/

theorem modifyAt_length {α : Type} (l : List α) (i : Nat) (f : α → α) :
    (modifyAt l i f).length = l.length := by
  unfold modifyAt
  cases h : l[i]? with
  | none => rfl
  | some x => simp

theorem modifyAt_getElem? {α : Type} (l : List α) (i j : Nat) (f : α → α) :
    (modifyAt l i f)[j]? = if i = j then l[j]?.map f else l[j]? := by
  unfold modifyAt
  cases h : l[i]? with
  | none =>
    by_cases hij : i = j
    · subst hij
      simp [h]
    · simp [hij]
  | some x =>
    by_cases hij : i = j
    · subst hij
      have hi : i < l.length := by
        rcases Nat.lt_or_ge i l.length with hlt | hge
        · exact hlt
        · rw [List.getElem?_eq_none hge] at h
          cases h
      simp [h, List.getElem?_set, hi]
    · simp [hij, List.getElem?_set]

/-! ### `tts.10.js`: the content key -/

namespace Tts10

/-- Cutting two strings at a separator that neither left part contains. -/
theorem split_at_sep (c : Char) :
    ∀ (a b x y : JsString), c ∉ a → c ∉ b → a ++ c :: x = b ++ c :: y → a = b ∧ x = y := by
  intro a
  induction a with
  | nil =>
    intro b x y _ hb h
    cases b with
    | nil => simpa using h
    | cons d b =>
      simp only [List.nil_append, List.cons_append, List.cons.injEq] at h
      exact absurd (h.1 ▸ List.mem_cons_self _ _) hb
  | cons d a ih =>
    intro b x y ha hb h
    cases b with
    | nil =>
      simp only [List.nil_append, List.cons_append, List.cons.injEq] at h
      exact absurd (h.1 ▸ List.mem_cons_self _ _) ha
    | cons e b =>
      simp only [List.cons_append, List.cons.injEq] at h
      have ha2 : c ∉ a := fun hm => ha (List.mem_cons_of_mem _ hm)
      have hb2 : c ∉ b := fun hm => hb (List.mem_cons_of_mem _ hm)
      obtain ⟨h1, h2⟩ := ih b x y ha2 hb2 h.2
      exact ⟨by rw [h.1, h1], h2⟩

/-- A string without the separator is not a string cut by the separator. -/
theorem no_sep_ne (c : Char) (a b x : JsString) (ha : c ∉ a) : a ≠ b ++ c :: x := by
  intro h
  apply ha
  rw [h]
  simp

theorem generateContentKey_front_tail (f e d : JsString) :
    generateContentKey f e d = f ++ keyTail e d := by
  unfold generateContentKey keyTail
  cases e <;> cases d <;> simp [truthy]

theorem keyTail_cases (e d : JsString) : keyTail e d = [] ∨ ∃ t, keyTail e d = '|' :: t := by
  unfold keyTail
  cases e <;> cases d <;> simp [truthy]

theorem front_tail_inj (f1 f2 t1 t2 : JsString) (h1 : '|' ∉ f1) (h2 : '|' ∉ f2)
    (c1 : t1 = [] ∨ ∃ t, t1 = '|' :: t) (c2 : t2 = [] ∨ ∃ t, t2 = '|' :: t)
    (h : f1 ++ t1 = f2 ++ t2) : f1 = f2 ∧ t1 = t2 := by
  rcases c1 with rfl | ⟨u1, rfl⟩ <;> rcases c2 with rfl | ⟨u2, rfl⟩
  · simpa using h
  · simp only [List.append_nil] at h
    exact absurd h (no_sep_ne _ _ _ _ h1)
  · simp only [List.append_nil] at h
    exact absurd h.symm (no_sep_ne _ _ _ _ h2)
  · obtain ⟨a, b⟩ := split_at_sep _ _ _ _ _ h1 h2 h
    exact ⟨a, by rw [b]⟩

theorem keyTail_eq_iff (e1 d1 e2 d2 : JsString)
    (he1 : '|' ∉ e1) (hd1 : '|' ∉ d1) (he2 : '|' ∉ e2) (hd2 : '|' ∉ d2) :
    keyTail e1 d1 = keyTail e2 d2 ↔
      (e1 = e2 ∧ d1 = d2) ∨ (d1 = [] ∧ e2 = [] ∧ d2 = e1) ∨ (e1 = [] ∧ d2 = [] ∧ e2 = d1) := by
  unfold keyTail
  rcases e1 with _ | ⟨a1, e1⟩ <;> rcases d1 with _ | ⟨b1, d1⟩ <;>
    rcases e2 with _ | ⟨a2, e2⟩ <;> rcases d2 with _ | ⟨b2, d2⟩ <;>
    simp [truthy]
  case nil.cons.cons.nil => exact ⟨fun h => ⟨h.1.symm, h.2.symm⟩, fun h => ⟨h.1.symm, h.2.symm⟩⟩
  case cons.nil.nil.cons => exact ⟨fun h => ⟨h.1.symm, h.2.symm⟩, fun h => ⟨h.1.symm, h.2.symm⟩⟩
  case nil.cons.cons.cons =>
    intro _ h
    exact no_sep_ne _ d1 e2 _ (fun hm => hd1 (List.mem_cons_of_mem _ hm)) h
  case cons.nil.cons.cons =>
    intro _ h
    exact no_sep_ne _ e1 e2 _ (fun hm => he1 (List.mem_cons_of_mem _ hm)) h
  case cons.cons.nil.cons =>
    intro _ h
    exact no_sep_ne _ d2 e1 _ (fun hm => hd2 (List.mem_cons_of_mem _ hm)) h.symm
  case cons.cons.cons.nil =>
    intro _ h
    exact no_sep_ne _ e2 e1 _ (fun hm => he2 (List.mem_cons_of_mem _ hm)) h.symm
  case cons.cons.cons.cons =>
    constructor
    · rintro ⟨ha, h⟩
      obtain ⟨h1, h2⟩ := split_at_sep _ e1 e2 _ _
        (fun hm => he1 (List.mem_cons_of_mem _ hm)) (fun hm => he2 (List.mem_cons_of_mem _ hm)) h
      simp only [List.cons.injEq] at h2
      exact ⟨⟨ha, h1⟩, h2⟩
    · rintro ⟨⟨ha, h1⟩, h2, h3⟩
      exact ⟨ha, by rw [h1, h2, h3]⟩

/-- C1, as stated, fails: the triples `("x", "a", "")` and `("x", "", "a")` have a
non-empty front text and no `|` in any field, they differ in the example text
and in the definition text, and `generateContentKey` gives both the key `"x|a"`. -/
theorem generateContentKey_collision :
    "x".toList ≠ [] ∧
    '|' ∉ "x".toList ∧ '|' ∉ "a".toList ∧ '|' ∉ ([] : JsString) ∧
    "a".toList ≠ ([] : JsString) ∧
    generateContentKey "x".toList "a".toList [] = "x|a".toList ∧
    generateContentKey "x".toList [] "a".toList = "x|a".toList := by
  decide

/-- C1, amended: for two field triples in which no field contains `|`, the
content keys are equal exactly when the triples are equal or have the same
front text and carry one and the same text, one as its example text with an
empty definition text, the other as its definition text with an empty example
text.  So any other change of a field changes the key. -/
theorem generateContentKey_eq_iff (f1 e1 d1 f2 e2 d2 : JsString)
    (hf1 : '|' ∉ f1) (he1 : '|' ∉ e1) (hd1 : '|' ∉ d1)
    (hf2 : '|' ∉ f2) (he2 : '|' ∉ e2) (hd2 : '|' ∉ d2) :
    generateContentKey f1 e1 d1 = generateContentKey f2 e2 d2 ↔
      f1 = f2 ∧ ((e1 = e2 ∧ d1 = d2) ∨ (d1 = [] ∧ e2 = [] ∧ d2 = e1) ∨
        (e1 = [] ∧ d2 = [] ∧ e2 = d1)) := by
  rw [generateContentKey_front_tail, generateContentKey_front_tail, ← keyTail_eq_iff e1 d1 e2 d2 he1 hd1 he2 hd2]
  constructor
  · exact front_tail_inj f1 f2 _ _ hf1 hf2 (keyTail_cases e1 d1) (keyTail_cases e2 d2)
  · rintro ⟨h1, h2⟩
    rw [h1, h2]

/-- The amended C1 at the triples `("x", "a", "b")` and `("x", "a", "c")`. -/
theorem generateContentKey_eq_iff_witness :
    ('|' ∉ "x".toList ∧ '|' ∉ "a".toList ∧ '|' ∉ "b".toList ∧ '|' ∉ "c".toList) ∧
    (generateContentKey "x".toList "a".toList "b".toList
        = generateContentKey "x".toList "a".toList "c".toList ↔
      "x".toList = "x".toList ∧
        (("a".toList = "a".toList ∧ "b".toList = "c".toList) ∨
         ("b".toList = [] ∧ "a".toList = [] ∧ "c".toList = "a".toList) ∨
         ("a".toList = [] ∧ "c".toList = [] ∧ "a".toList = "b".toList))) :=
  ⟨by decide,
   generateContentKey_eq_iff "x".toList "a".toList "b".toList "x".toList "a".toList "c".toList
    (by decide) (by decide) (by decide) (by decide) (by decide) (by decide)⟩

end Tts10

/-! ### `tts.10.js`: what a render does to the manager -/

namespace Tts10

theorem stopAll_controllers_length (s : State) :
    (stopAll s).controllers.length = s.controllers.length := by
  unfold stopAll
  cases s.manager with
  | none => rfl
  | some m =>
    cases h : m.currentAbortController with
    | none => simp [h]
    | some c => simp [h, modifyAt_length]

/-- C3, as stated, fails on a flip to the front.  After `playedBack` the manager
holds audio 0 (playing, at position 5), key `"A"`, side back and controller 0.
The card is turned to its front: the transition is `flippedToFront`, the render
is not skipped, and after it audio 0 still plays at position 5 and is still the
manager's `currentAudio`, and the signal of controller 0 is not aborted. -/
theorem render_flippedToFront_keeps_audio :
    (run State.init playedBack).manager =
      some { currentAudio := some 0, currentContentKey := some "A".toList,
             currentCardSide := some Side.back, currentAbortController := some 0 } ∧
    specTransition (some "A".toList) (some Side.back) "A".toList Side.front
      = some Transition.flippedToFront ∧
    (run State.init (playedBack ++ [Event.page (cardPage "A".toList false), Event.render])).renders.length
      = (run State.init playedBack).renders.length + 1 ∧
    (run State.init (playedBack ++ [Event.page (cardPage "A".toList false), Event.render])).audios[0]?
      = some { paused := false, currentTime := 5 } ∧
    ((run State.init (playedBack ++ [Event.page (cardPage "A".toList false), Event.render])).manager.map
      (fun m => m.currentAudio)) = some (some 0) ∧
    signalAborted
      (run State.init (playedBack ++ [Event.page (cardPage "A".toList false), Event.render])) 0
      = false := by
  decide

/-- What a render that calls `stopAll` does to the audio and the controller of
a manager the window already has. -/
theorem stops_previous_of_manager (s : State) (m : Manager) (frontText key : JsString)
    (side : Side) (t : Transition)
    (hc : s.dom.container = true) (hm : s.manager = some m)
    (hf : s.dom.frontElement = some frontText) (ht : truthy frontText = true)
    (hkey : key = generateContentKey frontText (s.dom.exampleElement.getD [])
      (s.dom.definitionElement.getD []))
    (hside : side = detectCardSide s.dom)
    (hskip : s.contentKey ≠ some (combinedKey key side))
    (htr : specTransition m.currentContentKey m.currentCardSide key side = some t)
    (hne : t = Transition.newContent ∨ t = Transition.flippedToBack) :
    (∀ a, m.currentAudio = some a → a < s.audios.length →
      (render s).audios[a]? = some { paused := true, currentTime := 0 }) ∧
    (∀ c, m.currentAbortController = some c → c < s.controllers.length →
      signalAborted (render s) c = true) ∧
    (∃ m', (render s).manager = some m' ∧ m'.currentAudio = none ∧
      m'.currentAbortController = some s.controllers.length ∧
      ∀ c, m.currentAbortController = some c → c < s.controllers.length →
        m'.currentAbortController ≠ some c) := by
  subst hkey hside
  have hstop : (decide (m.currentContentKey ≠ some (generateContentKey frontText
        (s.dom.exampleElement.getD []) (s.dom.definitionElement.getD []))) = true) ∨
      (decide (m.currentContentKey ≠ some (generateContentKey frontText
        (s.dom.exampleElement.getD []) (s.dom.definitionElement.getD []))) = false ∧
       (decide (m.currentCardSide = some Side.front) && decide (detectCardSide s.dom = Side.back))
        = true) := by
    unfold specTransition at htr
    by_cases h1 : m.currentContentKey ≠ some (generateContentKey frontText
        (s.dom.exampleElement.getD []) (s.dom.definitionElement.getD []))
    · left; simpa using h1
    · right
      rw [if_neg h1] at htr
      by_cases h2 : m.currentCardSide = some Side.front ∧ detectCardSide s.dom = Side.back
      · simp [h2]
        simpa using h1
      · rw [if_neg h2] at htr
        split at htr
        · cases htr; rcases hne with h | h <;> cases h
        · split at htr
          · cases htr; rcases hne with h | h <;> cases h
          · cases htr
  have hr : render s =
      { stopAll s with
        children := Child.loading s.renders.length ::
          s.children.filter (fun el => !el.isTts)
        contentKey := some (combinedKey (generateContentKey frontText
          (s.dom.exampleElement.getD []) (s.dom.definitionElement.getD []))
          (detectCardSide s.dom))
        controllers := (stopAll s).controllers ++ [false]
        manager := some { initAudioManager (stopAll s).manager with
          currentAbortController := some (stopAll s).controllers.length }
        fetches := s.fetches ++ [Fetch.apiKey s.renders.length]
        renders := (render s).renders } := by
    rcases hstop with h | ⟨h1, h2⟩
    · simp [render, hc, hm, hf, ht, hskip, initAudioManager, h, stopAll]
    · simp [render, hc, hm, hf, ht, hskip, initAudioManager, h1, h2, stopAll]
  have hlen : (stopAll s).controllers.length = s.controllers.length :=
    stopAll_controllers_length s
  rw [hr]
  refine ⟨?_, ?_, ?_⟩
  · intro a ha hlt
    simp [stopAll, hm, ha, pauseReset, modifyAt_getElem?, List.getElem?_eq_getElem hlt]
  · intro c hcc hlt
    have hlt2 : c < (modifyAt s.controllers c (fun _ => true)).length := by
      rw [modifyAt_length]; exact hlt
    simp [signalAborted, stopAll, hm, hcc, List.getElem?_append_left hlt2, modifyAt_getElem?,
      List.getElem?_eq_getElem hlt]
  · refine ⟨_, rfl, ?_, ?_, ?_⟩
    · simp [stopAll, hm, initAudioManager]
    · simp [hlen]
    · intro c _ hlt
      simp only [hlen, ne_eq, Option.some.injEq]
      omega

theorem render_initAudioManager (s : State) (hc : s.dom.container = true) :
    render { s with manager := some (initAudioManager s.manager) } = render s := by
  simp [render, hc, initAudioManager]

/-- C3, amended: a render that is not skipped and whose transition, computed
from the manager it finds (the one `initAudioManager` makes when the window has
none), is `newContent` or `flippedToBack` pauses the audio the manager held and
resets its position to zero, aborts the controller the manager held, and
leaves the manager with no audio and with a controller that is a new one.
(On `flippedToFront` the render does none of this.) -/
theorem render_stops_previous (s : State) (m : Manager) (frontText key : JsString) (side : Side)
    (t : Transition)
    (hc : s.dom.container = true) (hm : initAudioManager s.manager = m)
    (hf : s.dom.frontElement = some frontText) (ht : truthy frontText = true)
    (hkey : key = generateContentKey frontText (s.dom.exampleElement.getD [])
      (s.dom.definitionElement.getD []))
    (hside : side = detectCardSide s.dom)
    (hskip : s.contentKey ≠ some (combinedKey key side))
    (htr : specTransition m.currentContentKey m.currentCardSide key side = some t)
    (hne : t = Transition.newContent ∨ t = Transition.flippedToBack) :
    (∀ a, m.currentAudio = some a → a < s.audios.length →
      (render s).audios[a]? = some { paused := true, currentTime := 0 }) ∧
    (∀ c, m.currentAbortController = some c → c < s.controllers.length →
      signalAborted (render s) c = true) ∧
    (∃ m', (render s).manager = some m' ∧ m'.currentAudio = none ∧
      m'.currentAbortController = some s.controllers.length ∧
      ∀ c, m.currentAbortController = some c → c < s.controllers.length →
        m'.currentAbortController ≠ some c) := by
  have h := stops_previous_of_manager
    { s with manager := some (initAudioManager s.manager) } m frontText key side t
    hc (by rw [hm]) hf ht hkey hside hskip htr hne
  rw [render_initAudioManager s hc] at h
  exact h

/-- The amended C3 in the state after `playedBack` when the page shows the front
of another card, `B`: the transition is `newContent`. -/
theorem render_stops_previous_witness :
    ((run State.init (playedBack ++ [Event.page (cardPage "B".toList false)])).dom.container = true ∧
     initAudioManager
        (run State.init (playedBack ++ [Event.page (cardPage "B".toList false)])).manager =
        { currentAudio := some 0, currentContentKey := some "A".toList,
          currentCardSide := some Side.back, currentAbortController := some 0 } ∧
     (run State.init (playedBack ++ [Event.page (cardPage "B".toList false)])).dom.frontElement
        = some "B".toList ∧
     (run State.init (playedBack ++ [Event.page (cardPage "B".toList false)])).contentKey
        ≠ some (combinedKey "B".toList Side.front) ∧
     specTransition (some "A".toList) (some Side.back) "B".toList Side.front
        = some Transition.newContent) ∧
    (render (run State.init (playedBack ++ [Event.page (cardPage "B".toList false)]))).audios[0]?
        = some { paused := true, currentTime := 0 } ∧
    signalAborted
      (render (run State.init (playedBack ++ [Event.page (cardPage "B".toList false)]))) 0 = true :=
  have h := render_stops_previous
    (run State.init (playedBack ++ [Event.page (cardPage "B".toList false)]))
    { currentAudio := some 0, currentContentKey := some "A".toList,
      currentCardSide := some Side.back, currentAbortController := some 0 }
    "B".toList "B".toList Side.front Transition.newContent
    (by decide) (by decide) (by decide) (by decide) (by decide) (by decide) (by decide)
    (by decide) (Or.inl rfl)
  ⟨by decide, h.1 0 rfl (by decide), h.2.1 0 rfl (by decide)⟩

/-- C5, as stated, fails.  After `turnedTwice` the manager holds key `"A"` and
side back and the page shows the back of card `A`, so the transition is
`unchanged`; but the container is marked `"A|front"`, the render is not
skipped, it replaces the manager's controller 1 by the new controller 2 and
sends the request of `checkApiKey`. -/
theorem render_unchanged_starts_pipeline :
    (run State.init turnedTwice).manager =
      some { currentAudio := some 0, currentContentKey := some "A".toList,
             currentCardSide := some Side.back, currentAbortController := some 1 } ∧
    (run State.init turnedTwice).dom = cardPage "A".toList true ∧
    specTransition (some "A".toList) (some Side.back)
      (generateContentKey "A".toList [] []) (detectCardSide (cardPage "A".toList true))
      = some Transition.unchanged ∧
    (render (run State.init turnedTwice)).manager =
      some { currentAudio := some 0, currentContentKey := some "A".toList,
             currentCardSide := some Side.back, currentAbortController := some 2 } ∧
    (render (run State.init turnedTwice)).fetches =
      (run State.init turnedTwice).fetches ++ [Fetch.apiKey 2] := by
  decide

/-- C5, amended: a render whose combined key (content key, `|`, side) equals
`container.dataset.contentKey` changes nothing at all: no field of the manager,
no controller, no request, no pipeline. -/
theorem render_skipped (s : State) (m : Manager) (frontText : JsString)
    (hc : s.dom.container = true) (hm : s.manager = some m)
    (hf : s.dom.frontElement = some frontText) (ht : truthy frontText = true)
    (hskip : s.contentKey = some (combinedKey
      (generateContentKey frontText (s.dom.exampleElement.getD [])
        (s.dom.definitionElement.getD []))
      (detectCardSide s.dom))) :
    render s = s := by
  simp [render, hc, hm, hf, ht, hskip, initAudioManager]
  cases s
  simp_all

/-- The amended C5 in the state after `playedBack` (manager on key `"A"`, side
back; container marked `"A|back"`; the page shows the back of `A`). -/
theorem render_skipped_witness :
    ((run State.init playedBack).dom.container = true ∧
     (run State.init playedBack).manager =
        some { currentAudio := some 0, currentContentKey := some "A".toList,
               currentCardSide := some Side.back, currentAbortController := some 0 } ∧
     (run State.init playedBack).dom.frontElement = some "A".toList ∧
     (run State.init playedBack).contentKey = some "A|back".toList) ∧
    render (run State.init playedBack) = run State.init playedBack :=
  ⟨by decide,
   render_skipped (run State.init playedBack)
    { currentAudio := some 0, currentContentKey := some "A".toList,
      currentCardSide := some Side.back, currentAbortController := some 0 }
    "A".toList (by decide) (by decide) (by decide) (by decide) (by decide)⟩

/-- C6 fails in the code.  After `turnedThrice` four pipelines have started.
Those of renders 1 and 3 (both of the front of card `A`, combined key
`"A|front"`) are both suspended in `checkApiKey`, their controllers 1 and 3 are
two controllers, neither signal is aborted, the container is marked
`"A|front"`, and `checkAborted` returns without throwing for both. -/
theorem two_live_pipelines :
    (run State.init turnedThrice).renders.length = 4 ∧
    (run State.init turnedThrice).contentKey = some "A|front".toList ∧
    (run State.init turnedThrice).renders.map (fun rec => rec.stage) =
      [Stage.ready, Stage.checkingKey, Stage.checkingKey, Stage.checkingKey] ∧
    (run State.init turnedThrice).renders.map (fun rec => rec.combinedKey) =
      ["A|back".toList, "A|front".toList, "A|back".toList, "A|front".toList] ∧
    (run State.init turnedThrice).renders.map (fun rec => rec.abortController) = [0, 1, 2, 3] ∧
    (run State.init turnedThrice).controllers = [false, false, false, false] ∧
    (run State.init turnedThrice).renders.map
        (fun rec => (checkAborted (run State.init turnedThrice) rec).toBool) =
      [false, true, false, true] := by
  decide

end Tts10

/-! ### `tts-elevenlabs.2.js`: the audio cache -/

namespace ElevenLabs2

theorem AudioMap.get_set_self (m : AudioMap) (key : JsString) (value : Nat) :
    (m.set key value).get key = some value := by
  induction m with
  | nil => simp [AudioMap.set, AudioMap.get]
  | cons e rest ih =>
    obtain ⟨k, v⟩ := e
    by_cases h : k = key
    · simp [AudioMap.set, AudioMap.get, h]
    · simp [AudioMap.set, AudioMap.get, h, ih]

theorem AudioMap.get_set_other (m : AudioMap) (key other : JsString) (value : Nat)
    (h : other ≠ key) : (m.set key value).get other = m.get other := by
  induction m with
  | nil =>
    have h2 : ¬ key = other := fun e => h e.symm
    simp [AudioMap.set, AudioMap.get, h2]
  | cons e rest ih =>
    obtain ⟨k, v⟩ := e
    by_cases hk : k = key
    · have h2 : ¬ key = other := fun e => h e.symm
      simp [AudioMap.set, AudioMap.get, hk, h2]
    · by_cases ho : k = other
      · subst ho
        simp [AudioMap.set, AudioMap.get, hk]
      · simp [AudioMap.set, AudioMap.get, hk, ho, ih]

/-- C10: for every manager (so every cache), key and payload, `getCachedAudio`
of the key after `setCachedAudio` of the key and the payload returns the
payload, and `getCachedAudio` of every other key returns what it returned
before. -/
theorem getCachedAudio_setCachedAudio (m : Manager) (key : JsString) (payload : Nat) :
    getCachedAudio (setCachedAudio m key payload) key = some payload ∧
    ∀ other : JsString, other ≠ key →
      getCachedAudio (setCachedAudio m key payload) other = getCachedAudio m other :=
  ⟨AudioMap.get_set_self m.audioCache key payload,
   fun other h => AudioMap.get_set_other m.audioCache key other payload h⟩

/-- C10 on a cache that holds the keys `"a"` and `"b"`: putting 7 under `"a"`
gives 7 for `"a"` and leaves `"b"` at 2. -/
theorem getCachedAudio_setCachedAudio_witness :
    "b".toList ≠ "a".toList ∧
    getCachedAudio (setCachedAudio
      { currentAudio := none, currentCardText := none, currentCardSide := none,
        audioCache := [("a".toList, 1), ("b".toList, 2)] } "a".toList 7) "a".toList = some 7 ∧
    getCachedAudio (setCachedAudio
      { currentAudio := none, currentCardText := none, currentCardSide := none,
        audioCache := [("a".toList, 1), ("b".toList, 2)] } "a".toList 7) "b".toList = some 2 :=
  have h := getCachedAudio_setCachedAudio
    { currentAudio := none, currentCardText := none, currentCardSide := none,
      audioCache := [("a".toList, 1), ("b".toList, 2)] } "a".toList 7
  ⟨by decide, h.1, (h.2 "b".toList (by decide)).trans (by decide)⟩

end ElevenLabs2

/-! ### `tts-elevenlabs.2.js`: the branch of a render -/

namespace ElevenLabs2

theorem SideKnown_stopAll (s : State) : SideKnown (stopAll s).manager := by
  unfold stopAll SideKnown
  cases h : s.manager with
  | none => simp [h]
  | some m => simp

theorem SideKnown_setRender (s : State) (r : Nat) (f : Render → Render)
    (h : SideKnown s.manager) : SideKnown (setRender s r f).manager := h

theorem SideKnown_fetchElevenLabsAudio (s : State) (r : Nat) (text : JsString)
    (h : SideKnown s.manager) : SideKnown (fetchElevenLabsAudio s r text).manager := by
  unfold fetchElevenLabsAudio
  split
  · exact h
  · split <;> exact h

theorem SideKnown_playAudio (s : State) (r : Nat) (rec : Render)
    (h : SideKnown s.manager) : SideKnown (playAudio s r rec).manager := by
  unfold playAudio
  split
  · exact h
  · split
    · exact h
    · split
      · split
        · exact h
        · exact SideKnown_stopAll s
      · exact SideKnown_fetchElevenLabsAudio _ _ _ h

theorem SideKnown_afterFetch (s : State) (r : Nat) (rec : Render)
    (h : SideKnown s.manager) : SideKnown (afterFetch s r rec).manager := by
  unfold afterFetch
  split
  · exact h
  · simp only []
    split
    · exact h
    · exact SideKnown_stopAll _

theorem SideKnown_afterRequest (s : State) (r : Nat) (text : JsString) (a : FetchAnswer)
    (h : SideKnown s.manager) : SideKnown (afterRequest s r text a).manager := by
  unfold afterRequest
  split
  · split
    · exact h
    · rename_i m hm
      have h2 : ∀ b, SideKnown (some (setCachedAudio m text b)) := by
        intro b m' hm' ht
        cases hm'
        exact h m hm ht
      simp only []
      split
      · exact SideKnown_afterFetch _ _ _ (h2 _)
      · exact h2 _
  · exact h

theorem SideKnown_transitionHandling (s : State) (text : JsString) (side : Side)
    (h : SideKnown s.manager) : SideKnown (transitionHandling s text side).manager := by
  unfold transitionHandling
  split
  · intro m hm _
    simp only [setManager, Option.map_eq_some'] at hm
    obtain ⟨m0, _, rfl⟩ := hm
    simp
  · intro m hm _
    simp only [setManager, Option.map_eq_some'] at hm
    obtain ⟨m0, _, rfl⟩ := hm
    simp
  · exact h
  · exact h

theorem SideKnown_init (w : Option Manager) (h : SideKnown w) :
    SideKnown (some (initAudioManager w)) := by
  intro m hm
  cases w with
  | none =>
    simp only [initAudioManager, Option.some.injEq] at hm
    subst hm
    simp
  | some m0 =>
    simp only [initAudioManager, Option.some.injEq] at hm
    subst hm
    exact h m0 rfl

theorem SideKnown_render (s : State) (cardId : JsString)
    (h : SideKnown s.manager) : SideKnown (render s cardId).manager := by
  unfold render
  split
  · exact h
  · split
    · exact h
    · simp only []
      split
      · exact h
      · split
        · exact SideKnown_init _ h
        · exact SideKnown_transitionHandling _ _ _ (SideKnown_init _ h)

/-- Every step keeps the manager such that a recorded text comes with a side. -/
theorem SideKnown_step (s : State) (e : Event) (h : SideKnown s.manager) :
    SideKnown (step s e).manager := by
  cases e with
  | page d => exact h
  | render cardId => exact SideKnown_render s cardId h
  | click r =>
    simp only [step]
    split
    · exact SideKnown_playAudio _ _ _ h
    · exact h
  | dblclick r =>
    simp only [step]
    split
    · unfold onDblclick
      split
      · exact h
      · simp only []
        split
        · exact h
        · rename_i m hm
          split
          · intro m' hm' ht
            simp only [Option.some.injEq] at hm'
            subst hm'
            exact h m hm ht
          · exact h
    · exact h
  | answer t a =>
    simp only [step]
    split
    · exact SideKnown_afterRequest _ _ _ _ h
    · exact h
  | resume t =>
    simp only [step]
    split
    · split
      · exact SideKnown_afterFetch _ _ _ h
      · exact h
    · exact h
  | settle t ok =>
    simp only [step]
    split
    · split
      · unfold afterPlayExisting
        split
        · intro m hm ht
          simp only [setManager, Option.map_eq_some'] at hm
          obtain ⟨m0, hm0, rfl⟩ := hm
          exact h m0 hm0 ht
        · exact h
      · exact h
    · split
      · unfold afterPlayNew
        split
        · intro m hm _
          simp only [setManager, Option.map_eq_some'] at hm
          obtain ⟨m0, _, rfl⟩ := hm
          simp
        · exact h
      · exact h
    · exact h
  | play r =>
    simp only [step]
    split
    · split
      · unfold onPlay
        split
        · exact h
        · intro m hm _
          simp only [setManager, Option.map_eq_some'] at hm
          obtain ⟨m0, _, rfl⟩ := hm
          simp
      · exact h
    · exact h
  | progress a t => exact h

theorem SideKnown_run (es : List Event) :
    ∀ s : State, SideKnown s.manager → SideKnown (run s es).manager := by
  induction es with
  | nil => intro s h; exact h
  | cons e es ih =>
    intro s h
    exact ih (step s e) (SideKnown_step s e h)

theorem SideKnown_reachable (s : State) (h : Reachable s) : SideKnown s.manager := by
  obtain ⟨es, rfl⟩ := h
  apply SideKnown_run
  intro m hm
  cases hm

theorem renderBranch_iff_tableCase (m : Manager) (frontText : JsString) (side : Side)
    (hk : m.currentCardText ≠ none → m.currentCardSide ≠ none) (b : Branch) :
    renderBranch m frontText side = b ↔
      tableCase b m.currentCardText m.currentCardSide frontText side := by
  by_cases ht : m.currentCardText = some frontText
  · have hs : m.currentCardSide ≠ none := hk (by rw [ht]; simp)
    rcases hside : m.currentCardSide with _ | ps
    · exact absurd hside hs
    · cases ps <;> cases side <;> cases b <;>
        simp [renderBranch, tableCase, ht, hside]
  · cases b <;> simp [renderBranch, tableCase, ht]

/-- C2: in every state reachable from the initial one (by page changes,
renders, clicks, double clicks, answers of the network, settled promises and
media events), and for every front text and side of a render, the branch the
render takes is the one the transition table gives for the manager's previous
text and side, and exactly one of the four cases of the table applies. -/
theorem renderBranch_table (s : State) (h : Reachable s) (frontText : JsString) (side : Side) :
    (∀ b : Branch, renderBranch (initAudioManager s.manager) frontText side = b ↔
      tableCase b (initAudioManager s.manager).currentCardText
        (initAudioManager s.manager).currentCardSide frontText side) ∧
    (∃! b : Branch, tableCase b (initAudioManager s.manager).currentCardText
        (initAudioManager s.manager).currentCardSide frontText side) := by
  have hk : (initAudioManager s.manager).currentCardText ≠ none →
      (initAudioManager s.manager).currentCardSide ≠ none :=
    SideKnown_init _ (SideKnown_reachable s h) _ rfl
  have hb := renderBranch_iff_tableCase (initAudioManager s.manager) frontText side hk
  refine ⟨hb, renderBranch (initAudioManager s.manager) frontText side, (hb _).1 rfl, ?_⟩
  intro b' hb'
  exact ((hb b').2 hb').symm

/-- C2 in the state reached by rendering card `A` on its back, for a render of
the front of `A`: the branch is the fall-through, and the table gives it. -/
theorem renderBranch_table_witness :
    Reachable (run State.init
      [Event.page (cardPage "A".toList true), Event.render "id1".toList]) ∧
    renderBranch (initAudioManager (run State.init
      [Event.page (cardPage "A".toList true), Event.render "id1".toList]).manager)
      "A".toList Side.front = Branch.fallThrough ∧
    tableCase Branch.fallThrough
      (initAudioManager (run State.init
        [Event.page (cardPage "A".toList true), Event.render "id1".toList]).manager).currentCardText
      (initAudioManager (run State.init
        [Event.page (cardPage "A".toList true), Event.render "id1".toList]).manager).currentCardSide
      "A".toList Side.front :=
  ⟨⟨_, rfl⟩, by decide,
   ((renderBranch_table _ ⟨[Event.page (cardPage "A".toList true), Event.render "id1".toList], rfl⟩
      "A".toList Side.front).1 Branch.fallThrough).1 (by decide)⟩

end ElevenLabs2

/-! ### `tts-elevenlabs.2.js`: the manager after the transition handling -/

namespace ElevenLabs2

/-- C4 fails in the code on a flip to the front.  Card `A` is rendered on its
back and then shown on its front: the manager holds text `"A"` and side back,
the render takes the fall-through branch (text equal, side changed), after its
transition handling the manager's side still is back, not the front side of
the render, and a following render of the same text and side takes the
fall-through branch again, not the early return: it makes a third closure. -/
theorem fallThrough_keeps_side :
    (run State.init [Event.page (cardPage "A".toList true), Event.render "id1".toList,
        Event.page (cardPage "A".toList false)]).manager =
      some { currentAudio := none, currentCardText := some "A".toList,
             currentCardSide := some Side.back, audioCache := [] } ∧
    renderBranch { currentAudio := none, currentCardText := some "A".toList,
                   currentCardSide := some Side.back, audioCache := [] }
      "A".toList Side.front = Branch.fallThrough ∧
    (transitionHandling
      (run State.init [Event.page (cardPage "A".toList true), Event.render "id1".toList,
        Event.page (cardPage "A".toList false)]) "A".toList Side.front).manager =
      some { currentAudio := none, currentCardText := some "A".toList,
             currentCardSide := some Side.back, audioCache := [] } ∧
    (run State.init [Event.page (cardPage "A".toList true), Event.render "id1".toList,
        Event.page (cardPage "A".toList false), Event.render "id2".toList]).manager =
      some { currentAudio := none, currentCardText := some "A".toList,
             currentCardSide := some Side.back, audioCache := [] } ∧
    (run State.init [Event.page (cardPage "A".toList true), Event.render "id1".toList,
        Event.page (cardPage "A".toList false), Event.render "id2".toList,
        Event.render "id3".toList]).renders.length = 3 := by
  decide

/-- The other branch on which the manager does not end up with the text and
side of the render: on a flip to the back `stopAll` clears the text and only
the side is set again, so a following render of the same back side takes the
branch for a new card. -/
theorem flippedToBack_clears_text :
    renderBranch { currentAudio := none, currentCardText := some "A".toList,
                   currentCardSide := some Side.front, audioCache := [] }
      "A".toList Side.back = Branch.flippedToBack ∧
    (run State.init [Event.page (cardPage "A".toList false), Event.render "id1".toList,
        Event.page (cardPage "A".toList true), Event.render "id2".toList]).manager =
      some { currentAudio := none, currentCardText := none,
             currentCardSide := some Side.back, audioCache := [] } ∧
    renderBranch { currentAudio := none, currentCardText := none,
                   currentCardSide := some Side.back, audioCache := [] }
      "A".toList Side.back = Branch.newCard := by
  decide

/-- What the transition handling does to the manager, branch by branch.  The
branch for a new card sets `currentCardText` and `currentCardSide` to the front
text and side of the render, and a following render of the same text and side
takes the early return.  The branch for a flip to the back sets
`currentCardSide` to the side of the render.  The fall-through writes
nothing. -/
theorem transitionHandling_branches (s : State) (m : Manager) (frontText : JsString)
    (side : Side) (hm : s.manager = some m) :
    (renderBranch m frontText side = Branch.newCard →
      ∃ m', (transitionHandling s frontText side).manager = some m' ∧
        m'.currentCardText = some frontText ∧ m'.currentCardSide = some side ∧
        renderBranch m' frontText side = Branch.sameCardSameSide) ∧
    (renderBranch m frontText side = Branch.flippedToBack →
      ∃ m', (transitionHandling s frontText side).manager = some m' ∧
        m'.currentCardSide = some side) ∧
    (renderBranch m frontText side = Branch.fallThrough →
      transitionHandling s frontText side = s) := by
  refine ⟨?_, ?_, ?_⟩
  · intro hb
    have hh : (transitionHandling s frontText side).manager =
        some { currentAudio := none, currentCardText := some frontText,
               currentCardSide := some side, audioCache := m.audioCache } := by
      simp [transitionHandling, hm, initAudioManager, hb, setManager, stopAll]
    refine ⟨_, hh, rfl, rfl, ?_⟩
    cases side <;> simp [renderBranch]
  · intro hb
    simp [transitionHandling, hm, initAudioManager, hb, setManager, stopAll]
  · intro hb
    simp [transitionHandling, hm, initAudioManager, hb]

end ElevenLabs2
/-! ### `tts-elevenlabs.2.js`: a superseded render -/

namespace ElevenLabs2

theorem Keeps.refl (i : Nat) (s : State) : Keeps i s s :=
  ⟨rfl, fun rec h => ⟨rec, h, rfl⟩⟩

theorem Keeps.trans {i : Nat} {s t u : State} (h1 : Keeps i s t) (h2 : Keeps i t u) :
    Keeps i s u := by
  refine ⟨h2.1.trans h1.1, ?_⟩
  intro rec h
  obtain ⟨rec', h', e'⟩ := h1.2 rec h
  obtain ⟨rec'', h'', e''⟩ := h2.2 rec' h'
  exact ⟨rec'', h'', e''.trans e'⟩

/-- A change that touches neither the `cardId` of the container nor the renders. -/
theorem Keeps.of_eq {i : Nat} {s t : State} (h1 : t.cardId = s.cardId)
    (h2 : t.renders = s.renders) : Keeps i s t :=
  ⟨h1, fun rec h => ⟨rec, by rw [h2]; exact h, rfl⟩⟩

theorem Keeps_setRender (i : Nat) (s : State) (r : Nat) (f : Render → Render)
    (hf : ∀ rec, (f rec).cardId = rec.cardId) : Keeps i s (setRender s r f) := by
  refine ⟨rfl, ?_⟩
  intro rec h
  simp only [setRender, modifyAt_getElem?]
  by_cases hri : r = i
  · simp [hri, h, hf]
  · simp [hri, h]

theorem stopAll_cardId (s : State) : (stopAll s).cardId = s.cardId := by
  unfold stopAll
  split <;> rfl

theorem stopAll_renders (s : State) : (stopAll s).renders = s.renders := by
  unfold stopAll
  split <;> rfl

theorem Keeps_stopAll (i : Nat) (s : State) : Keeps i s (stopAll s) :=
  Keeps.of_eq (stopAll_cardId s) (stopAll_renders s)

theorem Keeps_fetchElevenLabsAudio (i : Nat) (s : State) (r : Nat) (text : JsString) :
    Keeps i s (fetchElevenLabsAudio s r text) := by
  unfold fetchElevenLabsAudio
  split
  · exact Keeps_setRender i s r _ (fun _ => rfl)
  · split
    · exact Keeps.of_eq rfl rfl
    · exact Keeps.of_eq rfl rfl

theorem Keeps_playAudio (i : Nat) (s : State) (r : Nat) (rec : Render) :
    Keeps i s (playAudio s r rec) := by
  unfold playAudio
  split
  · exact Keeps.refl i s
  · split
    · exact Keeps.refl i s
    · split
      · split
        · exact Keeps.refl i s
        · exact Keeps.of_eq (stopAll_cardId s) (stopAll_renders s)
      · exact (Keeps_setRender i s r (fun rec => { rec with isLoading := true })
          (fun _ => rfl)).trans (Keeps_fetchElevenLabsAudio _ _ _ _)

theorem Keeps_afterFetch (i : Nat) (s : State) (r : Nat) (rec : Render) :
    Keeps i s (afterFetch s r rec) := by
  unfold afterFetch
  split
  · exact Keeps_setRender i s r _ (fun _ => rfl)
  · have h1 : Keeps i s
        (setRender { s with audios := s.audios ++ [{ paused := true, currentTime := 0 }] } r
          (fun rec => { rec with audio := some s.audios.length, audioLoaded := true,
                                 isLoading := false })) :=
      (Keeps.of_eq (s := s) rfl rfl).trans (Keeps_setRender i _ r _ (fun _ => rfl))
    simp only []
    split
    · exact h1.trans (Keeps_setRender i _ r _ (fun _ => rfl))
    · refine h1.trans (Keeps.of_eq ?_ ?_)
      · exact stopAll_cardId _
      · exact stopAll_renders _

theorem Keeps_afterRequest (i : Nat) (s : State) (r : Nat) (text : JsString) (a : FetchAnswer) :
    Keeps i s (afterRequest s r text a) := by
  unfold afterRequest
  split
  · split
    · exact Keeps_setRender i s r _ (fun _ => rfl)
    · simp only []
      split
      · exact (Keeps.of_eq (s := s) rfl rfl).trans (Keeps_afterFetch i _ r _)
      · exact Keeps.of_eq rfl rfl
  · exact Keeps_setRender i s r _ (fun _ => rfl)

/-- Every event but a render keeps the `cardId` of the container and the
identifier of every render. -/
theorem Keeps_step (i : Nat) (s : State) (e : Event) (hne : ∀ c, e ≠ Event.render c) :
    Keeps i s (step s e) := by
  cases e with
  | page d => exact Keeps.of_eq rfl rfl
  | render cardId => exact absurd rfl (hne cardId)
  | click r =>
    simp only [step]
    split
    · exact Keeps_playAudio i s r _
    · exact Keeps.refl i s
  | dblclick r =>
    simp only [step]
    split
    · unfold onDblclick
      split
      · exact Keeps.refl i s
      · simp only []
        split
        · exact Keeps.of_eq rfl rfl
        · split
          · exact Keeps.of_eq rfl rfl
          · exact Keeps.of_eq rfl rfl
    · exact Keeps.refl i s
  | answer t a =>
    simp only [step]
    split
    · exact (Keeps.of_eq (s := s) rfl rfl).trans (Keeps_afterRequest i _ _ _ _)
    · exact Keeps.refl i s
  | resume t =>
    simp only [step]
    split
    · split
      · exact (Keeps.of_eq (s := s) rfl rfl).trans (Keeps_afterFetch i _ _ _)
      · exact Keeps.refl i s
    · exact Keeps.refl i s
  | settle t ok =>
    simp only [step]
    split
    · split
      · unfold afterPlayExisting
        split
        · exact Keeps.of_eq rfl rfl
        · exact Keeps.of_eq rfl rfl
      · exact Keeps.refl i s
    · split
      · unfold afterPlayNew
        split
        · exact Keeps.of_eq rfl rfl
        · exact (Keeps.of_eq (s := s) rfl rfl).trans (Keeps_setRender i _ _ _ (fun _ => rfl))
      · exact Keeps.refl i s
    · exact Keeps.refl i s
  | play r =>
    simp only [step]
    split
    · split
      · unfold onPlay
        split
        · exact Keeps.of_eq rfl rfl
        · exact Keeps.of_eq rfl rfl
      · exact Keeps.refl i s
    · exact Keeps.refl i s
  | progress a t => exact Keeps.of_eq rfl rfl

theorem transitionHandling_cardId (s : State) (text : JsString) (side : Side) :
    (transitionHandling s text side).cardId = s.cardId := by
  unfold transitionHandling
  split
  · exact stopAll_cardId s
  · exact stopAll_cardId s
  · rfl
  · rfl

theorem transitionHandling_renders (s : State) (text : JsString) (side : Side) :
    (transitionHandling s text side).renders = s.renders := by
  unfold transitionHandling
  split
  · exact stopAll_renders s
  · exact stopAll_renders s
  · rfl
  · rfl

/-- A render leaves the container with the `cardId` it had or with the one the
render minted, and keeps every earlier render. -/
theorem render_keeps (i : Nat) (s : State) (cardId : JsString) :
    ((render s cardId).cardId = s.cardId ∨ (render s cardId).cardId = some cardId) ∧
    ∀ rec, s.renders[i]? = some rec → (render s cardId).renders[i]? = some rec := by
  unfold render
  split
  · exact ⟨Or.inl rfl, fun rec h => h⟩
  · split
    · exact ⟨Or.inl rfl, fun rec h => h⟩
    · simp only []
      split
      · exact ⟨Or.inl rfl, fun rec h => h⟩
      · split
        · exact ⟨Or.inl rfl, fun rec h => h⟩
        · refine ⟨Or.inr rfl, ?_⟩
          intro rec h
          simp only [transitionHandling_renders]
          have hlt : i < s.renders.length := by
            rcases Nat.lt_or_ge i s.renders.length with hlt | hge
            · exact hlt
            · rw [List.getElem?_eq_none hge] at h
              cases h
          rw [List.getElem?_append_left hlt]
          exact h

theorem Superseded_step (i : Nat) (c1 : JsString) (s : State) (e : Event)
    (hne : ∀ c, e = Event.render c → c ≠ c1) (h : Superseded i c1 s) :
    Superseded i c1 (step s e) := by
  obtain ⟨⟨rec, hrec, hid⟩, hcard⟩ := h
  by_cases hr : ∃ c, e = Event.render c
  · obtain ⟨c, rfl⟩ := hr
    have hk := render_keeps i s c
    refine ⟨⟨rec, hk.2 rec hrec, hid⟩, ?_⟩
    rcases hk.1 with h1 | h1
    · simp only [step]
      rw [h1]
      exact hcard
    · simp only [step]
      rw [h1]
      intro heq
      exact hne c rfl (Option.some.inj heq)
  · have hk := Keeps_step i s e (fun c hc => hr ⟨c, hc⟩)
    obtain ⟨rec', hrec', hid'⟩ := hk.2 rec hrec
    refine ⟨⟨rec', hrec', hid'.trans hid⟩, ?_⟩
    rw [hk.1]
    exact hcard

theorem Superseded_run (i : Nat) (c1 : JsString) (es : List Event) :
    ∀ s : State, (∀ c ∈ mintedIds es, c ≠ c1) → Superseded i c1 s →
      Superseded i c1 (run s es) := by
  induction es with
  | nil => intro s _ h; exact h
  | cons e es ih =>
    intro s hm h
    have hstep : Superseded i c1 (step s e) := by
      apply Superseded_step i c1 s e _ h
      intro c hc
      apply hm
      subst hc
      simp [mintedIds]
    apply ih (step s e) _ hstep
    intro c hc
    apply hm
    cases e <;> simp_all [mintedIds]

/-- C7: let render `i` (R1) exist in `s`, and let a later render that mints
another `cardId` reach the assignment of `container.dataset.cardId`.  Then
after every further sequence of events in which no render mints the `cardId`
of R1 again, R1 still exists with its `cardId`, its `isCurrentCard` returns
false, and a call of its `playAudio` leaves the whole state as it is: no field
of the manager changes, no audio starts, no request is sent. -/
theorem superseded_render_is_dead (s : State) (i : Nat) (rec : Render) (cardId : JsString)
    (es : List Event)
    (h1 : s.renders[i]? = some rec)
    (h2 : (step s (Event.render cardId)).cardId = some cardId)
    (h3 : cardId ≠ rec.cardId)
    (h4 : ∀ c ∈ mintedIds es, c ≠ rec.cardId) :
    ∃ rec', (run (step s (Event.render cardId)) es).renders[i]? = some rec' ∧
      rec'.cardId = rec.cardId ∧
      isCurrentCard (run (step s (Event.render cardId)) es) rec' = false ∧
      step (run (step s (Event.render cardId)) es) (Event.click i)
        = run (step s (Event.render cardId)) es := by
  have h0 : Superseded i rec.cardId (step s (Event.render cardId)) := by
    refine ⟨⟨rec, (render_keeps i s cardId).2 rec h1, rfl⟩, ?_⟩
    rw [h2]
    intro heq
    exact h3 (Option.some.inj heq)
  obtain ⟨⟨rec', hrec', hid⟩, hcard⟩ := Superseded_run i rec.cardId es _ h4 h0
  have hcur : isCurrentCard (run (step s (Event.render cardId)) es) rec' = false := by
    unfold isCurrentCard
    rw [hid]
    simp [hcard]
  refine ⟨rec', hrec', hid, hcur, ?_⟩
  generalize run (step s (Event.render cardId)) es = s' at hrec' hcur
  simp only [step, hrec', playAudio, hcur]
  simp

/-- C7 for the render of card `A` (render 0, `cardId` `"id1"`) after the render
of card `B` (`"id2"`): when the page shows `A` again, without a new run of the
script, `isCurrentCard` of render 0 is false and a click on its button does
nothing. -/
theorem superseded_render_is_dead_witness :
    ((run State.init [Event.page (cardPage "A".toList false), Event.render "id1".toList,
        Event.page (cardPage "B".toList false)]).renders[0]? =
        some { currentCardText := "A".toList, currentCardSide := Side.front,
               fullText := "A".toList, cardId := "id1".toList, audio := none,
               audioLoaded := false, isLoading := false } ∧
     (run State.init [Event.page (cardPage "A".toList false), Event.render "id1".toList,
        Event.page (cardPage "B".toList false), Event.render "id2".toList]).cardId
        = some "id2".toList ∧
     "id2".toList ≠ "id1".toList ∧
     mintedIds [Event.page (cardPage "A".toList false)] = []) ∧
    ∃ rec', (run State.init [Event.page (cardPage "A".toList false), Event.render "id1".toList,
        Event.page (cardPage "B".toList false), Event.render "id2".toList,
        Event.page (cardPage "A".toList false)]).renders[0]? = some rec' ∧
      rec'.cardId = "id1".toList ∧
      isCurrentCard (run State.init [Event.page (cardPage "A".toList false),
        Event.render "id1".toList, Event.page (cardPage "B".toList false),
        Event.render "id2".toList, Event.page (cardPage "A".toList false)]) rec' = false ∧
      step (run State.init [Event.page (cardPage "A".toList false), Event.render "id1".toList,
        Event.page (cardPage "B".toList false), Event.render "id2".toList,
        Event.page (cardPage "A".toList false)]) (Event.click 0) =
      run State.init [Event.page (cardPage "A".toList false), Event.render "id1".toList,
        Event.page (cardPage "B".toList false), Event.render "id2".toList,
        Event.page (cardPage "A".toList false)] :=
  ⟨by decide,
   superseded_render_is_dead
    (run State.init [Event.page (cardPage "A".toList false), Event.render "id1".toList,
        Event.page (cardPage "B".toList false)]) 0
    { currentCardText := "A".toList, currentCardSide := Side.front,
      fullText := "A".toList, cardId := "id1".toList, audio := none,
      audioLoaded := false, isLoading := false }
    "id2".toList [Event.page (cardPage "A".toList false)]
    (by decide) (by decide) (by decide) (by decide)⟩

end ElevenLabs2

/-! ### `tts-elevenlabs.2.js`: what a stale `playAudio` still does -/

namespace ElevenLabs2

/-- C8 fails in the code.  After `leftWhilePlayPending` the call of `playAudio`
of render 0 is suspended on `await audio.play()`, the page shows card `B`, and
`isCurrentCard` of render 0 is false.  When the promise is fulfilled, the
continuation does not check `isCurrentCard` and writes the manager:
`currentCardText` was `null` and becomes `"A"`, and `currentAudio` and
`currentCardSide` are assigned the audio and the side of render 0. -/
theorem stale_playAudio_writes_manager :
    (run State.init leftWhilePlayPending).tasks = [Task.playNew 0] ∧
    (run State.init leftWhilePlayPending).dom.frontElement = some "B".toList ∧
    (run State.init leftWhilePlayPending).renders =
      [{ currentCardText := "A".toList, currentCardSide := Side.front,
         fullText := "A".toList, cardId := "id1".toList, audio := some 0,
         audioLoaded := true, isLoading := false }] ∧
    isCurrentCard (run State.init leftWhilePlayPending)
      { currentCardText := "A".toList, currentCardSide := Side.front,
        fullText := "A".toList, cardId := "id1".toList, audio := some 0,
        audioLoaded := true, isLoading := false } = false ∧
    (run State.init leftWhilePlayPending).manager =
      some { currentAudio := some 0, currentCardText := none,
             currentCardSide := some Side.front, audioCache := [("A".toList, 7)] } ∧
    (step (run State.init leftWhilePlayPending) (Event.settle 0 true)).manager =
      some { currentAudio := some 0, currentCardText := some "A".toList,
             currentCardSide := some Side.front, audioCache := [("A".toList, 7)] } := by
  decide

/-- C9, as stated, fails.  After `leftWhileFetching` the request of render 0
for the text `"A"` is in flight, the page shows card `B` and the cache is
empty.  When the request is answered with blob 7, the blob is stored in the
cache under `"A"`. -/
theorem stale_answer_is_cached :
    (run State.init leftWhileFetching).tasks = [Task.fetching 0 "A".toList] ∧
    (run State.init leftWhileFetching).dom.frontElement = some "B".toList ∧
    (run State.init leftWhileFetching).manager =
      some { currentAudio := none, currentCardText := some "B".toList,
             currentCardSide := some Side.front, audioCache := [] } ∧
    (step (run State.init leftWhileFetching)
        (Event.answer 0 (FetchAnswer.response true 7))).manager =
      some { currentAudio := none, currentCardText := some "B".toList,
             currentCardSide := some Side.front, audioCache := [("A".toList, 7)] } := by
  decide

/-- Whether an answer is adopted is decided when it arrives, not when the card
is replaced.  After `returnedWhileFetching` card `A` was replaced by card `B`
while the request of render 0 was in flight, and is shown again; the container
still carries the identifier and the side of render 0, so `isCurrentCard` of
render 0 holds.  The answer is stored in the cache, and it is adopted: audio 0
is made from it and started. -/
theorem returned_card_adopts_answer :
    (run State.init returnedWhileFetching).tasks = [Task.fetching 0 "A".toList] ∧
    (run State.init returnedWhileFetching).audios = [] ∧
    isCurrentCard (run State.init returnedWhileFetching)
      { currentCardText := "A".toList, currentCardSide := Side.front,
        fullText := "A".toList, cardId := "id1".toList, audio := none,
        audioLoaded := false, isLoading := true } = true ∧
    (step (run State.init returnedWhileFetching)
        (Event.answer 0 (FetchAnswer.response true 7))).audios =
      [{ paused := false, currentTime := 0 }] ∧
    (step (run State.init returnedWhileFetching)
        (Event.answer 0 (FetchAnswer.response true 7))).manager =
      some { currentAudio := none, currentCardText := none,
             currentCardSide := none, audioCache := [("A".toList, 7)] } := by
  decide

/-- C9, amended: when the request of a render is answered with a blob, the blob
is stored in the cache under the text of the request, whatever the page shows
by then.  When at that moment `isCurrentCard` of the render is false (the page
shows another front text, or the container carries the identifier of a later
render or another side), nothing else happens but that `isLoading` of the
render is reset: no audio element is made, nothing is played, no request is
sent, and `currentAudio`, `currentCardText` and `currentCardSide` of the
manager stay as they are. -/
theorem stale_answer_cached_not_adopted (s : State) (t r : Nat) (text : JsString)
    (rec : Render) (m : Manager) (blob : Nat)
    (ht : s.tasks[t]? = some (Task.fetching r text))
    (hr : s.renders[r]? = some rec)
    (hm : s.manager = some m) :
    (∃ m', (step s (Event.answer t (FetchAnswer.response true blob))).manager = some m' ∧
      getCachedAudio m' text = some blob) ∧
    (isCurrentCard s rec = false →
      step s (Event.answer t (FetchAnswer.response true blob)) =
        { s with
          tasks := s.tasks.eraseIdx t
          manager := some { m with audioCache := m.audioCache.set text blob }
          renders := modifyAt s.renders r (fun rec => { rec with isLoading := false }) }) := by
  have hcur : isCurrentCard
      { s with tasks := s.tasks.eraseIdx t, manager := some (setCachedAudio m text blob) } rec
      = isCurrentCard s rec := rfl
  refine ⟨?_, ?_⟩
  · cases hc : isCurrentCard s rec with
    | false =>
      rw [hc] at hcur
      refine ⟨{ m with audioCache := m.audioCache.set text blob }, ?_,
        AudioMap.get_set_self _ _ _⟩
      simp only [step, ht, afterRequest, hm, hr, afterFetch, hcur]
      simp [setRender, setCachedAudio]
    | true =>
      rw [hc] at hcur
      refine ⟨{ m with audioCache := m.audioCache.set text blob, currentAudio := none,
                       currentCardText := none, currentCardSide := none }, ?_,
        AudioMap.get_set_self _ _ _⟩
      simp only [step, ht, afterRequest, hm, hr, afterFetch, hcur]
      simp [setRender, setCachedAudio, stopAll]
  · intro hc
    rw [hc] at hcur
    simp only [step, ht, afterRequest, hm, hr, afterFetch, hcur]
    simp [setRender, setCachedAudio]

/-- The amended C9 in the state after `leftWhileFetching`, answered with blob 7:
the page shows card `B`, `isCurrentCard` of render 0 is false, and the step
only erases the task, stores the blob and resets `isLoading`. -/
theorem stale_answer_cached_not_adopted_witness :
    ((run State.init leftWhileFetching).tasks[0]? = some (Task.fetching 0 "A".toList) ∧
     isCurrentCard (run State.init leftWhileFetching)
       { currentCardText := "A".toList, currentCardSide := Side.front,
         fullText := "A".toList, cardId := "id1".toList, audio := none,
         audioLoaded := false, isLoading := true } = false) ∧
    step (run State.init leftWhileFetching) (Event.answer 0 (FetchAnswer.response true 7)) =
      { run State.init leftWhileFetching with
        tasks := (run State.init leftWhileFetching).tasks.eraseIdx 0
        manager := some { currentAudio := none, currentCardText := some "B".toList,
                          currentCardSide := some Side.front,
                          audioCache := AudioMap.set [] "A".toList 7 }
        renders := modifyAt (run State.init leftWhileFetching).renders 0
          (fun rec => { rec with isLoading := false }) } :=
  ⟨by decide,
   (stale_answer_cached_not_adopted (run State.init leftWhileFetching) 0 0 "A".toList
      { currentCardText := "A".toList, currentCardSide := Side.front,
        fullText := "A".toList, cardId := "id1".toList, audio := none,
        audioLoaded := false, isLoading := true }
      { currentAudio := none, currentCardText := some "B".toList,
        currentCardSide := some Side.front, audioCache := [] } 7
      (by decide) (by decide) (by decide)).2 (by decide)⟩

end ElevenLabs2
/-! ### `tts-elevenlabs.2.js`: a second put -/

namespace ElevenLabs2

/-- C11, as stated, fails: after `setCachedAudio("a", 1)` and then
`setCachedAudio("a", 2)` on an empty cache, `getCachedAudio("a")` returns 2,
not 1. -/
theorem second_put_replaces_first :
    getCachedAudio (setCachedAudio (setCachedAudio
      { currentAudio := none, currentCardText := none, currentCardSide := none,
        audioCache := [] } "a".toList 1) "a".toList 2) "a".toList = some 2 ∧
    (some 2 : Option Nat) ≠ some 1 := by
  decide

/-- C11, amended: the cache put is last-writer-wins.  For every manager, key and
payloads `p1` and `p2`, after `setCachedAudio(key, p1)` followed by
`setCachedAudio(key, p2)`, `getCachedAudio(key)` returns `p2`. -/
theorem second_put_overrides (m : Manager) (key : JsString) (p1 p2 : Nat) :
    getCachedAudio (setCachedAudio (setCachedAudio m key p1) key p2) key = some p2 :=
  AudioMap.get_set_self _ key p2

end ElevenLabs2

/-! ### `tts.10.js`: autoplay, play and stop -/

namespace Tts10

/-- The closure a render that is not skipped adds carries the value of
`shouldAutoPlay`. -/
theorem render_shouldAutoPlay (s : State) (frontText : JsString)
    (hc : s.dom.container = true)
    (hf : s.dom.frontElement = some frontText) (ht : truthy frontText = true)
    (hskip : s.contentKey ≠ some (combinedKey
      (generateContentKey frontText (s.dom.exampleElement.getD [])
        (s.dom.definitionElement.getD [])) (detectCardSide s.dom))) :
    ∃ rec, (render s).renders[s.renders.length]? = some rec ∧
      rec.shouldAutoPlay = shouldAutoPlay (initAudioManager s.manager).currentContentKey
        (initAudioManager s.manager).currentCardSide
        (generateContentKey frontText (s.dom.exampleElement.getD [])
          (s.dom.definitionElement.getD []))
        (detectCardSide s.dom) frontText := by
  have hst : (stopAll { s with manager := some (initAudioManager s.manager) }).renders
      = s.renders := by
    unfold stopAll
    rfl
  have hi : ∀ x : Manager, initAudioManager (some x) = x := fun _ => rfl
  unfold render shouldAutoPlay
  simp only [hc, hf, ht, hskip, hi, Bool.not_true, Bool.false_eq_true, if_false, ite_false]
  by_cases h1 : (initAudioManager s.manager).currentContentKey =
      some (generateContentKey frontText (s.dom.exampleElement.getD [])
        (s.dom.definitionElement.getD [])) <;>
    by_cases h2 : (initAudioManager s.manager).currentCardSide = some Side.front <;>
    by_cases h3 : detectCardSide s.dom = Side.back <;>
    by_cases h4 : includes frontText ",\"".toList = true <;>
    simp [h1, h2, h3, h4, hst]

theorem shouldAutoPlay_eq_spec (prevKey : Option JsString) (prevSide : Option Side)
    (key : JsString) (side : Side) (text : JsString) (t : Transition)
    (h : specTransition prevKey prevSide key side = some t) :
    shouldAutoPlay prevKey prevSide key side text = specShouldAutoplay t side text := by
  unfold specTransition at h
  by_cases h1 : prevKey = some key
  · rw [if_neg (not_not.mpr h1)] at h
    rcases prevSide with _ | ps
    · cases side <;> simp at h
    · cases ps <;> cases side <;> simp at h <;> subst h <;>
        simp [shouldAutoPlay, specShouldAutoplay, h1]
  · rw [if_pos h1] at h
    cases h
    cases side <;> simp [shouldAutoPlay, specShouldAutoplay, h1]

/-- C13: the `shouldAutoPlay` of a render that is not skipped is the function
`shouldAutoPlay` of the manager's `currentContentKey` and `currentCardSide`
and of the content key, side and front text of the render, and it equals the
policy table at the transition of the render: new content on the front plays
unless the front text contains `,"`, new content on the back and a flip to
the back play, a flip to the front and an unchanged render do not. -/
theorem shouldAutoPlay_policy (s : State) (frontText key : JsString) (side : Side)
    (t : Transition)
    (hc : s.dom.container = true)
    (hf : s.dom.frontElement = some frontText) (ht : truthy frontText = true)
    (hkey : key = generateContentKey frontText (s.dom.exampleElement.getD [])
      (s.dom.definitionElement.getD []))
    (hside : side = detectCardSide s.dom)
    (hskip : s.contentKey ≠ some (combinedKey key side))
    (htr : specTransition (initAudioManager s.manager).currentContentKey
      (initAudioManager s.manager).currentCardSide key side = some t) :
    ∃ rec, (render s).renders[s.renders.length]? = some rec ∧
      rec.shouldAutoPlay = shouldAutoPlay (initAudioManager s.manager).currentContentKey
        (initAudioManager s.manager).currentCardSide key side frontText ∧
      rec.shouldAutoPlay = specShouldAutoplay t side frontText := by
  subst hkey hside
  obtain ⟨rec, h1, h2⟩ := render_shouldAutoPlay s frontText hc hf ht hskip
  exact ⟨rec, h1, h2, by rw [h2]; exact shouldAutoPlay_eq_spec _ _ _ _ _ _ htr⟩

/-- C13 for the render of the front of a card with front text `a,"b` on a page
the script has not run on: new content on the front with the excluded pattern,
so no autoplay. -/
theorem shouldAutoPlay_policy_witness :
    (specTransition (initAudioManager none).currentContentKey
        (initAudioManager none).currentCardSide "a,\"b".toList Side.front
        = some Transition.newContent ∧
     specShouldAutoplay Transition.newContent Side.front "a,\"b".toList = false) ∧
    ∃ rec, (render (run State.init [Event.page (cardPage "a,\"b".toList false)])).renders[0]?
        = some rec ∧
      rec.shouldAutoPlay = shouldAutoPlay none none "a,\"b".toList Side.front "a,\"b".toList ∧
      rec.shouldAutoPlay = specShouldAutoplay Transition.newContent Side.front "a,\"b".toList :=
  ⟨by decide,
   shouldAutoPlay_policy (run State.init [Event.page (cardPage "a,\"b".toList false)])
    "a,\"b".toList "a,\"b".toList Side.front Transition.newContent
    (by decide) (by decide) (by decide) (by decide) (by decide) (by decide) (by decide)⟩

end Tts10

namespace Tts10

/-- C15: after `playAudio` of a render runs, the audio the manager held, if it
is another element, is paused at position zero; the audio of the render is at
position zero and playing, whatever it did before; the manager's
`currentAudio`, `currentContentKey` and `currentCardSide` are the audio,
content key and side of the render; and the manager's
`currentAbortController` is the one it was.  A click on the play button of the
render, when the button is in the container, runs `playAudio`. -/
theorem playAudio_effect (s : State) (a : Nat) (rec : Render) (m : Manager)
    (hm : s.manager = some m) (hlt : a < s.audios.length) :
    (∀ c, m.currentAudio = some c → c ≠ a → c < s.audios.length →
      (playAudio s rec a).audios[c]? = some { paused := true, currentTime := 0 }) ∧
    (playAudio s rec a).audios[a]? = some { paused := false, currentTime := 0 } ∧
    (playAudio s rec a).manager =
      some { currentAudio := some a
             currentContentKey := some rec.currentContentKey
             currentCardSide := some rec.currentCardSide
             currentAbortController := m.currentAbortController } ∧
    (∀ r, s.renders[r]? = some rec → rec.audio = some a → Child.playBtn r ∈ s.children →
      step s (Event.click r) = playAudio s rec a) := by
  refine ⟨?_, ?_, ?_, ?_⟩
  · intro c hc hne hclt
    simp [playAudio, hm, hc, hne, restart, pauseReset, modifyAt_getElem?,
      List.getElem?_eq_getElem hclt, Ne.symm hne]
  · cases hc : m.currentAudio with
    | none =>
      simp [playAudio, hm, hc, restart, modifyAt_getElem?, List.getElem?_eq_getElem hlt]
    | some c =>
      by_cases hca : c = a
      · simp [playAudio, hm, hc, hca, restart, modifyAt_getElem?,
          List.getElem?_eq_getElem hlt]
      · have hlt2 : a < (pauseReset s.audios c).length := by
          unfold pauseReset
          rw [modifyAt_length]
          exact hlt
        simp [playAudio, hm, hc, hca, restart, modifyAt_getElem?,
          List.getElem?_eq_getElem hlt2]
  · simp [playAudio, hm]
  · intro r hr ha hbtn
    simp [step, hr, ha, hbtn]

/-- C15 in the state after `playedBack`, where audio 0 of render 0 is playing at
position 5 and the play button of render 0 is in the container: a click on
the button runs `playAudio`, which restarts the audio at position zero. -/
theorem playAudio_effect_witness :
    ((run State.init playedBack).audios[0]? = some { paused := false, currentTime := 5 } ∧
     (run State.init playedBack).manager =
        some { currentAudio := some 0, currentContentKey := some "A".toList,
               currentCardSide := some Side.back, currentAbortController := some 0 } ∧
     Child.playBtn 0 ∈ (run State.init playedBack).children) ∧
    (step (run State.init playedBack) (Event.click 0)).audios[0]?
      = some { paused := false, currentTime := 0 } ∧
    (step (run State.init playedBack) (Event.click 0)).manager =
      some { currentAudio := some 0, currentContentKey := some "A".toList,
             currentCardSide := some Side.back, currentAbortController := some 0 } :=
  have h := playAudio_effect (run State.init playedBack) 0
    { frontText := "A".toList, exampleText := [], defText := [],
      currentContentKey := "A".toList, currentCardSide := Side.back,
      combinedKey := "A|back".toList, shouldAutoPlay := true, abortController := 0,
      stage := Stage.ready, audio := some 0, timer := false }
    { currentAudio := some 0, currentContentKey := some "A".toList,
      currentCardSide := some Side.back, currentAbortController := some 0 }
    (by decide) (by decide)
  have hstep := h.2.2.2 0 (by decide) rfl (by decide)
  ⟨by decide, by rw [hstep]; exact h.2.1, by rw [hstep]; exact h.2.2.1⟩

/-- C17: the double-click handler of a render pauses the audio of the render at
position zero; it sets the manager's `currentAudio` to `null` when that was
this audio and leaves it as it was otherwise; the manager's
`currentContentKey`, `currentCardSide` and `currentAbortController` stay.  A
double click on the play button of the render, when the button is in the
container, runs the handler. -/
theorem onDblclick_effect (s : State) (a : Nat) (m : Manager)
    (hm : s.manager = some m) (hlt : a < s.audios.length) :
    (onDblclick s a).audios[a]? = some { paused := true, currentTime := 0 } ∧
    (onDblclick s a).manager =
      some { currentAudio := if m.currentAudio = some a then none else m.currentAudio
             currentContentKey := m.currentContentKey
             currentCardSide := m.currentCardSide
             currentAbortController := m.currentAbortController } ∧
    (∀ r rec, s.renders[r]? = some rec → rec.audio = some a → Child.playBtn r ∈ s.children →
      step s (Event.dblclick r) = onDblclick s a) := by
  refine ⟨?_, ?_, ?_⟩
  · by_cases hc : m.currentAudio = some a
    · simp [onDblclick, hm, hc, pauseReset, modifyAt_getElem?, List.getElem?_eq_getElem hlt]
    · simp [onDblclick, hm, hc, pauseReset, modifyAt_getElem?, List.getElem?_eq_getElem hlt]
  · by_cases hc : m.currentAudio = some a
    · simp [onDblclick, hm, hc]
    · simp [onDblclick, hm, hc]
  · intro r rec hr ha hbtn
    simp [step, hr, ha, hbtn]

/-- C17 in the state after `playedBack`, where audio 0 of render 0 is playing,
is the manager's `currentAudio`, and the play button of render 0 is in the
container. -/
theorem onDblclick_effect_witness :
    ((run State.init playedBack).audios[0]? = some { paused := false, currentTime := 5 } ∧
     (run State.init playedBack).manager =
        some { currentAudio := some 0, currentContentKey := some "A".toList,
               currentCardSide := some Side.back, currentAbortController := some 0 } ∧
     Child.playBtn 0 ∈ (run State.init playedBack).children) ∧
    (step (run State.init playedBack) (Event.dblclick 0)).audios[0]?
      = some { paused := true, currentTime := 0 } ∧
    (step (run State.init playedBack) (Event.dblclick 0)).manager =
      some { currentAudio := none, currentContentKey := some "A".toList,
             currentCardSide := some Side.back, currentAbortController := some 0 } :=
  have h := onDblclick_effect (run State.init playedBack) 0
    { currentAudio := some 0, currentContentKey := some "A".toList,
      currentCardSide := some Side.back, currentAbortController := some 0 }
    (by decide) (by decide)
  have hstep := h.2.2 0
    { frontText := "A".toList, exampleText := [], defText := [],
      currentContentKey := "A".toList, currentCardSide := Side.back,
      combinedKey := "A|back".toList, shouldAutoPlay := true, abortController := 0,
      stage := Stage.ready, audio := some 0, timer := false }
    (by decide) rfl (by decide)
  ⟨by decide, by rw [hstep]; exact h.1, by rw [hstep]; exact h.2.1⟩

/-- C18: a render on a page whose front element is absent or has an empty
trimmed text sends no request, creates no controller and no closure (so
derives no content key), leaves `container.dataset.contentKey`, the children of
the container and the audio elements as they are, and changes no field of a
manager that exists. -/
theorem render_without_front (s : State)
    (h : s.dom.frontElement = none ∨
      ∃ frontText, s.dom.frontElement = some frontText ∧ truthy frontText = false) :
    (render s).fetches = s.fetches ∧
    (render s).controllers = s.controllers ∧
    (render s).renders = s.renders ∧
    (render s).contentKey = s.contentKey ∧
    (render s).children = s.children ∧
    (render s).audios = s.audios ∧
    ∀ m, s.manager = some m → render s = s := by
  have hr : render s = s ∨
      render s = { s with manager := some (initAudioManager s.manager) } := by
    unfold render
    by_cases hc : s.dom.container = true
    · right
      rcases h with h | ⟨f, hf, ht⟩
      · simp [hc, h]
      · simp [hc, hf, ht]
    · left
      simp [hc]
  refine ⟨?_, ?_, ?_, ?_, ?_, ?_, ?_⟩
  · rcases hr with hr | hr <;> rw [hr]
  · rcases hr with hr | hr <;> rw [hr]
  · rcases hr with hr | hr <;> rw [hr]
  · rcases hr with hr | hr <;> rw [hr]
  · rcases hr with hr | hr <;> rw [hr]
  · rcases hr with hr | hr <;> rw [hr]
  · intro m hm
    rcases hr with hr | hr
    · exact hr
    · rw [hr]
      cases s
      simp_all [initAudioManager]

/-- C18 in the state after `playedBack` when the page shows a card whose front
element is empty. -/
theorem render_without_front_witness :
    ((run State.init (playedBack ++ [Event.page (cardPage [] false)])).dom.frontElement
        = some [] ∧ truthy [] = false) ∧
    render (run State.init (playedBack ++ [Event.page (cardPage [] false)]))
      = run State.init (playedBack ++ [Event.page (cardPage [] false)]) :=
  ⟨by decide,
   (render_without_front (run State.init (playedBack ++ [Event.page (cardPage [] false)]))
      (Or.inr ⟨[], by decide, by decide⟩)).2.2.2.2.2.2
      { currentAudio := some 0, currentContentKey := some "A".toList,
        currentCardSide := some Side.back, currentAbortController := some 0 }
      (by decide)⟩

end Tts10

/-! ### `tts.10.js`: errors in the pipeline -/

namespace Tts10

/-- Whatever the error, the `catch` block leaves the manager, the audio
elements, the controllers, the mark of the container and the requests alone. -/
theorem catchHandler_frame (s : State) (r : Nat) (e : JsError) :
    (catchHandler s r e).manager = s.manager ∧
    (catchHandler s r e).audios = s.audios ∧
    (catchHandler s r e).controllers = s.controllers ∧
    (catchHandler s r e).contentKey = s.contentKey ∧
    (catchHandler s r e).fetches = s.fetches := by
  cases e <;> simp [catchHandler, setRender, removeLoading]

/-- Every error raised in the pipeline of a render reaches the `catch` block of
that render, at whichever stage: an error of `checkApiKey`, of `fetchWavBlob`,
of `decodeWavBlob`, of `audioBufferToMp3`, or of a `checkAborted` after any of
them makes the step equal to the `catch` block run on that error.
`checkAborted` throws nothing but an `AbortError`.  On an `AbortError` the
`catch` block removes the loading placeholder, inserts no element into the
container, and changes no field of the manager; on another error whose `name`
can be read it removes the placeholder and inserts the error element. -/
theorem errors_reach_catchHandler (s : State) (r : Nat) (rec : Render)
    (hr : s.renders[r]? = some rec) :
    (rec.stage = Stage.checkingKey → ∀ a : KeyAnswer,
      (∀ e, checkApiKey a = Except.error e →
        step s (Event.keyAnswer r a) = catchHandler s r e) ∧
      (∀ status e, checkApiKey a = Except.ok status → checkAborted s rec = Except.error e →
        step s (Event.keyAnswer r a) = catchHandler s r e)) ∧
    (rec.stage = Stage.fetchingWav → ∀ a : WavAnswer,
      (∀ e, fetchWavBlob a = Except.error e →
        step s (Event.wavAnswer r a) = catchHandler s r e) ∧
      (∀ e, fetchWavBlob a = Except.ok () → checkAborted s rec = Except.error e →
        step s (Event.wavAnswer r a) = catchHandler s r e)) ∧
    (rec.stage = Stage.decoding → ∀ encoded : Bool,
      step s (Event.decodeAnswer r false encoded) = catchHandler s r JsError.other ∧
      step s (Event.decodeNullish r false) = catchHandler s r JsError.nullish ∧
      (∀ e, checkAborted s rec = Except.error e →
        step s (Event.decodeAnswer r true encoded) = catchHandler s r e ∧
        step s (Event.decodeNullish r true) = catchHandler s r e) ∧
      (checkAborted s rec = Except.ok () →
        step s (Event.decodeAnswer r true false) = catchHandler s r JsError.other ∧
        step s (Event.decodeNullish r true) = catchHandler s r JsError.nullish)) ∧
    (∀ e, checkAborted s rec = Except.error e → e = JsError.abortError) ∧
    (catchHandler s r JsError.abortError).manager = s.manager ∧
    (catchHandler s r JsError.abortError).audios = s.audios ∧
    (catchHandler s r JsError.abortError).children =
      s.children.filter (fun el => el ≠ Child.loading r) ∧
    Child.loading r ∉ (catchHandler s r JsError.abortError).children ∧
    (∀ el, el ∈ (catchHandler s r JsError.abortError).children → el ∈ s.children) ∧
    (catchHandler s r JsError.other).children =
      Child.errorDiv r :: s.children.filter (fun el => el ≠ Child.loading r) := by
  refine ⟨?_, ?_, ?_, ?_, ?_, ?_, ?_, ?_, ?_, ?_⟩
  · intro hst a
    refine ⟨?_, ?_⟩
    · intro e he
      simp [step, hr, hst, afterCheckApiKey, he]
    · intro status e he hab
      simp [step, hr, hst, afterCheckApiKey, he, hab]
  · intro hst a
    refine ⟨?_, ?_⟩
    · intro e he
      simp [step, hr, hst, afterFetchWavBlob, he]
    · intro e he hab
      simp [step, hr, hst, afterFetchWavBlob, he, hab]
  · intro hst encoded
    refine ⟨?_, ?_, ?_, ?_⟩
    · simp [step, hr, hst, afterDecodeWavBlob]
    · simp [step, hr, hst, afterDecodeNullish]
    · intro e hab
      refine ⟨?_, ?_⟩
      · simp [step, hr, hst, afterDecodeWavBlob, hab]
      · simp [step, hr, hst, afterDecodeNullish, hab]
    · intro hab
      refine ⟨?_, ?_⟩
      · simp [step, hr, hst, afterDecodeWavBlob, hab]
      · simp [step, hr, hst, afterDecodeNullish, hab]
  · intro e he
    unfold checkAborted at he
    split at he
    · cases he; rfl
    · split at he
      · cases he; rfl
      · cases he
  · exact (catchHandler_frame s r JsError.abortError).1
  · exact (catchHandler_frame s r JsError.abortError).2.1
  · simp [catchHandler, setRender, removeLoading]
  · simp [catchHandler, setRender, removeLoading]
  · intro el hel
    simp only [catchHandler, setRender, removeLoading, List.mem_filter] at hel
    exact hel.1
  · simp [catchHandler, setRender, removeLoading]

/-- C19 fails in the code when the value thrown is `null` or `undefined`.  After
`decodingA` the pipeline of render 0 waits for `decodeWavBlob`, the render is
live and the container holds its loading placeholder.  When `decodeWavBlob`
rejects with `null`, the `catch` block throws at its first statement, the
read of `err.name`: the error leaves the run (stage `escaped`), the loading
placeholder stays in the container, and nothing else changes.  When
`decodeWavBlob` rejects with an error that has a name, the placeholder is
replaced by the error element. -/
theorem null_rejection_escapes :
    (run State.init decodingA).renders =
      [{ frontText := "A".toList, exampleText := [], defText := [],
         currentContentKey := "A".toList, currentCardSide := Side.back,
         combinedKey := "A|back".toList, shouldAutoPlay := true, abortController := 0,
         stage := Stage.decoding, audio := none, timer := false }] ∧
    (run State.init decodingA).children = [Child.loading 0] ∧
    step (run State.init decodingA) (Event.decodeNullish 0 false) =
      catchHandler (run State.init decodingA) 0 JsError.nullish ∧
    step (run State.init decodingA) (Event.decodeNullish 0 false) =
      { run State.init decodingA with
        renders :=
          [{ frontText := "A".toList, exampleText := [], defText := [],
             currentContentKey := "A".toList, currentCardSide := Side.back,
             combinedKey := "A|back".toList, shouldAutoPlay := true, abortController := 0,
             stage := Stage.escaped, audio := none, timer := false }] } ∧
    (step (run State.init decodingA) (Event.decodeNullish 0 false)).children =
      [Child.loading 0] ∧
    (step (run State.init decodingA) (Event.decodeAnswer 0 false true)).children =
      [Child.errorDiv 0] := by
  decide

end Tts10
/-! ### `tts.10.js`: a render that is no longer live -/

namespace Tts10

theorem SameTokens_refl (s : State) : SameTokens s s :=
  ⟨rfl, rfl, fun _ rec h => ⟨rec, h, rfl, rfl⟩⟩

theorem SameTokens_trans {s t u : State} (h1 : SameTokens s t) (h2 : SameTokens t u) :
    SameTokens s u := by
  refine ⟨h2.1.trans h1.1, h2.2.1.trans h1.2.1, ?_⟩
  intro r rec h
  obtain ⟨rec', h', e1, e2⟩ := h1.2.2 r rec h
  obtain ⟨rec'', h'', e3, e4⟩ := h2.2.2 r rec' h'
  exact ⟨rec'', h'', e3.trans e1, e4.trans e2⟩

theorem SameTokens_setRender (s : State) (r : Nat) (f : Render → Render)
    (hf : ∀ rec, (f rec).combinedKey = rec.combinedKey ∧
      (f rec).abortController = rec.abortController) :
    SameTokens s (setRender s r f) := by
  refine ⟨rfl, rfl, ?_⟩
  intro i rec h
  simp only [setRender, modifyAt_getElem?]
  by_cases hri : r = i
  · simp [hri, h, hf]
  · simp [hri, h]

/-- Whether `checkAborted` throws depends only on the signals, the mark of the
container, and the controller and combined key of the render. -/
theorem checkAborted_congr (s t : State) (rec rec' : Render)
    (h1 : t.controllers = s.controllers) (h2 : t.contentKey = s.contentKey)
    (h3 : rec'.combinedKey = rec.combinedKey)
    (h4 : rec'.abortController = rec.abortController) :
    checkAborted t rec' = checkAborted s rec := by
  simp [checkAborted, signalAborted, h1, h2, h3, h4]

/-- When the tokens stay and every play button of `t` is one of `s` or the
button of a live render, the buttons of `t` are live. -/
theorem ButtonsLive_of_sameTokens {s t : State} (hs : ButtonsLive s) (hk : SameTokens s t)
    (hsub : ∀ r, Child.playBtn r ∈ t.children → Child.playBtn r ∈ s.children ∨
      ∃ rec, s.renders[r]? = some rec ∧ checkAborted s rec = Except.ok ()) :
    ButtonsLive t := by
  intro r hr
  have hlive : ∃ rec, s.renders[r]? = some rec ∧ checkAborted s rec = Except.ok () := by
    rcases hsub r hr with h | h
    · exact hs r h
    · exact h
  obtain ⟨rec, hrec, hok⟩ := hlive
  obtain ⟨rec', hrec', e1, e2⟩ := hk.2.2 r rec hrec
  exact ⟨rec', hrec', by rw [checkAborted_congr s t rec rec' hk.1 hk.2.1 e1 e2]; exact hok⟩

theorem ButtonsLive_catchHandler (s : State) (r : Nat) (e : JsError) (hs : ButtonsLive s) :
    ButtonsLive (catchHandler s r e) := by
  cases e with
  | abortError =>
    refine ButtonsLive_of_sameTokens hs
      (SameTokens_trans (t := removeLoading s r) ⟨rfl, rfl, fun _ rec h => ⟨rec, h, rfl, rfl⟩⟩
        (SameTokens_setRender _ r _ (fun _ => ⟨rfl, rfl⟩))) ?_
    intro i hi
    left
    simp only [catchHandler, setRender, removeLoading, List.mem_filter] at hi
    exact hi.1
  | other =>
    refine ButtonsLive_of_sameTokens hs
      (SameTokens_trans
        (t := { removeLoading s r with
                children := Child.errorDiv r :: (removeLoading s r).children })
        ⟨rfl, rfl, fun _ rec h => ⟨rec, h, rfl, rfl⟩⟩
        (SameTokens_setRender _ r _ (fun _ => ⟨rfl, rfl⟩))) ?_
    intro i hi
    left
    simp only [catchHandler, setRender, removeLoading, List.mem_cons, List.mem_filter] at hi
    rcases hi with hi | hi
    · cases hi
    · exact hi.1
  | nullish =>
    exact ButtonsLive_of_sameTokens hs (SameTokens_setRender s r _ (fun _ => ⟨rfl, rfl⟩))
      (fun _ h => Or.inl h)

/-- A change of fields other than the signals, the mark, the children and the
renders keeps the buttons live. -/
theorem ButtonsLive_of_eq {s t : State} (hs : ButtonsLive s)
    (h1 : t.controllers = s.controllers) (h2 : t.contentKey = s.contentKey)
    (h3 : t.renders = s.renders) (h4 : t.children = s.children) : ButtonsLive t := by
  refine ButtonsLive_of_sameTokens hs ⟨h1, h2, fun _ rec h => ⟨rec, by rw [h3]; exact h, rfl, rfl⟩⟩ ?_
  intro r hr
  left
  rw [h4] at hr
  exact hr

theorem ButtonsLive_setRender (s : State) (r : Nat) (f : Render → Render)
    (hf : ∀ rec, (f rec).combinedKey = rec.combinedKey ∧
      (f rec).abortController = rec.abortController)
    (hs : ButtonsLive s) : ButtonsLive (setRender s r f) :=
  ButtonsLive_of_sameTokens hs (SameTokens_setRender s r f hf) (fun _ h => Or.inl h)

theorem ButtonsLive_afterCheckApiKey (s : State) (r : Nat) (rec : Render) (a : KeyAnswer)
    (hs : ButtonsLive s) : ButtonsLive (afterCheckApiKey s r rec a) := by
  unfold afterCheckApiKey
  split
  · exact ButtonsLive_catchHandler s r _ hs
  · split
    · exact ButtonsLive_catchHandler s r _ hs
    · split
      · refine ButtonsLive_of_sameTokens hs
          (SameTokens_trans
            (t := { removeLoading s r with
                    children := Child.errorBtn r _ :: (removeLoading s r).children })
            ⟨rfl, rfl, fun _ rec h => ⟨rec, h, rfl, rfl⟩⟩
            (SameTokens_setRender _ r _ (fun _ => ⟨rfl, rfl⟩))) ?_
        intro i hi
        left
        simp only [setRender, removeLoading, List.mem_cons, List.mem_filter] at hi
        rcases hi with hi | hi
        · cases hi
        · exact hi.1
      · exact ButtonsLive_setRender _ r _ (fun _ => ⟨rfl, rfl⟩)
          (ButtonsLive_of_eq hs rfl rfl rfl rfl)

theorem ButtonsLive_afterFetchWavBlob (s : State) (r : Nat) (rec : Render) (a : WavAnswer)
    (hs : ButtonsLive s) : ButtonsLive (afterFetchWavBlob s r rec a) := by
  unfold afterFetchWavBlob
  split
  · exact ButtonsLive_catchHandler s r _ hs
  · split
    · exact ButtonsLive_catchHandler s r _ hs
    · exact ButtonsLive_setRender _ r _ (fun _ => ⟨rfl, rfl⟩) hs

theorem ButtonsLive_afterDecodeWavBlob (s : State) (r : Nat) (rec : Render)
    (decoded encoded : Bool) (hr : s.renders[r]? = some rec)
    (hs : ButtonsLive s) : ButtonsLive (afterDecodeWavBlob s r rec decoded encoded) := by
  unfold afterDecodeWavBlob
  split
  · exact ButtonsLive_catchHandler s r _ hs
  · split
    · exact ButtonsLive_catchHandler s r _ hs
    · rename_i hok
      split
      · exact ButtonsLive_catchHandler s r _ hs
      · split
        · exact ButtonsLive_catchHandler s r _ hs
        · refine ButtonsLive_of_sameTokens hs
            (SameTokens_trans
              (t := { removeLoading s r with
                      audios := (removeLoading s r).audios ++
                        [{ paused := true, currentTime := 0 }]
                      children := Child.playBtn r ::
                        ((removeLoading s r).children ++
                          [Child.audio (removeLoading s r).audios.length]) })
              ⟨rfl, rfl, fun _ rec h => ⟨rec, h, rfl, rfl⟩⟩
              (SameTokens_setRender _ r _ (fun _ => ⟨rfl, rfl⟩))) ?_
          intro i hi
          simp only [setRender, removeLoading, List.mem_cons, List.mem_append,
            List.mem_filter, List.mem_singleton, Child.playBtn.injEq] at hi
          rcases hi with hi | hi | hi | hi
          · right
            subst hi
            exact ⟨rec, hr, hok⟩
          · left
            exact hi.1
          · cases hi
          · cases hi

theorem ButtonsLive_afterDecodeNullish (s : State) (r : Nat) (rec : Render)
    (decoded : Bool) (hs : ButtonsLive s) : ButtonsLive (afterDecodeNullish s r rec decoded) := by
  unfold afterDecodeNullish
  split
  · exact ButtonsLive_catchHandler s r _ hs
  · split
    · exact ButtonsLive_catchHandler s r _ hs
    · exact ButtonsLive_catchHandler s r _ hs

theorem ButtonsLive_playAudio (s : State) (rec : Render) (a : Nat) (hs : ButtonsLive s) :
    ButtonsLive (playAudio s rec a) := by
  unfold playAudio
  split
  · exact hs
  · exact ButtonsLive_of_eq hs rfl rfl rfl rfl

theorem ButtonsLive_render (s : State) (hs : ButtonsLive s) : ButtonsLive (render s) := by
  unfold render
  split
  · exact hs
  · simp only []
    split
    · exact ButtonsLive_of_eq hs rfl rfl rfl rfl
    · split
      · exact ButtonsLive_of_eq hs rfl rfl rfl rfl
      · split
        · exact ButtonsLive_of_eq hs rfl rfl rfl rfl
        · intro r hr
          simp only [List.mem_cons, List.mem_filter] at hr
          rcases hr with hr | hr
          · cases hr
          · simp [Child.isTts] at hr

/-- Every step keeps the play buttons in the container live. -/
theorem ButtonsLive_step (s : State) (e : Event) (hs : ButtonsLive s) :
    ButtonsLive (step s e) := by
  cases e with
  | page d => exact ButtonsLive_of_eq hs rfl rfl rfl rfl
  | render => exact ButtonsLive_render s hs
  | keyAnswer r a =>
    simp only [step]
    split
    · split
      · exact ButtonsLive_afterCheckApiKey s r _ a hs
      · exact hs
    · exact hs
  | wavAnswer r a =>
    simp only [step]
    split
    · split
      · exact ButtonsLive_afterFetchWavBlob s r _ a hs
      · exact hs
    · exact hs
  | decodeAnswer r decoded encoded =>
    simp only [step]
    split
    · rename_i rec hrec
      split
      · exact ButtonsLive_afterDecodeWavBlob s r rec decoded encoded hrec hs
      · exact hs
    · exact hs
  | decodeNullish r decoded =>
    simp only [step]
    split
    · split
      · exact ButtonsLive_afterDecodeNullish s r _ decoded hs
      · exact hs
    · exact hs
  | timer r =>
    simp only [step]
    split
    · split
      · split
        · unfold onTimer
          split
          · exact ButtonsLive_playAudio _ _ _
              (ButtonsLive_setRender s r _ (fun _ => ⟨rfl, rfl⟩) hs)
          · exact ButtonsLive_setRender s r _ (fun _ => ⟨rfl, rfl⟩) hs
        · exact hs
      · exact hs
    · exact hs
  | click r =>
    simp only [step]
    split
    · split
      · split
        · exact ButtonsLive_playAudio _ _ _ hs
        · exact hs
      · exact hs
    · exact hs
  | dblclick r =>
    simp only [step]
    split
    · split
      · split
        · unfold onDblclick
          simp only []
          split
          · exact ButtonsLive_of_eq hs rfl rfl rfl rfl
          · split
            · exact ButtonsLive_of_eq hs rfl rfl rfl rfl
            · exact ButtonsLive_of_eq hs rfl rfl rfl rfl
        · exact hs
      · exact hs
    · exact hs
  | play r =>
    simp only [step]
    split
    · split
      · unfold onPlay
        split
        · exact hs
        · exact ButtonsLive_of_eq hs rfl rfl rfl rfl
      · exact hs
    · exact hs
  | progress a t => exact ButtonsLive_of_eq hs rfl rfl rfl rfl

theorem ButtonsLive_run (es : List Event) :
    ∀ s : State, ButtonsLive s → ButtonsLive (run s es) := by
  induction es with
  | nil => intro s h; exact h
  | cons e es ih =>
    intro s h
    exact ih (step s e) (ButtonsLive_step s e h)

theorem ButtonsLive_reachable (s : State) (h : Reachable s) : ButtonsLive s := by
  obtain ⟨es, rfl⟩ := h
  apply ButtonsLive_run
  intro r hr
  simp [State.init] at hr

theorem checkAborted_of_stale (s : State) (rec : Render)
    (hstale : signalAborted s rec.abortController = true ∨
      s.contentKey ≠ some rec.combinedKey) :
    checkAborted s rec = Except.error JsError.abortError := by
  unfold checkAborted
  rcases hstale with h | h
  · simp [h]
  · by_cases h2 : signalAborted s rec.abortController = true
    · simp [h2]
    · simp [h2, h]

/-- C16: a render that is no longer live is not played.  For every state in
which the signal of a render is aborted or `container.dataset.contentKey`
differs from its combined key, the callback of the autoplay timer of the
render does not call `playAudio`: it changes nothing, and the timer step
changes no audio element and no field of the manager.  In every such state
that the page can reach, the play button of the render is not among the
children of the container, and a click on it changes nothing.  The timer and
the click listener of the button are the two places from which the script
calls `playAudio`. -/
theorem stale_render_is_not_played (s : State) (r a : Nat) (rec : Render)
    (hr : s.renders[r]? = some rec)
    (hstale : signalAborted s rec.abortController = true ∨
      s.contentKey ≠ some rec.combinedKey) :
    onTimer s rec a = s ∧
    (step s (Event.timer r)).manager = s.manager ∧
    (step s (Event.timer r)).audios = s.audios ∧
    (Reachable s → Child.playBtn r ∉ s.children ∧ step s (Event.click r) = s) := by
  have hcond : ∀ (t : State) (b : Nat), t.controllers = s.controllers →
      t.contentKey = s.contentKey → onTimer t rec b = t := by
    intro t b h1 h2
    unfold onTimer
    rcases hstale with h | h
    · have : signalAborted t rec.abortController = true := by
        simpa [signalAborted, h1] using h
      simp [this]
    · have : ¬ t.contentKey = some rec.combinedKey := by rw [h2]; exact h
      simp [this]
  refine ⟨hcond s a rfl rfl, ?_, ?_, ?_⟩
  · simp only [step, hr]
    split
    · split
      · rw [hcond (setRender s r _) _ rfl rfl]
        rfl
      · rfl
    · rfl
  · simp only [step, hr]
    split
    · split
      · rw [hcond (setRender s r _) _ rfl rfl]
        rfl
      · rfl
    · rfl
  · intro hreach
    have hnot : Child.playBtn r ∉ s.children := by
      intro hmem
      obtain ⟨rec', hrec', hok⟩ := ButtonsLive_reachable s hreach r hmem
      rw [hr] at hrec'
      cases hrec'
      rw [checkAborted_of_stale s rec hstale] at hok
      cases hok
    exact ⟨hnot, by simp [step, hnot]⟩

/-- C16 for render 0 after `supersededByB`: its signal is aborted, the state is
reached by the events of `supersededByB`, and neither the timer nor a click on
the play button of render 0 changes the manager or starts the audio. -/
theorem stale_render_is_not_played_witness :
    ((run State.init supersededByB).renders[0]? =
        some { frontText := "A".toList, exampleText := [], defText := [],
               currentContentKey := "A".toList, currentCardSide := Side.back,
               combinedKey := "A|back".toList, shouldAutoPlay := true, abortController := 0,
               stage := Stage.ready, audio := some 0, timer := false } ∧
     signalAborted (run State.init supersededByB) 0 = true ∧
     Reachable (run State.init supersededByB)) ∧
    (step (run State.init supersededByB) (Event.timer 0)).manager
      = (run State.init supersededByB).manager ∧
    (step (run State.init supersededByB) (Event.timer 0)).audios
      = (run State.init supersededByB).audios ∧
    Child.playBtn 0 ∉ (run State.init supersededByB).children ∧
    step (run State.init supersededByB) (Event.click 0) = run State.init supersededByB :=
  have h := stale_render_is_not_played (run State.init supersededByB) 0 0
    { frontText := "A".toList, exampleText := [], defText := [],
      currentContentKey := "A".toList, currentCardSide := Side.back,
      combinedKey := "A|back".toList, shouldAutoPlay := true, abortController := 0,
      stage := Stage.ready, audio := some 0, timer := false }
    (by decide) (Or.inl (by decide))
  ⟨⟨by decide, by decide, ⟨supersededByB, rfl⟩⟩, h.2.1, h.2.2.1,
   h.2.2.2 ⟨supersededByB, rfl⟩⟩

end Tts10
/-! ### `tts.10.js`: the frames given to the encoder -/

namespace Tts10

theorem floatTo16BitPCM_length (float32Array : List ℚ) :
    (floatTo16BitPCM float32Array).length = float32Array.length := by
  simp [floatTo16BitPCM]

/-- The chunk the loop cuts at index `1152 * j` is the frame `j`. -/
theorem chunk_eq_frame (data : List Int) (j : Nat) (h : 1152 * j < data.length) :
    subarray data (1152 * j) (1152 * j + min samplesPerFrame (data.length - 1152 * j))
      = frame data j := by
  unfold frame samplesPerFrame
  congr 1
  omega

/-- From index `1152 * j` on, with enough iterations left, the loop for one
channel calls the encoder on the frames `j`, `j + 1`, ... up to the last. -/
theorem monoLoop_calls {σ : Type} (enc : Mp3Encoder σ) (data : List Int) :
    ∀ (fuel j : Nat) (st : σ) (out : Mp3Output),
      frameCount data.length - j ≤ fuel →
      (monoLoop enc data fuel (1152 * j) st out).2.calls =
        out.calls ++ (List.range' j (frameCount data.length - j)).map
          (fun k => (frame data k, none)) := by
  intro fuel
  induction fuel with
  | zero =>
    intro j st out h
    have h0 : frameCount data.length - j = 0 := by omega
    simp [monoLoop, h0]
  | succ fuel ih =>
    intro j st out h
    unfold monoLoop
    by_cases hlt : 1152 * j < data.length
    · have hj : j < frameCount data.length := by
        unfold frameCount
        omega
      have hsplit : frameCount data.length - j = (frameCount data.length - (j + 1)) + 1 := by
        omega
      rw [if_pos hlt]
      simp only []
      have hidx : 1152 * j + samplesPerFrame = 1152 * (j + 1) := by
        unfold samplesPerFrame
        omega
      rw [hidx, ih (j + 1) _ _ (by omega), chunk_eq_frame data j hlt, hsplit,
        List.range'_succ]
      simp
    · have h0 : frameCount data.length - j = 0 := by
        unfold frameCount
        omega
      rw [if_neg hlt]
      simp [h0]

/-- The same for the loop for two channels of equal length. -/
theorem stereoLoop_calls {σ : Type} (enc : Mp3Encoder σ) (left right : List Int)
    (hlen : left.length = right.length) :
    ∀ (fuel j : Nat) (st : σ) (out : Mp3Output),
      frameCount left.length - j ≤ fuel →
      (stereoLoop enc left right fuel (1152 * j) st out).2.calls =
        out.calls ++ (List.range' j (frameCount left.length - j)).map
          (fun k => (frame left k, some (frame right k))) := by
  intro fuel
  induction fuel with
  | zero =>
    intro j st out h
    have h0 : frameCount left.length - j = 0 := by omega
    simp [stereoLoop, h0]
  | succ fuel ih =>
    intro j st out h
    unfold stereoLoop
    by_cases hlt : 1152 * j < left.length
    · have hj : j < frameCount left.length := by
        unfold frameCount
        omega
      have hsplit : frameCount left.length - j = (frameCount left.length - (j + 1)) + 1 := by
        omega
      rw [if_pos hlt]
      simp only []
      have hidx : 1152 * j + samplesPerFrame = 1152 * (j + 1) := by
        unfold samplesPerFrame
        omega
      rw [hidx, ih (j + 1) _ _ (by omega), chunk_eq_frame left j hlt,
        chunk_eq_frame right j (by rw [← hlen]; exact hlt), hsplit, List.range'_succ]
      simp
    · have h0 : frameCount left.length - j = 0 := by
        unfold frameCount
        omega
      rw [if_neg hlt]
      simp [h0]

theorem frameCount_le (n : Nat) : frameCount n ≤ n := by
  unfold frameCount
  omega

/-- One more iteration than needed changes nothing: the loop for one channel
has ended by itself, on its condition. -/
theorem monoLoop_spare {σ : Type} (enc : Mp3Encoder σ) (data : List Int) :
    ∀ (fuel j : Nat) (st : σ) (out : Mp3Output),
      frameCount data.length - j ≤ fuel →
      monoLoop enc data (fuel + 1) (1152 * j) st out = monoLoop enc data fuel (1152 * j) st out := by
  intro fuel
  induction fuel with
  | zero =>
    intro j st out h
    have hge : ¬ 1152 * j < data.length := by
      unfold frameCount at h
      omega
    simp [monoLoop, hge]
  | succ fuel ih =>
    intro j st out h
    by_cases hlt : 1152 * j < data.length
    · have hidx : 1152 * j + samplesPerFrame = 1152 * (j + 1) := by
        unfold samplesPerFrame
        omega
      conv_lhs => unfold monoLoop
      conv_rhs => unfold monoLoop
      simp only [if_pos hlt]
      rw [hidx]
      exact ih (j + 1) _ _ (by omega)
    · conv_lhs => unfold monoLoop
      conv_rhs => unfold monoLoop
      simp only [if_neg hlt]

/-- The same for the loop for two channels. -/
theorem stereoLoop_spare {σ : Type} (enc : Mp3Encoder σ) (left right : List Int) :
    ∀ (fuel j : Nat) (st : σ) (out : Mp3Output),
      frameCount left.length - j ≤ fuel →
      stereoLoop enc left right (fuel + 1) (1152 * j) st out
        = stereoLoop enc left right fuel (1152 * j) st out := by
  intro fuel
  induction fuel with
  | zero =>
    intro j st out h
    have hge : ¬ 1152 * j < left.length := by
      unfold frameCount at h
      omega
    simp [stereoLoop, hge]
  | succ fuel ih =>
    intro j st out h
    by_cases hlt : 1152 * j < left.length
    · have hidx : 1152 * j + samplesPerFrame = 1152 * (j + 1) := by
        unfold samplesPerFrame
        omega
      conv_lhs => unfold stereoLoop
      conv_rhs => unfold stereoLoop
      simp only [if_pos hlt]
      rw [hidx]
      exact ih (j + 1) _ _ (by omega)
    · conv_lhs => unfold stereoLoop
      conv_rhs => unfold stereoLoop
      simp only [if_neg hlt]

/-- The length of a frame. -/
theorem frame_length (data : List Int) (k : Nat) :
    (frame data k).length = min (1152 * (k + 1)) data.length - 1152 * k := by
  unfold frame subarray
  rw [List.length_take, List.length_drop]
  omega

/-- The samples of a frame. -/
theorem frame_getElem? (data : List Int) (k j : Nat) (h : j < (frame data k).length) :
    (frame data k)[j]? = data[1152 * k + j]? := by
  rw [frame_length] at h
  unfold frame subarray
  rw [List.getElem?_take_of_lt (by omega), List.getElem?_drop]

/-- The frames from `j` on, put together, are the samples from `1152 * j` on. -/
theorem frames_join (data : List Int) :
    ∀ (d j : Nat), frameCount data.length - j = d →
      ((List.range' j d).map (frame data)).flatten = data.drop (1152 * j) := by
  intro d
  induction d with
  | zero =>
    intro j h
    have hge : data.length ≤ 1152 * j := by
      unfold frameCount at h
      omega
    simp [List.drop_eq_nil_of_le hge]
  | succ d ih =>
    intro j h
    rw [List.range'_succ, List.map_cons, List.flatten_cons, ih (j + 1) (by omega)]
    unfold frame subarray
    by_cases hle : 1152 * (j + 1) ≤ data.length
    · rw [Nat.min_eq_left hle]
      have hd : data.drop (1152 * (j + 1)) =
          (data.drop (1152 * j)).drop (1152 * (j + 1) - 1152 * j) := by
        rw [List.drop_drop]
        congr 1
        omega
      rw [hd, List.take_append_drop]
    · have hmin : min (1152 * (j + 1)) data.length = data.length := by omega
      rw [hmin, List.drop_eq_nil_of_le (by omega : data.length ≤ 1152 * (j + 1)),
        List.append_nil]
      apply List.take_of_length_le
      rw [List.length_drop]

/-- C20: `audioBufferToMp3` returns, and it calls `encodeBuffer` once for each
of the `frameCount n` frames of the converted channel, in order, where `n` is
the number of samples: for a buffer with one channel on the frame alone, for a
buffer with more channels, of which the first two have `n` samples, on the
frame of the left and the frame of the right channel.  `frameCount n` is
`n / 1152` rounded up.  The frame `k` holds the samples at the indices from
`1152 * k` up to, and without, `min (1152 * (k + 1)) n`; it is not empty and has
at most 1152 samples, exactly 1152 when it is not the last; and the frames put
together in call order are the converted channel.  The loops end on their
own condition: one more iteration allowed gives the same result. -/
theorem audioBufferToMp3_frames {σ : Type} (enc : Mp3Encoder σ) (audioBuffer : AudioBuffer) :
    (∀ channel, audioBuffer.channels = [channel] →
      ∃ out, audioBufferToMp3 enc audioBuffer = some out ∧
        out.calls = (List.range (frameCount channel.length)).map
          (fun k => (frame (floatTo16BitPCM channel) k, none))) ∧
    (∀ channel0 channel1 others, audioBuffer.channels = channel0 :: channel1 :: others →
      channel0.length = channel1.length →
      ∃ out, audioBufferToMp3 enc audioBuffer = some out ∧
        out.calls = (List.range (frameCount channel0.length)).map
          (fun k => (frame (floatTo16BitPCM channel0) k,
            some (frame (floatTo16BitPCM channel1) k)))) ∧
    (∀ (left right : List Int) (st : σ) (out : Mp3Output),
      monoLoop enc left (left.length + 1) 0 st out = monoLoop enc left left.length 0 st out ∧
      stereoLoop enc left right (left.length + 1) 0 st out
        = stereoLoop enc left right left.length 0 st out) ∧
    (∀ channel, (floatTo16BitPCM channel).length = channel.length) ∧
    (∀ n : Nat, n ≤ 1152 * frameCount n ∧ 1152 * frameCount n < n + 1152) ∧
    (∀ data : List Int,
      (∀ k, k < frameCount data.length →
        (frame data k).length = min (1152 * (k + 1)) data.length - 1152 * k ∧
        0 < (frame data k).length ∧
        (frame data k).length ≤ 1152 ∧
        (k + 1 < frameCount data.length → (frame data k).length = 1152) ∧
        ∀ j, j < (frame data k).length → (frame data k)[j]? = data[1152 * k + j]?) ∧
      ((List.range (frameCount data.length)).map (frame data)).flatten = data) := by
  refine ⟨?_, ?_, ?_, floatTo16BitPCM_length, ?_, ?_⟩
  rotate_left 2
  · intro left right st out
    have h1 := monoLoop_spare enc left left.length 0 st out
      (by have := frameCount_le left.length; omega)
    have h2 := stereoLoop_spare enc left right left.length 0 st out
      (by have := frameCount_le left.length; omega)
    rw [Nat.mul_zero] at h1 h2
    exact ⟨h1, h2⟩
  rotate_right 2
  · intro channel hch
    have hcalls := monoLoop_calls enc (floatTo16BitPCM channel)
      (floatTo16BitPCM channel).length 0
      (enc.create 1 audioBuffer.sampleRate 128) { calls := [], mp3Data := [] }
      (by have := frameCount_le (floatTo16BitPCM channel).length; omega)
    have hout : audioBufferToMp3 enc audioBuffer =
        some (finishMp3 enc (monoLoop enc (floatTo16BitPCM channel)
          (floatTo16BitPCM channel).length 0 (enc.create 1 audioBuffer.sampleRate 128)
          { calls := [], mp3Data := [] })) := by
      simp [audioBufferToMp3, AudioBuffer.numberOfChannels, AudioBuffer.getChannelData, hch]
    refine ⟨_, hout, ?_⟩
    · simp only [finishMp3]
      rw [Nat.mul_zero] at hcalls
      rw [hcalls, floatTo16BitPCM_length, List.range_eq_range']
      simp
  · intro channel0 channel1 others hch hlen
    have hlen2 : (floatTo16BitPCM channel0).length = (floatTo16BitPCM channel1).length := by
      rw [floatTo16BitPCM_length, floatTo16BitPCM_length]
      exact hlen
    have hcalls := stereoLoop_calls enc (floatTo16BitPCM channel0) (floatTo16BitPCM channel1)
      hlen2 (floatTo16BitPCM channel0).length 0
      (enc.create (others.length + 2) audioBuffer.sampleRate 128) { calls := [], mp3Data := [] }
      (by have := frameCount_le (floatTo16BitPCM channel0).length; omega)
    have hout : audioBufferToMp3 enc audioBuffer =
        some (finishMp3 enc (stereoLoop enc (floatTo16BitPCM channel0)
          (floatTo16BitPCM channel1) (floatTo16BitPCM channel0).length 0
          (enc.create (others.length + 2) audioBuffer.sampleRate 128)
          { calls := [], mp3Data := [] })) := by
      simp [audioBufferToMp3, AudioBuffer.numberOfChannels, AudioBuffer.getChannelData, hch]
    refine ⟨_, hout, ?_⟩
    · simp only [finishMp3]
      rw [Nat.mul_zero] at hcalls
      rw [hcalls, floatTo16BitPCM_length, List.range_eq_range']
      simp
  · intro n
    unfold frameCount
    omega
  · intro data
    refine ⟨?_, ?_⟩
    · intro k hk
      have hl := frame_length data k
      unfold frameCount at hk
      refine ⟨hl, by omega, by omega, ?_, fun j hj => frame_getElem? data k j hj⟩
      intro hk2
      unfold frameCount at hk2
      omega
    · have h := frames_join data (frameCount data.length) 0 (by omega)
      rw [List.range_eq_range']
      simpa using h

/-- C20 for a buffer with two channels of three samples each: one call, on the
one frame of each channel. -/
theorem audioBufferToMp3_frames_witness :
    ([1, -1, 0] : List ℚ).length = ([0, 0, 1] : List ℚ).length ∧
    ∃ out, audioBufferToMp3 echoEncoder
        { sampleRate := 44100, channels := [[1, -1, 0], [0, 0, 1]] } = some out ∧
      out.calls = (List.range (frameCount 3)).map
        (fun k => (frame (floatTo16BitPCM [1, -1, 0]) k,
          some (frame (floatTo16BitPCM [0, 0, 1]) k))) :=
  ⟨rfl,
   (audioBufferToMp3_frames echoEncoder
      { sampleRate := 44100, channels := [[1, -1, 0], [0, 0, 1]] }).2.1
      [1, -1, 0] [0, 0, 1] [] rfl rfl⟩

end Tts10

/-! ### `tts-elevenlabs.js`: autoplay on the back side -/

namespace ElevenLabs

/-- C14, as stated, fails on the first render: with the manager `initAudioManager`
makes (no text, no side), a render of the back of card `A` has the transition
`newContent`, and its `shouldAutoPlay` is false.  The same holds for new
content when the previous side is the back. -/
theorem shouldAutoPlay_newContent_back_false :
    Tts10.specTransition (initAudioManager none).currentCardText
      (initAudioManager none).currentCardSide "A".toList Side.back
      = some Tts10.Transition.newContent ∧
    shouldAutoPlay (initAudioManager none) "A".toList Side.back = false ∧
    Tts10.specTransition (some "B".toList) (some Side.back) "A".toList Side.back
      = some Tts10.Transition.newContent ∧
    shouldAutoPlay { currentAudio := none, currentCardText := some "B".toList,
                     currentCardSide := some Side.back } "A".toList Side.back = false := by
  decide

/-- C14, amended: for every render on the back side, `shouldAutoPlay` is true
exactly when the side the manager held before the render is the front.  So
it is true on a flip to the back, and on new content it is true when the
previous side is the front and false when it is the back or `null`. -/
theorem shouldAutoPlay_back (m : Manager) (frontText : JsString) :
    (shouldAutoPlay m frontText Side.back = true ↔ m.currentCardSide = some Side.front) ∧
    (Tts10.specTransition m.currentCardText m.currentCardSide frontText Side.back
        = some Tts10.Transition.flippedToBack →
      shouldAutoPlay m frontText Side.back = true) := by
  have h1 : shouldAutoPlay m frontText Side.back = true ↔ m.currentCardSide = some Side.front := by
    simp [shouldAutoPlay, isCardFlippedToBack]
  refine ⟨h1, ?_⟩
  intro h
  rw [h1]
  unfold Tts10.specTransition at h
  by_cases hk : m.currentCardText = some frontText
  · rw [if_neg (not_not.mpr hk)] at h
    by_cases hs : m.currentCardSide = some Side.front
    · exact hs
    · simp [hs] at h
  · rw [if_pos hk] at h
    cases h

/-- The amended C14 for a flip of card `A` from the front to the back. -/
theorem shouldAutoPlay_back_witness :
    Tts10.specTransition (some "A".toList) (some Side.front) "A".toList Side.back
      = some Tts10.Transition.flippedToBack ∧
    shouldAutoPlay { currentAudio := none, currentCardText := some "A".toList,
                     currentCardSide := some Side.front } "A".toList Side.back = true :=
  ⟨by decide,
   (shouldAutoPlay_back { currentAudio := none, currentCardText := some "A".toList,
                          currentCardSide := some Side.front } "A".toList).2 (by decide)⟩

end ElevenLabs

/-! ### `tts-elevenlabs.5.js`: requests and the cache -/

namespace ElevenLabs5

theorem SameCache_refl (s : State) : SameCache s s :=
  ⟨rfl, fun m h => ⟨m, h, rfl⟩⟩

theorem SameCache_trans {s t u : State} (h1 : SameCache s t) (h2 : SameCache t u) :
    SameCache s u := by
  refine ⟨h2.1.trans h1.1, ?_⟩
  intro m hm
  obtain ⟨m', hm', e1⟩ := h1.2 m hm
  obtain ⟨m'', hm'', e2⟩ := h2.2 m' hm'
  exact ⟨m'', hm'', e2.trans e1⟩

/-- A change of fields other than the manager and the requests. -/
theorem SameCache_of_eq {s t : State} (h1 : t.requests = s.requests)
    (h2 : t.manager = s.manager) : SameCache s t :=
  ⟨h1, fun m h => ⟨m, by rw [h2]; exact h, rfl⟩⟩

theorem Quiet_of_sameCache {text : JsString} {s t : State} (h : SameCache s t)
    (hc : Cached text s) : Quiet text s t := by
  obtain ⟨m, audioUrl, hm, hget⟩ := hc
  obtain ⟨m', hm', e⟩ := h.2 m hm
  exact ⟨⟨m', audioUrl, hm', by rw [e]; exact hget⟩, by rw [h.1]⟩

theorem Quiet_trans {text : JsString} {s t u : State} (h1 : Quiet text s t)
    (h2 : Quiet text t u) : Quiet text s u :=
  ⟨h2.1, h2.2.trans h1.2⟩

theorem SameCache_stopAll (s : State) : SameCache s (stopAll s) := by
  unfold stopAll
  split
  · exact SameCache_refl s
  · rename_i m hm
    refine ⟨rfl, ?_⟩
    intro m0 hm0
    rw [hm] at hm0
    cases hm0
    exact ⟨_, rfl, rfl⟩

theorem SameCache_catchBlock (s : State) (r : Nat) : SameCache s (catchBlock s r) :=
  SameCache_of_eq rfl rfl

theorem SameCache_playAudio (s : State) (rec : Render) (a : Nat) :
    SameCache s (playAudio s rec a) := by
  unfold playAudio
  split
  · exact SameCache_refl s
  · split
    · exact SameCache_refl s
    · refine SameCache_trans (SameCache_stopAll s) ⟨rfl, ?_⟩
      intro m hm
      exact ⟨{ m with currentAudio := some a, currentCardText := some rec.currentCardText },
        by simp [hm], rfl⟩

theorem SameCache_afterFetchAudio (s : State) (r : Nat) (rec : Render) :
    SameCache s (afterFetchAudio s r rec) := by
  unfold afterFetchAudio
  split
  · exact SameCache_of_eq rfl rfl
  · simp only []
    split
    · exact SameCache_trans (SameCache_of_eq (s := s) rfl rfl) (SameCache_playAudio _ _ _)
    · exact SameCache_of_eq rfl rfl

/-- The function `fetchAudio` sends no request for a text the cache holds. -/
theorem Quiet_fetchAudio (text : JsString) (s : State) (r : Nat) (text' : JsString)
    (hc : Cached text s) : Quiet text s (fetchAudio s r text') := by
  unfold fetchAudio
  split
  · exact Quiet_of_sameCache (SameCache_catchBlock s r) hc
  · rename_i m hm
    split
    · exact Quiet_of_sameCache (SameCache_of_eq rfl rfl) hc
    · rename_i hmiss
      obtain ⟨m0, audioUrl, hm0, hget⟩ := hc
      rw [hm] at hm0
      cases hm0
      have hne : text' ≠ text := by
        intro heq
        rw [heq, hget] at hmiss
        cases hmiss
      refine ⟨⟨m, audioUrl, hm, hget⟩, ?_⟩
      simp [List.count_append, List.count_cons, hne]

theorem Quiet_afterRequest (text : JsString) (s : State) (r : Nat) (text' : JsString)
    (a : FetchAnswer) (hc : Cached text s) : Quiet text s (afterRequest s r text' a) := by
  unfold afterRequest
  split
  · split
    · exact Quiet_of_sameCache (SameCache_catchBlock s r) hc
    · rename_i audioUrl' _ m hm
      obtain ⟨m0, audioUrl, hm0, hget⟩ := hc
      rw [hm] at hm0
      cases hm0
      have hc2 : Cached text
          { s with manager := some { m with audioCache := m.audioCache.set text' audioUrl' } } := by
        by_cases heq : text = text'
        · subst heq
          exact ⟨_, audioUrl', rfl, ElevenLabs2.AudioMap.get_set_self _ _ _⟩
        · exact ⟨_, audioUrl, rfl, by
            rw [ElevenLabs2.AudioMap.get_set_other _ _ _ _ heq]
            exact hget⟩
      have hq : Quiet text s
          { s with manager := some { m with audioCache := m.audioCache.set text' audioUrl' } } :=
        ⟨hc2, rfl⟩
      simp only []
      split
      · exact Quiet_trans hq (Quiet_of_sameCache (SameCache_afterFetchAudio _ _ _) hc2)
      · exact hq
  · exact Quiet_of_sameCache (SameCache_catchBlock s r) hc

theorem SameCache_enterCard (s : State) (text : JsString) :
    SameCache s (enterCard s text) := by
  have h0 : SameCache s { s with manager := some (initAudioManager s.manager) } := by
    refine ⟨rfl, ?_⟩
    intro m hm
    exact ⟨m, by simp [hm, initAudioManager], rfl⟩
  unfold enterCard
  simp only []
  split
  · refine SameCache_trans h0 (SameCache_trans (SameCache_stopAll _) ⟨rfl, ?_⟩)
    intro m hm
    exact ⟨{ m with currentCardText := some text }, by simp [hm], rfl⟩
  · exact h0

theorem Quiet_render (text : JsString) (s : State) (cardId : JsString)
    (hc : Cached text s) : Quiet text s (render s cardId) := by
  have hrefl : Quiet text s s := Quiet_of_sameCache (SameCache_refl s) hc
  unfold render
  split
  · exact hrefl
  · split
    · exact hrefl
    · simp only []
      split
      · exact hrefl
      · rename_i frontText _ _
        have h1 : Quiet text s (enterCard s frontText) :=
          Quiet_of_sameCache (SameCache_enterCard s frontText) hc
        have h2 : SameCache (enterCard s frontText)
            { enterCard s frontText with
              cardId := some cardId
              children := Child.loading (enterCard s frontText).renders.length false ::
                (enterCard s frontText).children
              renders := (enterCard s frontText).renders ++ [{
                currentCardText := frontText
                fullText := frontText ++
                  (if truthy (s.dom.exampleElement.getD []) then
                    " \n ".toList ++ s.dom.exampleElement.getD [] else [])
                cardId := cardId
                isNewCard := decide ((initAudioManager s.manager).currentCardText
                  ≠ some frontText)
                audio := none }] } :=
          SameCache_of_eq rfl rfl
        have h3 := Quiet_of_sameCache h2 h1.1
        exact Quiet_trans (Quiet_trans h1 h3) (Quiet_fetchAudio text _ _ _ h3.1)

/-- Once the cache holds an entry for `text`, every step keeps the entry and
sends no request for `text`. -/
theorem Quiet_step (text : JsString) (s : State) (e : Event) (hc : Cached text s) :
    Quiet text s (step s e) := by
  have hrefl : Quiet text s s := Quiet_of_sameCache (SameCache_refl s) hc
  cases e with
  | page d => exact Quiet_of_sameCache (SameCache_of_eq rfl rfl) hc
  | render cardId => exact Quiet_render text s cardId hc
  | answer t a =>
    simp only [step]
    split
    · have h1 : Quiet text s { s with tasks := s.tasks.eraseIdx t } :=
        Quiet_of_sameCache (SameCache_of_eq rfl rfl) hc
      exact Quiet_trans h1 (Quiet_afterRequest text _ _ _ a h1.1)
    · exact hrefl
  | resume t =>
    simp only [step]
    split
    · split
      · exact Quiet_of_sameCache
          (SameCache_trans (SameCache_of_eq (s := s) rfl rfl) (SameCache_afterFetchAudio _ _ _)) hc
      · exact hrefl
    · exact hrefl
  | click r =>
    simp only [step]
    split
    · split
      · exact Quiet_of_sameCache (SameCache_playAudio _ _ _) hc
      · exact hrefl
    · exact hrefl
  | dblclick r =>
    simp only [step]
    split
    · split
      · refine Quiet_of_sameCache ?_ hc
        unfold onDblclick
        simp only []
        split
        · exact SameCache_of_eq rfl rfl
        · rename_i m hm
          split
          · refine ⟨rfl, ?_⟩
            intro m0 hm0
            exact ⟨_, rfl, by
              rw [hm] at hm0
              cases hm0
              rfl⟩
          · exact SameCache_of_eq rfl rfl
      · exact hrefl
    · exact hrefl
  | play r =>
    simp only [step]
    split
    · split
      · rename_i a _
        refine Quiet_of_sameCache ?_ hc
        unfold onPlay
        split
        · exact SameCache_of_eq rfl rfl
        · refine ⟨rfl, ?_⟩
          intro m hm
          exact ⟨{ m with currentAudio := some a }, by simp [hm], rfl⟩
      · exact hrefl
    · exact hrefl
  | playing r =>
    simp only [step]
    split
    · split
      · refine Quiet_of_sameCache ?_ hc
        unfold onPlaying
        split
        · exact SameCache_of_eq rfl rfl
        · exact SameCache_refl s
      · exact hrefl
    · exact hrefl
  | progress a t => exact Quiet_of_sameCache (SameCache_of_eq rfl rfl) hc

theorem Quiet_run (text : JsString) (es : List Event) :
    ∀ s : State, Cached text s → Quiet text s (run s es) := by
  induction es with
  | nil => intro s hc; exact Quiet_of_sameCache (SameCache_refl s) hc
  | cons e es ih =>
    intro s hc
    have h1 := Quiet_step text s e hc
    exact Quiet_trans h1 (ih (step s e) h1.1)

/-- C12, as stated, fails.  Card `A` is rendered twice, the second time while
the request of the first render is still in flight: the cache is still empty,
the `fetchAudio` of the second render sends a request too, and two requests
for the text `"A"` are in flight. -/
theorem second_render_requests_again :
    (run State.init [Event.page (cardPage "A".toList), Event.render "id1".toList]).requests
      = ["A".toList] ∧
    (run State.init [Event.page (cardPage "A".toList), Event.render "id1".toList,
        Event.render "id2".toList]).requests = ["A".toList, "A".toList] ∧
    (run State.init [Event.page (cardPage "A".toList), Event.render "id1".toList,
        Event.render "id2".toList]).tasks =
      [Task.fetching 0 "A".toList, Task.fetching 1 "A".toList] ∧
    (run State.init [Event.page (cardPage "A".toList), Event.render "id1".toList,
        Event.render "id2".toList]).renders.map (fun rec => rec.fullText)
      = ["A".toList, "A".toList] := by
  decide

/-- C12, amended: when the cache holds an entry for a text, a call of
`fetchAudio` for that text returns the cached URL and sends no request, and
after every further sequence of events the cache still holds an entry for the
text and no request for it has been sent; when the cache holds no entry for a
text, a call of `fetchAudio` for it sends a request, also while an earlier
request for the same text is in flight. -/
theorem cached_text_is_not_requested (s : State) (text : JsString) (m : Manager)
    (hm : s.manager = some m) :
    (∀ audioUrl, m.audioCache.get text = some audioUrl →
      (∀ r, fetchAudio s r text = { s with tasks := s.tasks ++ [Task.cached r audioUrl] }) ∧
      ∀ es : List Event, Cached text (run s es) ∧
        (run s es).requests.count text = s.requests.count text) ∧
    (m.audioCache.get text = none →
      ∀ r, fetchAudio s r text =
        { s with requests := s.requests ++ [text]
                 tasks := s.tasks ++ [Task.fetching r text] }) := by
  refine ⟨?_, ?_⟩
  · intro audioUrl hget
    refine ⟨?_, ?_⟩
    · intro r
      simp [fetchAudio, hm, hget]
    · intro es
      exact Quiet_run text es s ⟨m, audioUrl, hm, hget⟩
  · intro hget r
    simp [fetchAudio, hm, hget]

/-- The amended C12 after card `A` was rendered and its request answered with
URL 7: two more renders of `A` send no request. -/
theorem cached_text_is_not_requested_witness :
    ((run State.init [Event.page (cardPage "A".toList), Event.render "id1".toList,
        Event.answer 0 (FetchAnswer.response true 7)]).manager =
        some { currentAudio := some 0, currentCardText := some "A".toList,
               audioCache := [("A".toList, 7)] } ∧
     ElevenLabs2.AudioMap.get [("A".toList, 7)] "A".toList = some 7) ∧
    (run (run State.init [Event.page (cardPage "A".toList), Event.render "id1".toList,
        Event.answer 0 (FetchAnswer.response true 7)])
      [Event.render "id2".toList, Event.render "id3".toList]).requests.count "A".toList =
    (run State.init [Event.page (cardPage "A".toList), Event.render "id1".toList,
        Event.answer 0 (FetchAnswer.response true 7)]).requests.count "A".toList :=
  ⟨by decide,
   (((cached_text_is_not_requested
      (run State.init [Event.page (cardPage "A".toList), Event.render "id1".toList,
        Event.answer 0 (FetchAnswer.response true 7)]) "A".toList
      { currentAudio := some 0, currentCardText := some "A".toList,
        audioCache := [("A".toList, 7)] } (by decide)).1 7 (by decide)).2
      [Event.render "id2".toList, Event.render "id3".toList]).2⟩

end ElevenLabs5

/-! ### `tts.10.js`: the conversion of the samples -/

namespace Tts10

/-- An integer of 16 bits is left as it is by the reduction modulo `2^16`. -/
theorem wrap_of_range (t : Int) (h1 : -32768 ≤ t) (h2 : t ≤ 32767) :
    (if t % 65536 ≥ 32768 then t % 65536 - 65536 else t % 65536) = t := by
  split <;> omega

theorem toInt16_of_neg (x : ℚ) (hx : x < 0) (hlo : -32768 ≤ x) : toInt16 x = ⌈x⌉ := by
  have hc : -Rat.floor (-x) = ⌈x⌉ := by
    have h := Int.floor_neg (a := x)
    have hf : Rat.floor (-x) = ⌊-x⌋ := rfl
    rw [hf, h]
    simp
  have h1 : -32768 ≤ ⌈x⌉ := by
    have h := Int.le_ceil x
    have h2 : ((-32768 : Int) : ℚ) ≤ ((⌈x⌉ : Int) : ℚ) := by
      push_cast
      linarith
    exact_mod_cast h2
  have h2 : ⌈x⌉ ≤ 32767 := by
    have h : ⌈x⌉ ≤ 0 := Int.ceil_le.mpr (by exact_mod_cast le_of_lt hx)
    omega
  unfold toInt16
  simp only [hx, if_true, hc]
  exact wrap_of_range _ h1 h2

theorem toInt16_of_nonneg (x : ℚ) (hx : 0 ≤ x) (hhi : x ≤ 32767) : toInt16 x = ⌊x⌋ := by
  have hf : Rat.floor x = ⌊x⌋ := rfl
  have h1 : -32768 ≤ ⌊x⌋ := by
    have h : 0 ≤ ⌊x⌋ := Int.floor_nonneg.mpr hx
    omega
  have h2 : ⌊x⌋ ≤ 32767 := by
    have h := Int.floor_le x
    have h3 : ((⌊x⌋ : Int) : ℚ) ≤ ((32767 : Int) : ℚ) := by
      push_cast
      linarith
    exact_mod_cast h3
  unfold toInt16
  simp only [not_lt.mpr hx, if_false, hf]
  exact wrap_of_range _ h1 h2

/-- The clamped sample lies between `-1` and `1`. -/
theorem clamp_range (x : ℚ) : -1 ≤ max (-1) (min 1 x) ∧ max (-1) (min 1 x) ≤ 1 :=
  ⟨le_max_left _ _, max_le (by norm_num) (min_le_left _ _)⟩

/-- Every sample of `floatTo16BitPCM` is the sample the claim gives: the
`Int16Array` does not wrap. -/
theorem sample_eq_specSample (x : ℚ) :
    toInt16 (if max (-1) (min 1 x) < 0 then max (-1) (min 1 x) * 0x8000
      else max (-1) (min 1 x) * 0x7fff) = specSample x := by
  obtain ⟨hlo, hhi⟩ := clamp_range x
  unfold specSample
  simp only []
  by_cases hc : max (-1) (min 1 x) < 0
  · rw [if_pos hc, if_pos hc]
    have h8 : ((0x8000 : ℚ)) = 32768 := by norm_num
    rw [h8]
    exact toInt16_of_neg _ (by linarith) (by linarith)
  · rw [if_neg hc, if_neg hc]
    have h7 : ((0x7fff : ℚ)) = 32767 := by norm_num
    rw [h7]
    have h0 : 0 ≤ max (-1) (min 1 x) := not_lt.mp hc
    exact toInt16_of_nonneg _ (by positivity) (by linarith)

theorem specSample_range (x : ℚ) : -32768 ≤ specSample x ∧ specSample x ≤ 32767 := by
  obtain ⟨hlo, hhi⟩ := clamp_range x
  unfold specSample
  simp only []
  split
  · rename_i hc
    constructor
    · have h := Int.le_ceil (max (-1) (min 1 x) * 32768)
      have h2 : ((-32768 : Int) : ℚ) ≤ ((⌈max (-1) (min 1 x) * 32768⌉ : Int) : ℚ) := by
        push_cast
        linarith
      exact_mod_cast h2
    · have h : ⌈max (-1) (min 1 x) * 32768⌉ ≤ 0 :=
        Int.ceil_le.mpr (by push_cast; linarith)
      omega
  · rename_i hc
    have h0 : 0 ≤ max (-1) (min 1 x) := not_lt.mp hc
    constructor
    · have h : 0 ≤ ⌊max (-1) (min 1 x) * 32767⌋ := Int.floor_nonneg.mpr (by positivity)
      omega
    · have h := Int.floor_le (max (-1) (min 1 x) * 32767)
      have h3 : ((⌊max (-1) (min 1 x) * 32767⌋ : Int) : ℚ) ≤ ((32767 : Int) : ℚ) := by
        push_cast
        linarith
      exact_mod_cast h3

theorem specSample_mono (x y : ℚ) (h : x ≤ y) : specSample x ≤ specSample y := by
  have hc : max (-1) (min 1 x) ≤ max (-1) (min 1 y) :=
    max_le_max (le_refl _) (min_le_min (le_refl _) h)
  unfold specSample
  simp only []
  by_cases hx : max (-1) (min 1 x) < 0
  · by_cases hy : max (-1) (min 1 y) < 0
    · rw [if_pos hx, if_pos hy]
      exact Int.ceil_mono (by linarith)
    · rw [if_pos hx, if_neg hy]
      have h0 : 0 ≤ max (-1) (min 1 y) := not_lt.mp hy
      have h1 : ⌈max (-1) (min 1 x) * 32768⌉ ≤ 0 :=
        Int.ceil_le.mpr (by push_cast; linarith)
      have h2 : 0 ≤ ⌊max (-1) (min 1 y) * 32767⌋ := Int.floor_nonneg.mpr (by positivity)
      omega
  · have h0 : 0 ≤ max (-1) (min 1 x) := not_lt.mp hx
    have hy : ¬ max (-1) (min 1 y) < 0 := not_lt.mpr (le_trans h0 hc)
    rw [if_neg hx, if_neg hy]
    exact Int.floor_mono (by linarith)

/-- C21: `floatTo16BitPCM` keeps the length of its input, and each output
sample is the one the claim gives for the input sample (`specSample`: the
clamped sample times 32768, rounded toward zero, when it is negative, and
times 32767, rounded toward zero, otherwise), so the `Int16Array` never wraps.
Every output sample lies between `-32768` and `32767`; `-1` gives `-32768`, `0`
gives `0`, `1` gives `32767`; and a sample that is not smaller gives an output
that is not smaller. -/
theorem floatTo16BitPCM_spec :
    (∀ float32Array : List ℚ,
      (floatTo16BitPCM float32Array).length = float32Array.length ∧
      floatTo16BitPCM float32Array = float32Array.map specSample) ∧
    (∀ x : ℚ, -32768 ≤ specSample x ∧ specSample x ≤ 32767) ∧
    floatTo16BitPCM [-1, 0, 1] = [-32768, 0, 32767] ∧
    (∀ x y : ℚ, x ≤ y → specSample x ≤ specSample y) := by
  have hmap : ∀ float32Array : List ℚ,
      floatTo16BitPCM float32Array = float32Array.map specSample := by
    intro float32Array
    unfold floatTo16BitPCM
    apply List.map_congr_left
    intro x _
    exact sample_eq_specSample x
  refine ⟨fun l => ⟨floatTo16BitPCM_length l, hmap l⟩, specSample_range, ?_, specSample_mono⟩
  rw [hmap]
  simp only [List.map_cons, List.map_nil, specSample]
  norm_num
  have hc : (-32768 : ℚ) = ((-32768 : Int) : ℚ) := by norm_num
  rw [hc, Int.ceil_intCast]

/-- C21 at the samples `1/2` and `3/4`. -/
theorem floatTo16BitPCM_spec_witness :
    (1 / 2 : ℚ) ≤ 3 / 4 ∧
    specSample (1 / 2) ≤ specSample (3 / 4) ∧
    floatTo16BitPCM [1 / 2, 3 / 4] = [specSample (1 / 2), specSample (3 / 4)] :=
  ⟨by norm_num,
   floatTo16BitPCM_spec.2.2.2 (1 / 2) (3 / 4) (by norm_num),
   (floatTo16BitPCM_spec.1 [1 / 2, 3 / 4]).2⟩

end Tts10

/-! ### `tts.10.js`: the content key and the spoken text -/

namespace Tts10

/-- C22: for two field triples in which no field contains `|`, equal content
keys mean equal texts sent by `fetchWavBlob`. -/
theorem key_determines_spoken_text (f1 e1 d1 f2 e2 d2 : JsString)
    (hf1 : '|' ∉ f1) (he1 : '|' ∉ e1) (hd1 : '|' ∉ d1)
    (hf2 : '|' ∉ f2) (he2 : '|' ∉ e2) (hd2 : '|' ∉ d2)
    (h : generateContentKey f1 e1 d1 = generateContentKey f2 e2 d2) :
    fetchWavBlobText f1 e1 d1 = fetchWavBlobText f2 e2 d2 := by
  rw [generateContentKey_front_tail, generateContentKey_front_tail] at h
  obtain ⟨hf, ht⟩ := front_tail_inj f1 f2 _ _ hf1 hf2 (keyTail_cases e1 d1)
    (keyTail_cases e2 d2) h
  rcases (keyTail_eq_iff e1 d1 e2 d2 he1 hd1 he2 hd2).1 ht with
    ⟨he, hd⟩ | ⟨hd, he, hde⟩ | ⟨he, hd, hed⟩
  · rw [hf, he, hd]
  · subst hf hd he hde
    cases d2 <;> simp [fetchWavBlobText, truthy]
  · subst hf he hd hed
    cases e2 <;> simp [fetchWavBlobText, truthy]

/-- C22 at the triples `("x", "a", "")` and `("x", "", "a")`, which have the same
key: both are spoken as `"x \n a"`. -/
theorem key_determines_spoken_text_witness :
    (('|' ∉ "x".toList ∧ '|' ∉ "a".toList ∧ '|' ∉ ([] : JsString)) ∧
     generateContentKey "x".toList "a".toList [] = generateContentKey "x".toList [] "a".toList) ∧
    fetchWavBlobText "x".toList "a".toList [] = fetchWavBlobText "x".toList [] "a".toList :=
  ⟨by decide,
   key_determines_spoken_text "x".toList "a".toList [] "x".toList [] "a".toList
    (by decide) (by decide) (by decide) (by decide) (by decide) (by decide) (by decide)⟩

end Tts10

/-! ### `tts.10.js`: `stopAll` -/

namespace Tts10

/-- C23: after `stopAll` the manager's `currentAudio`, `currentContentKey`,
`currentCardSide` and `currentAbortController` are `null`, the audio the manager
held is paused at position zero, the signal of the controller it held is
aborted, every other audio element and signal is as it was, and a second
`stopAll` changes nothing. -/
theorem stopAll_effect (s : State) (m : Manager) (hm : s.manager = some m) :
    (stopAll s).manager =
      some { currentAudio := none, currentContentKey := none,
             currentCardSide := none, currentAbortController := none } ∧
    (∀ a, m.currentAudio = some a → a < s.audios.length →
      (stopAll s).audios[a]? = some { paused := true, currentTime := 0 }) ∧
    (∀ a, m.currentAudio ≠ some a → (stopAll s).audios[a]? = s.audios[a]?) ∧
    (∀ c, m.currentAbortController = some c → c < s.controllers.length →
      signalAborted (stopAll s) c = true) ∧
    (∀ c, m.currentAbortController ≠ some c →
      signalAborted (stopAll s) c = signalAborted s c) ∧
    stopAll (stopAll s) = stopAll s := by
  refine ⟨?_, ?_, ?_, ?_, ?_, ?_⟩
  · simp [stopAll, hm]
  · intro a ha hlt
    simp [stopAll, hm, ha, pauseReset, modifyAt_getElem?, List.getElem?_eq_getElem hlt]
  · intro a ha
    cases hc : m.currentAudio with
    | none => simp [stopAll, hm, hc]
    | some b =>
      have hne : b ≠ a := by
        intro hba
        apply ha
        rw [hc, hba]
      simp [stopAll, hm, hc, pauseReset, modifyAt_getElem?, hne]
  · intro c hc hlt
    simp [signalAborted, stopAll, hm, hc, modifyAt_getElem?, List.getElem?_eq_getElem hlt]
  · intro c hc
    cases hcc : m.currentAbortController with
    | none => simp [signalAborted, stopAll, hm, hcc]
    | some b =>
      have hne : b ≠ c := by
        intro hbc
        apply hc
        rw [hcc, hbc]
      simp [signalAborted, stopAll, hm, hcc, modifyAt_getElem?, hne]
  · simp [stopAll, hm]

/-- C23 in the state after `playedBack`, where the manager holds audio 0, which
is playing at position 5, and controller 0. -/
theorem stopAll_effect_witness :
    ((run State.init playedBack).manager =
        some { currentAudio := some 0, currentContentKey := some "A".toList,
               currentCardSide := some Side.back, currentAbortController := some 0 } ∧
     (run State.init playedBack).audios[0]? = some { paused := false, currentTime := 5 } ∧
     signalAborted (run State.init playedBack) 0 = false) ∧
    (stopAll (run State.init playedBack)).manager =
      some { currentAudio := none, currentContentKey := none,
             currentCardSide := none, currentAbortController := none } ∧
    (stopAll (run State.init playedBack)).audios[0]?
      = some { paused := true, currentTime := 0 } ∧
    signalAborted (stopAll (run State.init playedBack)) 0 = true ∧
    stopAll (stopAll (run State.init playedBack)) = stopAll (run State.init playedBack) :=
  have h := stopAll_effect (run State.init playedBack)
    { currentAudio := some 0, currentContentKey := some "A".toList,
      currentCardSide := some Side.back, currentAbortController := some 0 }
    (by decide)
  ⟨by decide, h.1, h.2.1 0 rfl (by decide), h.2.2.2.1 0 rfl (by decide), h.2.2.2.2.2⟩

end Tts10

